import Mathlib

/-! # V4L2 camera HAL (samsung jet): buffer pools, device sessions, capture controller

A shallow embedding of `libcamera/V4L2Device.{h,cpp}`, `libcamera/V4L2Camera.cpp` and the
streaming part of `libcamera/V4L2JpegEncoder.cpp`.

* C++ objects become structures, member functions become functions that take the object and
  return the result together with the updated object.
* `sp<V4L2Allocation>` is a shared reference.  Pools live in a store (`Store`) and are named by
  their position in it; a null `sp` is `none`.
* The kernel driver behind a device handle is a parameter (`Driver`): every `ioctl`/`poll` asks it
  for a reply, given everything the device has been asked so far.
* Every device keeps a ghost `trace` of the member functions entered and the system calls issued.
* `int` is `Int`; conversions between `int` and `unsigned` are explicit (`toInt32`, `toUInt32`).
  `size_t` is 32 bits wide on the target (ARM11).
-/

namespace Jet

/-! ## Machine integers -/

/-- The value of a 32-bit `int` whose bit pattern is `n` modulo `2^32`. -/
def toInt32 (n : Int) : Int :=
  if n % 4294967296 < 2147483648 then n % 4294967296 else n % 4294967296 - 4294967296

/-- The value of an `unsigned int` whose bit pattern is that of the `int` `n`. -/
def toUInt32 (n : Int) : Nat := (n % 4294967296).toNat

/-! ## Constants

The `V4L2_*` and `POLL*` values are those of `<linux/videodev2.h>` and `<sys/poll.h>`. -/

def V4L2_PIX_FMT_YUV420 : Nat := 842093913
def V4L2_PIX_FMT_YUV422P : Nat := 1345466932
def V4L2_PIX_FMT_YUYV : Nat := 1448695129
def V4L2_PIX_FMT_YVYU : Nat := 1431918169
def V4L2_PIX_FMT_UYVY : Nat := 1498831189
def V4L2_PIX_FMT_VYUY : Nat := 1498765654
def V4L2_PIX_FMT_RGB565 : Nat := 1346520914
def V4L2_PIX_FMT_RGB32 : Nat := 876758866
def V4L2_PIX_FMT_NV21 : Nat := 825382478
def V4L2_PIX_FMT_JPEG : Nat := 1195724874

def V4L2_BUF_TYPE_VIDEO_CAPTURE : Nat := 1
def V4L2_BUF_TYPE_VIDEO_OUTPUT : Nat := 2
def V4L2_BUF_TYPE_VIDEO_CAPTURE_MPLANE : Nat := 9
def V4L2_BUF_TYPE_VIDEO_OUTPUT_MPLANE : Nat := 10

def V4L2_TYPE_IS_MULTIPLANAR (type : Nat) : Bool :=
  type == V4L2_BUF_TYPE_VIDEO_CAPTURE_MPLANE || type == V4L2_BUF_TYPE_VIDEO_OUTPUT_MPLANE

def V4L2_MEMORY_USERPTR : Nat := 2

/-- Embeds `V4L2_CTRL_CLASS_CAMERA | 0x1005`. -/
def V4L2_CID_S5K4CA_CAPTURE : Nat := 10096645

def POLLIN : Nat := 1
def POLLERR : Nat := 8

def MAX_BUFFERS : Nat := 8
def REC_BUFFERS : Nat := 5
def JPEG_MAX_SIZE : Nat := 4096
def JPEG_MAX_QUALITY : Nat := 3

def V4L2_CAPTURE : Nat := 0
def V4L2_OUTPUT : Nat := 1
def V4L2_DIRECTIONS : Nat := 2

/-! ## Buffer descriptors and pools (`V4L2Device.h`, `V4L2Device.cpp`) -/

/-- Embeds `class V4L2Buffer`. -/
structure V4L2Buffer where
  start : Nat
  length : Nat
  used : Nat
deriving DecidableEq, Repr

/-- Embeds `#define ALIGN_TO_PAGE(x) (((x) + 4095) & ~4095)` on a 32-bit `size_t`:
the sum wraps, `~4095` converts to `0xFFFFF000`. -/
def ALIGN_TO_PAGE (x : Nat) : Nat := Nat.land ((x + 4095) % 4294967296) 4294963200

/-- Embeds `get_pixel_depth`. -/
def get_pixel_depth (fmt : Nat) : Int :=
  if fmt = V4L2_PIX_FMT_NV21 ∨ fmt = V4L2_PIX_FMT_YUV420 then 12
  else if fmt = V4L2_PIX_FMT_RGB565 ∨ fmt = V4L2_PIX_FMT_YUYV ∨ fmt = V4L2_PIX_FMT_YVYU
      ∨ fmt = V4L2_PIX_FMT_UYVY ∨ fmt = V4L2_PIX_FMT_VYUY ∨ fmt = V4L2_PIX_FMT_YUV422P then 16
  else if fmt = V4L2_PIX_FMT_RGB32 then 32
  else 0

/-- Embeds `get_buffer_size`: `(width * height * depth) / 8` in `int` (wrapping, division truncating
towards zero), converted to `size_t`. -/
def get_buffer_size (width height : Int) (fmt : Nat) : Nat :=
  toUInt32 (Int.tdiv (toInt32 (width * height * get_pixel_depth fmt)) 8)

/-- What the platform returned while a pool was being built: whether `new MemoryHeapBase` gave an
object, the address `getBase()` reports (`none` is `MAP_FAILED`), whether `new MemoryHeapPmem`
gave an object. -/
structure HeapReply where
  heap : Bool
  base : Option Nat
  pmemHeap : Bool
deriving DecidableEq, Repr

/-- Embeds `class V4L2Allocation`: `buffers` holds the descriptors the constructor has written. -/
structure V4L2Allocation where
  nr_buffers : Nat
  buffers : List V4L2Buffer
deriving DecidableEq, Repr

namespace V4L2Allocation

/-- The `do { ... } while (--nr_bufs)` loop of the constructor, entered with `nr_bufs > 0`:
one descriptor per round, `vaddr` advancing by `buf_size`.  The field `used` is not written by
the constructor; it is modelled as 0. -/
def fill : Nat → Nat → Nat → List V4L2Buffer
  | 0, _, _ => []
  | n + 1, vaddr, buf_size => ⟨vaddr, buf_size, 0⟩ :: fill n (vaddr + buf_size) buf_size

/-- The pool with no descriptors, the state every early `return` of the constructor leaves. -/
def none_exposed : V4L2Allocation := ⟨0, []⟩

/-- Embeds `V4L2Allocation::V4L2Allocation(nr_bufs, buf_size, pmem_path)`; `platform` answers the heap
creation for the requested heap size. -/
def ctor (nr_bufs buf_size : Nat) (platform : Nat → HeapReply) : V4L2Allocation :=
  if nr_bufs = 0 ∨ nr_bufs > MAX_BUFFERS then none_exposed
  else
    let buf_size := ALIGN_TO_PAGE buf_size
    let heap_size := (buf_size * nr_bufs) % 4294967296
    let r := platform heap_size
    if r.heap = false then none_exposed
    else match r.base with
      | none => none_exposed
      | some vaddr =>
        if r.pmemHeap = false then none_exposed
        else ⟨nr_bufs, fill nr_bufs vaddr buf_size⟩

/-- Embeds `getBufferCount`. -/
def getBufferCount (a : V4L2Allocation) : Nat := a.nr_buffers

/-- Embeds `getBuffer(index)`: null (`none`) when `index >= nr_buffers`, else `&buffers[index]`. -/
def getBuffer (a : V4L2Allocation) (index : Nat) : Option V4L2Buffer :=
  if index ≥ a.nr_buffers then none else some (a.buffers.getD index ⟨0, 0, 0⟩)

end V4L2Allocation

/-- The store of pool objects; an `sp<V4L2Allocation>` is `some` position in it, or `none`. -/
abbrev Store := List V4L2Allocation

/-- Embeds `V4L2Device::emptyAllocation`, built by `emptyAllocation(0, 0, 0)`. -/
def emptyAllocation : V4L2Allocation := V4L2Allocation.ctor 0 0 (fun _ => ⟨false, none, false⟩)

/-- Dereference of a pool reference; `none` stands for `&emptyAllocation`. -/
def Store.deref (m : Store) (p : Option Nat) : V4L2Allocation :=
  match p with
  | none => emptyAllocation
  | some i => m.getD i emptyAllocation

/-! ## Device sessions (`V4L2Device.cpp`) -/

/-- The system calls a `V4L2Device` issues on its handle, with the fields it fills in. -/
inductive Ioctl where
  | REQBUFS (count type memory : Nat)
  | S_FMT (type : Nat) (width height : Int) (pixelformat sizeimage : Nat)
  | ENUM_FMT (type index : Nat)
  | STREAMON (type : Nat)
  | STREAMOFF (type : Nat)
  | QBUF (type index userptr length : Nat) (planes : Bool)
  | DQBUF (type : Nat)
  | G_CTRL (id : Nat)
  | S_CTRL (id : Nat) (value : Int)
  | G_PARM (type : Nat)
  | S_PARM (type : Nat)
  | POLL (events : Nat) (timeout : Int)
deriving DecidableEq, Repr

/-- The member functions of `V4L2Device`, with their arguments. -/
inductive DevCall where
  | setBufType (direction type : Nat)
  | pollDevice (mask : Nat) (timeout : Int)
  | setFormat (direction : Nat) (width height : Int) (fmt : Nat)
  | enumFormat (direction fmt : Nat)
  | reqBufs (direction : Nat) (allocation : Option Nat)
  | queryBuf (direction index : Nat)
  | setStream (direction : Nat) (on_ : Bool)
  | queueBuf (direction : Nat) (index : Int)
  | dequeueBuf (direction : Nat)
  | getCtrl (id : Nat)
  | setCtrl (id : Nat) (value : Int)
  | getParam (direction : Nat)
  | setParam (direction : Nat)
deriving DecidableEq, Repr

/-- What a system call gives back: its return value and the fields the kernel writes into the
argument (`count` for REQBUFS, `index` and `bytesused` for DQBUF, `value` for controls,
`revents` for poll). -/
structure Reply where
  ret : Int
  count : Nat
  index : Nat
  bytesused : Nat
  value : Int
  revents : Nat
deriving DecidableEq, Repr

/-- One entry of a device trace. -/
inductive Event where
  | call (c : DevCall)
  | sys (r : Ioctl) (reply : Reply)
deriving DecidableEq, Repr

/-- The kernel driver behind a handle.  `formats t` is the finite list `VIDIOC_ENUM_FMT`
enumerates for buffer type `t` (the call fails past its end and leaves the descriptor alone);
`reply` answers every other call from the trace so far. -/
structure Driver where
  formats : Nat → List Nat
  reply : List Event → Ioctl → Reply

/-- A value for each of the `V4L2_DIRECTIONS` directions. -/
structure PerDirection (α : Type) where
  capture : α
  output : α
deriving DecidableEq, Repr

/-- Array read `a[direction]`. -/
def PerDirection.get {α : Type} (a : PerDirection α) (direction : Nat) : α :=
  if direction = V4L2_CAPTURE then a.capture else a.output

/-- Array write `a[direction] = v`. -/
def PerDirection.set {α : Type} (a : PerDirection α) (direction : Nat) (v : α) :
    PerDirection α :=
  if direction = V4L2_CAPTURE then { a with capture := v } else { a with output := v }

/-- Embeds `class V4L2Device`; `allocation[d] = none` is the binding to `&emptyAllocation`. -/
structure V4L2Device where
  fd : Int
  allocation : PerDirection (Option Nat)
  type : PerDirection Nat
  isMultiPlane : PerDirection Bool
  trace : List Event
deriving DecidableEq, Repr

namespace V4L2Device

/-- The device as the constructor leaves it once `open` has given `fd`. -/
def opened (fd : Int) : V4L2Device :=
  { fd := fd
    allocation := ⟨none, none⟩
    type := ⟨V4L2_BUF_TYPE_VIDEO_CAPTURE, V4L2_BUF_TYPE_VIDEO_OUTPUT⟩
    isMultiPlane := ⟨false, false⟩
    trace := [] }

/-- Entry of a member function: recorded in the trace. -/
def enter (dev : V4L2Device) (c : DevCall) : V4L2Device :=
  { dev with trace := dev.trace ++ [Event.call c] }

/-- One `ioctl(fd, ...)` (or `poll`): the driver answers, the exchange is recorded. -/
def ioctl (k : Driver) (dev : V4L2Device) (r : Ioctl) : Reply × V4L2Device :=
  (k.reply dev.trace r, { dev with trace := dev.trace ++ [Event.sys r (k.reply dev.trace r)] })

/-- Embeds `pollDevice(mask, timeout)`; the result is the event mask (`revents`), 0 on error or
timeout. -/
def pollDevice (k : Driver) (dev : V4L2Device) (mask : Nat) (timeout : Int) :
    Nat × V4L2Device :=
  let dev := dev.enter (.pollDevice mask timeout)
  let (rep, dev) := dev.ioctl k (.POLL mask timeout)
  if rep.ret < 0 then (0, dev)
  else if rep.ret = 0 then (0, dev)
  else (rep.revents, dev)

/-- Embeds `setBufType(direction, type)`. -/
def setBufType (k : Driver) (dev : V4L2Device) (direction type : Nat) : Int × V4L2Device :=
  let dev := dev.enter (.setBufType direction type)
  if direction ≥ V4L2_DIRECTIONS then (-1, dev)
  else
    let (rep, dev) := dev.ioctl k (.REQBUFS 0 type V4L2_MEMORY_USERPTR)
    if rep.ret < 0 then (-1, dev)
    else (0, { dev with type := dev.type.set direction type,
                        isMultiPlane := dev.isMultiPlane.set direction
                          (V4L2_TYPE_IS_MULTIPLANAR type) })

/-- Embeds `setFormat(direction, width, height, fmt)`. -/
def setFormat (k : Driver) (dev : V4L2Device) (direction : Nat) (width height : Int)
    (fmt : Nat) : Int × V4L2Device :=
  let dev := dev.enter (.setFormat direction width height fmt)
  if direction ≥ V4L2_DIRECTIONS then (-1, dev)
  else
    let (rep, dev) := dev.ioctl k
      (.S_FMT (dev.type.get direction) width height fmt (get_buffer_size width height fmt))
    if rep.ret < 0 then (-1, dev) else (0, dev)

/-- The `while (!ioctl(fd, VIDIOC_ENUM_FMT, &fmtdesc))` loop of `enumFormat`, run against the
formats the driver still has to enumerate.  `index` and `pixelformat` are the fields of
`fmtdesc`; the result is the final `fmtdesc.pixelformat`. -/
def enumLoop (type fmt : Nat) : List Nat → Nat → Nat → V4L2Device → Nat × V4L2Device
  | [], index, pixelformat, dev =>
    (pixelformat,
      { dev with trace := dev.trace ++ [Event.sys (.ENUM_FMT type index) ⟨-1, 0, 0, 0, 0, 0⟩] })
  | x :: rest, index, _, dev =>
    let dev := { dev with
      trace := dev.trace ++ [Event.sys (.ENUM_FMT type index) ⟨0, 0, 0, 0, 0, 0⟩] }
    if x = fmt then (x, dev) else enumLoop type fmt rest (index + 1) x dev

/-- Embeds `enumFormat(direction, fmt)`. -/
def enumFormat (k : Driver) (dev : V4L2Device) (direction fmt : Nat) : Int × V4L2Device :=
  let dev := dev.enter (.enumFormat direction fmt)
  if direction ≥ V4L2_DIRECTIONS then (-1, dev)
  else
    let (pixelformat, dev) :=
      enumLoop (dev.type.get direction) fmt (k.formats (dev.type.get direction)) 0 0 dev
    if pixelformat ≠ fmt then (-1, dev) else (0, dev)

/-- Embeds `reqBufs(direction, allocation)`; the result is `req.count` as the kernel left it. -/
def reqBufs (k : Driver) (m : Store) (dev : V4L2Device) (direction : Nat)
    (allocation : Option Nat) : Int × V4L2Device :=
  let dev := dev.enter (.reqBufs direction allocation)
  if direction ≥ V4L2_DIRECTIONS then (-1, dev)
  else
    let (rep, dev) := dev.ioctl k
      (.REQBUFS (m.deref allocation).getBufferCount (dev.type.get direction) V4L2_MEMORY_USERPTR)
    if rep.ret < 0 then (-1, dev)
    else (toInt32 rep.count, { dev with allocation := dev.allocation.set direction allocation })

/-- Embeds `queryBuf(direction, index, &addr, &length)`: the status and, on success, the two outputs. -/
def queryBuf (m : Store) (dev : V4L2Device) (direction index : Nat) :
    Int × Option (Nat × Nat) × V4L2Device :=
  let dev := dev.enter (.queryBuf direction index)
  if direction ≥ V4L2_DIRECTIONS then (-1, none, dev)
  else match (m.deref (dev.allocation.get direction)).getBuffer index with
    | none => (-1, none, dev)
    | some buf => (0, some (buf.start, buf.length), dev)

/-- Embeds `setStream(direction, on)`. -/
def setStream (k : Driver) (dev : V4L2Device) (direction : Nat) (on_ : Bool) :
    Int × V4L2Device :=
  let dev := dev.enter (.setStream direction on_)
  if direction ≥ V4L2_DIRECTIONS then (-1, dev)
  else
    let (rep, dev) := dev.ioctl k
      (if on_ then .STREAMON (dev.type.get direction) else .STREAMOFF (dev.type.get direction))
    (rep.ret, dev)

/-- Embeds `queueBuf(direction, index)`. -/
def queueBuf (k : Driver) (m : Store) (dev : V4L2Device) (direction : Nat) (index : Int) :
    Int × V4L2Device :=
  let dev := dev.enter (.queueBuf direction index)
  if direction ≥ V4L2_DIRECTIONS then (-1, dev)
  else match (m.deref (dev.allocation.get direction)).getBuffer (toUInt32 index) with
    | none => (-1, dev)
    | some buf =>
      let (rep, dev) := dev.ioctl k
        (.QBUF (dev.type.get direction) (toUInt32 index) buf.start buf.length
          (dev.isMultiPlane.get direction))
      if rep.ret < 0 then (rep.ret, dev) else (0, dev)

/-- The write `buf->used = bytesused` through the reference bound to a direction.  Nothing is
written when the binding is `&emptyAllocation`, which has no descriptor. -/
def setUsed (m : Store) (p : Option Nat) (index bytesused : Nat) : Store :=
  match p with
  | none => m
  | some i =>
    m.set i { m.deref p with
      buffers := (m.deref p).buffers.modify (fun b => { b with used := bytesused }) index }

/-- Embeds `dequeueBuf(direction)`. -/
def dequeueBuf (k : Driver) (m : Store) (dev : V4L2Device) (direction : Nat) :
    Int × Store × V4L2Device :=
  let dev := dev.enter (.dequeueBuf direction)
  if direction ≥ V4L2_DIRECTIONS then (-1, m, dev)
  else
    let (rep, dev) := dev.ioctl k (.DQBUF (dev.type.get direction))
    if rep.ret < 0 then (rep.ret, m, dev)
    else match (m.deref (dev.allocation.get direction)).getBuffer rep.index with
      | none => (-1, m, dev)
      | some _ =>
        (toInt32 rep.index, setUsed m (dev.allocation.get direction) rep.index rep.bytesused, dev)

/-- Embeds `getCtrl(id, &value)`: the status and, on success, the value read. -/
def getCtrl (k : Driver) (dev : V4L2Device) (id : Nat) : Int × Option Int × V4L2Device :=
  let dev := dev.enter (.getCtrl id)
  let (rep, dev) := dev.ioctl k (.G_CTRL id)
  if rep.ret < 0 then (rep.ret, none, dev) else (0, some rep.value, dev)

/-- Embeds `setCtrl(id, value)`; the result is `ctrl.value` as the kernel left it. -/
def setCtrl (k : Driver) (dev : V4L2Device) (id : Nat) (value : Int) : Int × V4L2Device :=
  let dev := dev.enter (.setCtrl id value)
  let (rep, dev) := dev.ioctl k (.S_CTRL id value)
  if rep.ret < 0 then (rep.ret, dev) else (rep.value, dev)

/-- Embeds `getParam(direction, streamparm)`. -/
def getParam (k : Driver) (dev : V4L2Device) (direction : Nat) : Int × V4L2Device :=
  let dev := dev.enter (.getParam direction)
  if direction ≥ V4L2_DIRECTIONS then (-1, dev)
  else
    let (rep, dev) := dev.ioctl k (.G_PARM (dev.type.get direction))
    if rep.ret < 0 then (-1, dev) else (0, dev)

/-- Embeds `setParam(direction, streamparm)`. -/
def setParam (k : Driver) (dev : V4L2Device) (direction : Nat) : Int × V4L2Device :=
  let dev := dev.enter (.setParam direction)
  if direction ≥ V4L2_DIRECTIONS then (-1, dev)
  else
    let (rep, dev) := dev.ioctl k (.S_PARM (dev.type.get direction))
    if rep.ret < 0 then (rep.ret, dev) else (0, dev)

end V4L2Device

/-! ## The JPEG encode session (`V4L2JpegEncoder.cpp`) -/

/-- Embeds `struct ImageConfig`. -/
structure ImageConfig where
  width : Nat
  height : Nat
  format : Nat
  allocation : Option Nat
deriving DecidableEq, Repr

/-- Embeds `class V4L2JpegEncoder`, without the EXIF tables. -/
structure V4L2JpegEncoder where
  input : ImageConfig
  thumbnail : ImageConfig
  output : ImageConfig
  jpegQuality : Nat
  jpegSubsampling : Nat
  device : Option V4L2Device
deriving DecidableEq, Repr

namespace V4L2JpegEncoder

def V4L2_JPEG_CHROMA_SUBSAMPLING_422 : Nat := 1
def V4L2_JPEG_CHROMA_SUBSAMPLING_420 : Nat := 2

/-- Embeds `setInput(allocation, width, height, format)`. -/
def setInput (enc : V4L2JpegEncoder) (allocation : Option Nat) (width height format : Nat) :
    Int × V4L2JpegEncoder :=
  if width > JPEG_MAX_SIZE ∨ height > JPEG_MAX_SIZE then (-1, enc)
  else if format = V4L2_PIX_FMT_YUYV ∨ format = V4L2_PIX_FMT_RGB565 then
    (0, { enc with input := ⟨width, height, format, allocation⟩ })
  else (-1, enc)

/-- Embeds `setOutput(allocation, quality, ycbcr422)`. -/
def setOutput (enc : V4L2JpegEncoder) (allocation : Option Nat) (quality : Nat)
    (ycbcr422 : Bool) : Int × V4L2JpegEncoder :=
  if quality > JPEG_MAX_QUALITY then (-1, enc)
  else
    (0, { enc with
      output := { enc.output with allocation := allocation }
      jpegQuality := quality
      jpegSubsampling :=
        if ycbcr422 then V4L2_JPEG_CHROMA_SUBSAMPLING_422 else V4L2_JPEG_CHROMA_SUBSAMPLING_420 })

/-- Embeds `initDevice(direction, config)`, on the encoder device `dev`. -/
def initDevice (k : Driver) (m : Store) (dev : V4L2Device) (direction : Nat)
    (config : ImageConfig) : Int × V4L2Device :=
  let (ret, dev) := dev.enumFormat k direction config.format
  if ret < 0 then (-1, dev)
  else
    let (ret, dev) :=
      dev.setFormat k direction (toInt32 config.width) (toInt32 config.height) config.format
    if ret < 0 then (-1, dev)
    else
      let (ret, dev) := dev.reqBufs k m direction config.allocation
      if ret < 0 then (-1, dev)
      else
        let (ret, dev) := dev.queueBuf k m direction 0
        if ret < 0 then (-1, dev)
        else
          let (ret, dev) := dev.setStream k direction true
          if ret < 0 then (-1, dev) else (0, dev)

/-- Embeds `cleanupDevice(direction)`, on the encoder device `dev`. -/
def cleanupDevice (k : Driver) (m : Store) (dev : V4L2Device) (direction : Nat) :
    Int × Store × V4L2Device :=
  let (ret, m, dev) := dev.dequeueBuf k m direction
  if ret < 0 then (-1, m, dev)
  else
    let (ret, dev) := dev.setStream k direction false
    if ret < 0 then (-1, m, dev)
    else
      let (ret, dev) := dev.reqBufs k m direction none
      if ret < 0 then (-1, m, dev) else (0, m, dev)

/-- Embeds `encodeImage(input)`, on the encoder device `dev` (the member `device`, which `run` has
just created). -/
def encodeImage (k : Driver) (m : Store) (enc : V4L2JpegEncoder) (dev : V4L2Device)
    (input : ImageConfig) : Int × Store × V4L2JpegEncoder × V4L2Device :=
  let enc := { enc with output := { enc.output with width := input.width, height := input.height } }
  let (ret, dev) := initDevice k m dev V4L2_OUTPUT input
  if ret < 0 then (ret, m, enc, dev)
  else
    let (ret, dev) := initDevice k m dev V4L2_CAPTURE enc.output
    if ret < 0 then
      let (_, m, dev) := cleanupDevice k m dev V4L2_OUTPUT
      (ret, m, enc, dev)
    else
      let (revents, dev) := dev.pollDevice k (Nat.lor POLLIN POLLERR) 1000
      let (_, m, dev) := cleanupDevice k m dev V4L2_OUTPUT
      let (_, m, dev) := cleanupDevice k m dev V4L2_CAPTURE
      if Nat.land revents POLLIN = 0 then (-1, m, enc, dev) else (0, m, enc, dev)

/-- Embeds `openDevice()`: `fd` is what opening the encoder node gave (`-1` when it was not found or
could not be opened). -/
def openDevice (k : Driver) (fd : Int) : Int × Option V4L2Device :=
  if fd = -1 then (-1, none)
  else
    let (ret, dev) := (V4L2Device.opened fd).setBufType k V4L2_CAPTURE V4L2_BUF_TYPE_VIDEO_CAPTURE
    if ret < 0 then (-1, none)
    else
      let (ret, dev) := dev.setBufType k V4L2_OUTPUT V4L2_BUF_TYPE_VIDEO_OUTPUT
      if ret < 0 then (-1, none) else (0, some dev)

/-- Embeds `run()`.  `fd` is the handle `openDevice` obtains, `exifBuffer` says whether the EXIF
scratch buffer could be allocated and `exifSize` is what `buildExif` returns; the EXIF bytes and
the data moved inside the output buffer are not modelled.  The output pool is the caller's
`setOutput` argument and has a descriptor 0. -/
def run (k : Driver) (fd : Int) (exifBuffer : Bool) (exifSize : Nat) (m : Store)
    (enc : V4L2JpegEncoder) : Int × Store × V4L2JpegEncoder :=
  match openDevice k fd with
  | (_, none) => (-1, m, { enc with device := none })
  | (_, some dev) =>
    let (m, enc, dev) :=
      if enc.thumbnail.allocation ≠ none then
        let (_, m, enc, dev) := encodeImage k m enc dev enc.thumbnail
        (m, enc, dev)
      else (m, enc, dev)
    let (ret, m, enc, _) := encodeImage k m enc dev enc.input
    if ret < 0 then (-1, m, { enc with device := none })
    else if exifBuffer = false then (-1, m, { enc with device := none })
    else
      match (m.deref enc.output.allocation).getBuffer 0 with
      | none => (toInt32 exifSize, m, { enc with device := none })
      | some buf => (toInt32 (buf.used + exifSize), m, { enc with device := none })

end V4L2JpegEncoder

/-! ## The capture controller (`V4L2Camera.cpp`) -/

def CAMERA_CTRL_FRAME_RATE : Nat := 0
def CAMERA_CTRL_AUTO_WB : Nat := 1
def CAMERA_CTRL_WB_PRESET : Nat := 2
def CAMERA_CTRL_BRIGHTNESS : Nat := 3
def CAMERA_CTRL_COLORFX : Nat := 4
def CAMERA_CTRL_ISO : Nat := 5
def CAMERA_CTRL_CONTRAST : Nat := 6
def CAMERA_CTRL_SATURATION : Nat := 7
def CAMERA_CTRL_SHARPNESS : Nat := 8
def CAMERA_CTRL_GLAMOUR : Nat := 9
def CAMERA_CTRL_METERING : Nat := 10
def CAMERA_CTRL_NIGHTSHOT : Nat := 11
def CAMERA_CTRL_FOCUS_MODE : Nat := 12
def CAMERA_CTRL_AUTO_EXPOSURE : Nat := 13
def CAMERA_CTRL_JPEG_QUALITY : Nat := 14
def CAMERA_CTRL_EXIF_ORIENTATION : Nat := 15
def CAMERA_CTRL_GPS_LATITUDE : Nat := 16
def CAMERA_CTRL_GPS_LONGITUDE : Nat := 17
def CAMERA_CTRL_GPS_ALTITUDE : Nat := 18
def CAMERA_CTRL_GPS_TIMESTAMP : Nat := 19
def CAMERA_CTRL_SCENE_MODE : Nat := 20
def CAMERA_CTRL_NUM : Nat := 21

def EINVAL : Int := 22

/-- Embeds `V4L2Camera::ctrlTable`: the hardware control behind each camera control, 0 for the controls
kept only in `ctrlValues`.  The entries are `V4L2_CID_S5K4CA_FRAME_RATE`,
`V4L2_CID_AUTO_WHITE_BALANCE`, `V4L2_CID_S5K4CA_WB_PRESET`, `V4L2_CID_BRIGHTNESS`,
`V4L2_CID_COLORFX`, `V4L2_CID_S5K4CA_ISO`, `V4L2_CID_CONTRAST`, `V4L2_CID_SATURATION`,
`V4L2_CID_SHARPNESS`, `V4L2_CID_S5K4CA_GLAMOUR`, `V4L2_CID_S5K4CA_METERING`,
`V4L2_CID_S5K4CA_NIGHTSHOT`, `V4L2_CID_FOCUS_ABSOLUTE`, `V4L2_CID_EXPOSURE_AUTO`, then seven
internal ones. -/
def ctrlTable : List Nat :=
  [10096644, 9963788, 10096641, 9963776, 9963807, 10096642, 9963777, 9963778, 9963803,
   10096646, 10096643, 10096647, 10094858, 10094849, 0, 0, 0, 0, 0, 0, 0]

/-- The platform and the two kernel drivers a camera runs against.  `camera` drives the capture
node and `jpeg` the encoder node.  The other fields answer library calls, given the trace of the
capture device at the time of the call: `heap` the heap creation inside a `V4L2Allocation`
constructor (by heap size), `malloc` a `malloc(size)` (`none` is `NULL`), `jpegFd`, `exifBuffer`
and `buildExif` the three inputs of `V4L2JpegEncoder.run`. -/
structure Env where
  camera : Driver
  jpeg : Driver
  heap : List Event → Nat → HeapReply
  malloc : List Event → Nat → Option Nat
  jpegFd : List Event → Int
  exifBuffer : List Event → Bool
  buildExif : List Event → Nat

/-- Embeds `class V4L2Camera`: the members the streaming code reads or writes, and `pools`, the store
the `sp<V4L2Allocation>` members point into.  `jpegEncoder` exists whenever `device` does
(`openCamera` creates both, `closeCamera` deletes both). -/
structure V4L2Camera where
  device : Option V4L2Device
  jpegEncoder : V4L2JpegEncoder
  previewStarted : Bool
  recordingStarted : Bool
  previewFormat : Nat
  previewTargetFormat : Nat
  previewWidth : Int
  previewHeight : Int
  previewAllocation : Option Nat
  previewConvBuffer : Option Nat
  snapshotFormat : Nat
  snapshotTargetFormat : Nat
  snapshotWidth : Int
  snapshotHeight : Int
  recordingWidth : Int
  recordingHeight : Int
  recordAllocation : Option Nat
  prevBufIdx : Int
  ctrlValues : List Int
  pools : Store
deriving DecidableEq, Repr

namespace V4L2Camera

/-- Embeds `new V4L2Allocation(nr_bufs, buf_size, PMEM_DEV_NAME)` assigned to an `sp`: the object is
built, put in the store, and its reference returned.  `trace` is the capture device trace at
the time of the call. -/
def newAllocation (e : Env) (trace : List Event) (cam : V4L2Camera) (nr_bufs buf_size : Nat) :
    Nat × V4L2Camera :=
  (cam.pools.length,
    { cam with pools := cam.pools ++ [V4L2Allocation.ctor nr_bufs buf_size (e.heap trace)] })

/-- Embeds `getControl(ctrl)`.  For a hardware-backed control the source calls `device->getCtrl`
without testing `device`; with no device that is a null dereference, for which the model has
the initial `val`.  The theorems about hardware-backed controls assume a device. -/
def getControl (e : Env) (cam : V4L2Camera) (ctrl : Nat) : Int × V4L2Camera :=
  if ctrl ≥ CAMERA_CTRL_NUM then (-EINVAL, cam)
  else if ctrlTable.getD ctrl 0 = 0 then (cam.ctrlValues.getD ctrl 0, cam)
  else match cam.device with
    | none => (0, cam)
    | some dev =>
      let (_, val, dev) := dev.getCtrl e.camera (ctrlTable.getD ctrl 0)
      (val.getD 0, { cam with device := some dev })

/-- Embeds `previewPoll()`, on the capture device. -/
def previewPoll (k : Driver) (dev : V4L2Device) : Nat × V4L2Device :=
  let (ret, dev) := dev.pollDevice k (Nat.lor POLLIN POLLERR) 1000
  if Nat.land ret POLLIN = 0 then (0, dev) else (ret, dev)

/-- The loops `for (i = first; i < REC_BUFFERS; i++) { ret = device->queueBuf(V4L2_CAPTURE, i);
if (ret < 0) goto ...; }` of `startPreview` and `startRecord`, over the indices still to visit.
The result is negative when a `queueBuf` failed (the loop was left), 0 otherwise. -/
def queueBufs (k : Driver) (m : Store) : List Int → V4L2Device → Int × V4L2Device
  | [], dev => (0, dev)
  | i :: rest, dev =>
    let (ret, dev) := dev.queueBuf k m V4L2_CAPTURE i
    if ret < 0 then (ret, dev) else queueBufs k m rest dev

/-- The label `err_free_conv_buffer` of `startPreview`. -/
def startPreview_err_free_conv_buffer (cam : V4L2Camera) : Int × V4L2Camera :=
  (-1, { cam with previewConvBuffer := none })

/-- The label `err_free_v4l2_allocation` of `startPreview`, falling through to
`err_free_conv_buffer`. -/
def startPreview_err_free_v4l2_allocation (e : Env) (cam : V4L2Camera) (dev : V4L2Device) :
    Int × V4L2Camera :=
  let cam := { cam with previewAllocation := none }
  let (_, dev) := dev.reqBufs e.camera cam.pools V4L2_CAPTURE none
  startPreview_err_free_conv_buffer { cam with device := some dev }

/-- Embeds `startPreview()`, third part (from `prevBufIdx = 0` to the end): all buffers but 0 are
queued, the stream is switched on and the first frame awaited. -/
def startPreview_stream (e : Env) (cam : V4L2Camera) (dev : V4L2Device) : Int × V4L2Camera :=
  let cam := { cam with prevBufIdx := 0 }
  let (ret, dev) := queueBufs e.camera cam.pools
    ((List.range' 1 (REC_BUFFERS - 1)).map Int.ofNat) dev
  if ret < 0 then startPreview_err_free_v4l2_allocation e cam dev
  else
    let (ret, dev) := dev.setStream e.camera V4L2_CAPTURE true
    if ret < 0 then startPreview_err_free_v4l2_allocation e cam dev
    else
      let (ret, dev) := dev.pollDevice e.camera (Nat.lor POLLIN POLLERR) 10000
      if Nat.land ret POLLIN = 0 then
        let (_, dev) := dev.setStream e.camera V4L2_CAPTURE false
        startPreview_err_free_v4l2_allocation e cam dev
      else (0, { cam with device := some dev, previewStarted := true })

/-- Embeds `startPreview()`, second part (from the buffer sizes to `reqBufs`): the conversion buffer
and the pool are allocated and the pool is registered.  `new` does not return null, so the
check `previewAllocation == 0` has no branch here. -/
def startPreview_buffers (e : Env) (cam : V4L2Camera) (dev : V4L2Device) : Int × V4L2Camera :=
  let sizeReal := get_buffer_size cam.previewWidth cam.previewHeight cam.previewFormat
  let sizeTarget := get_buffer_size cam.previewWidth cam.previewHeight cam.previewTargetFormat
  let buf_size := max sizeReal sizeTarget
  let conv :=
    if cam.previewFormat ≠ cam.previewTargetFormat then e.malloc dev.trace sizeTarget
    else cam.previewConvBuffer
  if cam.previewFormat ≠ cam.previewTargetFormat ∧ conv = none then
    (-1, { cam with device := some dev, previewConvBuffer := none })
  else
    let cam := { cam with previewConvBuffer := conv }
    let (p, cam) := newAllocation e dev.trace cam REC_BUFFERS buf_size
    let cam := { cam with previewAllocation := some p }
    let (ret, dev) := dev.reqBufs e.camera cam.pools V4L2_CAPTURE (some p)
    if ret < 0 then startPreview_err_free_v4l2_allocation e cam dev
    else startPreview_stream e cam dev

/-- Embeds `startPreview()`: the guards and the format negotiation, then `startPreview_buffers`. -/
def startPreview (e : Env) (cam : V4L2Camera) : Int × V4L2Camera :=
  if cam.previewStarted then (0, cam)
  else match cam.device with
    | none => (-1, cam)
    | some dev =>
      let (ret, dev) := dev.enumFormat e.camera V4L2_CAPTURE cam.previewFormat
      if ret < 0 then (-1, { cam with device := some dev })
      else
        let (ret, dev) := dev.setCtrl e.camera V4L2_CID_S5K4CA_CAPTURE 0
        if ret < 0 then (-1, { cam with device := some dev })
        else
          let (ret, dev) := dev.setFormat e.camera V4L2_CAPTURE
            cam.previewWidth cam.previewHeight cam.previewFormat
          if ret < 0 then (-1, { cam with device := some dev })
          else startPreview_buffers e cam dev

/-- Embeds `stopPreview()`. -/
def stopPreview (e : Env) (cam : V4L2Camera) : Int × V4L2Camera :=
  if cam.previewStarted = false then (0, cam)
  else match cam.device with
    | none => (-1, cam)
    | some dev =>
      let (ret, dev) := dev.setStream e.camera V4L2_CAPTURE false
      if ret < 0 then (-1, { cam with device := some dev })
      else
        let (_, dev) := dev.reqBufs e.camera cam.pools V4L2_CAPTURE none
        (ret, { cam with
          device := some dev
          previewAllocation := none
          previewConvBuffer := none
          previewStarted := false })

/-- Embeds `getPreview()`.  The frame conversion (`convertFrame`) rewrites buffer contents only, which
the model does not hold.  The source reads through `device` unchecked; with no device the model
reports failure. -/
def getPreview (e : Env) (cam : V4L2Camera) : Int × V4L2Camera :=
  if cam.previewStarted = false then (-1, cam)
  else match cam.device with
    | none => (-1, cam)
    | some dev =>
      let (polled, dev) := previewPoll e.camera dev
      if polled = 0 then (-1, (stopPreview e { cam with device := some dev }).2)
      else
        let (ret, dev) := dev.queueBuf e.camera cam.pools V4L2_CAPTURE cam.prevBufIdx
        if ret < 0 then (-1, { cam with device := some dev })
        else
          let (index, m, dev) := dev.dequeueBuf e.camera cam.pools V4L2_CAPTURE
          if index < 0 ∨ index ≥ REC_BUFFERS then (-1, { cam with device := some dev, pools := m })
          else (index, { cam with device := some dev, pools := m, prevBufIdx := index })

/-- The label `err_free_v4l2_allocation` of `startRecord`. -/
def startRecord_err_free_v4l2_allocation (e : Env) (cam : V4L2Camera) (dev : V4L2Device) :
    Int × V4L2Camera :=
  let (_, dev) := dev.reqBufs e.camera cam.pools V4L2_CAPTURE none
  (-1, { cam with device := some dev, recordAllocation := none })

/-- Embeds `startRecord()`, second part (from the queueing loop to the end): all buffers are queued,
the stream is switched on and the first frame awaited. -/
def startRecord_stream (e : Env) (cam : V4L2Camera) (dev : V4L2Device) : Int × V4L2Camera :=
  let (ret, dev) := queueBufs e.camera cam.pools ((List.range REC_BUFFERS).map Int.ofNat) dev
  if ret < 0 then startRecord_err_free_v4l2_allocation e cam dev
  else
    let (ret, dev) := dev.setStream e.camera V4L2_CAPTURE true
    if ret < 0 then startRecord_err_free_v4l2_allocation e cam dev
    else
      let (ret, dev) := dev.pollDevice e.camera (Nat.lor POLLIN POLLERR) 10000
      if Nat.land ret POLLIN = 0 then
        let (_, dev) := dev.setStream e.camera V4L2_CAPTURE false
        startRecord_err_free_v4l2_allocation e cam dev
      else (0, { cam with device := some dev, recordingStarted := true })

/-- Embeds `startRecord()`: the guards, the format negotiation, the allocation and registration of the
pool, then `startRecord_stream`. -/
def startRecord (e : Env) (cam : V4L2Camera) : Int × V4L2Camera :=
  if cam.recordingStarted then (0, cam)
  else match cam.device with
    | none => (-1, cam)
    | some dev =>
      let (ret, dev) := dev.enumFormat e.camera V4L2_CAPTURE V4L2_PIX_FMT_YUYV
      if ret < 0 then (-1, { cam with device := some dev })
      else
        let (ret, dev) := dev.setFormat e.camera V4L2_CAPTURE
          cam.recordingWidth cam.recordingHeight V4L2_PIX_FMT_YUYV
        if ret < 0 then (-1, { cam with device := some dev })
        else
          let buf_size := get_buffer_size cam.recordingWidth cam.recordingHeight V4L2_PIX_FMT_YUYV
          let (p, cam) := newAllocation e dev.trace cam REC_BUFFERS buf_size
          let cam := { cam with recordAllocation := some p }
          let (ret, dev) := dev.reqBufs e.camera cam.pools V4L2_CAPTURE (some p)
          if ret < 0 then (-1, { cam with device := some dev })
          else startRecord_stream e cam dev

/-- Embeds `stopRecord()`. -/
def stopRecord (e : Env) (cam : V4L2Camera) : Int × V4L2Camera :=
  if cam.recordingStarted = false then (0, cam)
  else match cam.device with
    | none => (-1, cam)
    | some dev =>
      let (ret, dev) := dev.setStream e.camera V4L2_CAPTURE false
      if ret < 0 then (-1, { cam with device := some dev })
      else
        let (_, dev) := dev.reqBufs e.camera cam.pools V4L2_CAPTURE none
        (0, { cam with device := some dev, recordAllocation := none, recordingStarted := false })

/-- Embeds `getRecordFrame()`; with no device the model reports failure. -/
def getRecordFrame (e : Env) (cam : V4L2Camera) : Int × V4L2Camera :=
  if cam.recordingStarted = false then (-1, cam)
  else match cam.device with
    | none => (-1, cam)
    | some dev =>
      let (_, dev) := previewPoll e.camera dev
      let (index, m, dev) := dev.dequeueBuf e.camera cam.pools V4L2_CAPTURE
      (index, { cam with device := some dev, pools := m })

/-- Embeds `releaseRecordFrame(index)`; with no device the model reports failure. -/
def releaseRecordFrame (e : Env) (cam : V4L2Camera) (index : Int) : Int × V4L2Camera :=
  if cam.recordingStarted = false then (0, cam)
  else match cam.device with
    | none => (-1, cam)
    | some dev =>
      let (ret, dev) := dev.queueBuf e.camera cam.pools V4L2_CAPTURE index
      (ret, { cam with device := some dev })

/-- The label `error` of `getSnapshotAndJpeg`. -/
def getSnapshotAndJpeg_error (e : Env) (cam : V4L2Camera) (dev : V4L2Device) :
    Int × V4L2Camera :=
  let (_, dev) := dev.setStream e.camera V4L2_CAPTURE false
  let (_, dev) := dev.reqBufs e.camera cam.pools V4L2_CAPTURE none
  (-1, { cam with device := some dev })

/-- The end of `getSnapshotAndJpeg`, from the two `dumpData` calls on: the copy into `yuv_buf`,
with its conversion buffer.  `dumpData` writes files only, `convertFrame` and `memcpy` buffer
contents only; none of them is part of the model. -/
def getSnapshotAndJpeg_yuv (e : Env) (cam : V4L2Camera) (dev : V4L2Device) (yuv_buf : Bool)
    (sizeTarget : Nat) : Int × V4L2Camera :=
  if yuv_buf = true ∧ cam.snapshotFormat ≠ cam.snapshotTargetFormat
      ∧ e.malloc dev.trace sizeTarget = none then
    (-1, { cam with device := some dev })
  else (0, { cam with device := some dev })

/-- Embeds `setExifChangedAttribute()`, for what it does to the camera and its device: its
`getControl` calls, in the order of the source.  Those for `CAMERA_CTRL_METERING` and
`CAMERA_CTRL_AUTO_WB` read the device; the others read the cache.  The EXIF tags and the GPS data
it hands to the encoder are not modelled. -/
def setExifChangedAttribute (e : Env) (cam : V4L2Camera) : V4L2Camera :=
  let (_, cam) := getControl e cam CAMERA_CTRL_EXIF_ORIENTATION
  let (_, cam) := getControl e cam CAMERA_CTRL_SCENE_MODE
  let (_, cam) := getControl e cam CAMERA_CTRL_METERING
  let (_, cam) := getControl e cam CAMERA_CTRL_AUTO_WB
  let (_, cam) := getControl e cam CAMERA_CTRL_SCENE_MODE
  let (gpsLatitude, cam) := getControl e cam CAMERA_CTRL_GPS_LATITUDE
  let (gpsLongitude, cam) := getControl e cam CAMERA_CTRL_GPS_LONGITUDE
  if gpsLatitude = 0 ∧ gpsLongitude = 0 then cam
  else
    let (_, cam) := getControl e cam CAMERA_CTRL_GPS_ALTITUDE
    let (_, cam) := getControl e cam CAMERA_CTRL_GPS_TIMESTAMP
    cam

/-- The `if (jpeg_buf) { ... }` block of `getSnapshotAndJpeg` and what follows it; `allocation`
is the snapshot pool. -/
def getSnapshotAndJpeg_jpeg (e : Env) (cam : V4L2Camera) (dev : V4L2Device)
    (yuv_buf jpeg_buf : Bool) (allocation : Nat) (buf_size sizeTarget : Nat) :
    Int × V4L2Camera :=
  if jpeg_buf = false then getSnapshotAndJpeg_yuv e cam dev yuv_buf sizeTarget
  else
    let (ret, enc) := cam.jpegEncoder.setInput (some allocation)
      (toUInt32 cam.snapshotWidth) (toUInt32 cam.snapshotHeight) cam.snapshotFormat
    let cam := { cam with jpegEncoder := enc }
    if ret < 0 then getSnapshotAndJpeg_error e cam dev
    else
      let (jpegAllocation, cam) := newAllocation e dev.trace cam 1 buf_size
      if (cam.pools.deref (some jpegAllocation)).getBufferCount < 1 then
        getSnapshotAndJpeg_error e cam dev
      else
        let (quality, cam) := getControl e { cam with device := some dev } CAMERA_CTRL_JPEG_QUALITY
        let dev := cam.device.getD dev
        let jpegQuality := toUInt32 (100 - quality)
        let jpegQuality := (JPEG_MAX_QUALITY * jpegQuality) % 4294967296 / 100
        let (ret, enc) := cam.jpegEncoder.setOutput (some jpegAllocation) jpegQuality true
        let cam := { cam with jpegEncoder := enc }
        if ret < 0 then getSnapshotAndJpeg_error e cam dev
        else
          let cam := setExifChangedAttribute e cam
          let dev := cam.device.getD dev
          let (ret, m, enc) := cam.jpegEncoder.run e.jpeg (e.jpegFd dev.trace)
            (e.exifBuffer dev.trace) (e.buildExif dev.trace) cam.pools
          let cam := { cam with jpegEncoder := enc, pools := m }
          if ret < 0 then getSnapshotAndJpeg_error e cam dev
          else getSnapshotAndJpeg_yuv e cam dev yuv_buf sizeTarget

/-- Embeds `getSnapshotAndJpeg`, from `queueBuf(V4L2_CAPTURE, 0)` to the stream-off and
deregistration that follow the dequeue: the one-shot capture into the registered pool
`allocation`. -/
def getSnapshotAndJpeg_capture (e : Env) (cam : V4L2Camera) (dev : V4L2Device)
    (yuv_buf jpeg_buf : Bool) (allocation : Nat) (buf_size sizeTarget : Nat) :
    Int × V4L2Camera :=
  let (ret, dev) := dev.queueBuf e.camera cam.pools V4L2_CAPTURE 0
  if ret < 0 then getSnapshotAndJpeg_error e cam dev
  else
    let (ret, dev) := dev.setStream e.camera V4L2_CAPTURE true
    if ret < 0 then getSnapshotAndJpeg_error e cam dev
    else
      let (ret, dev) := dev.pollDevice e.camera (Nat.lor POLLIN POLLERR) 10000
      if Nat.land ret POLLIN = 0 then getSnapshotAndJpeg_error e cam dev
      else
        let (index, m, dev) := dev.dequeueBuf e.camera cam.pools V4L2_CAPTURE
        let cam := { cam with pools := m }
        if index < 0 then getSnapshotAndJpeg_error e cam dev
        else
          let (_, dev) := dev.setStream e.camera V4L2_CAPTURE false
          let (_, dev) := dev.reqBufs e.camera cam.pools V4L2_CAPTURE none
          getSnapshotAndJpeg_jpeg e cam dev yuv_buf jpeg_buf allocation buf_size sizeTarget

/-- Embeds `getSnapshotAndJpeg`, from `setCtrl` to the check of `getBuffer(0)`: capture mode, format
negotiation, allocation and registration of the one-buffer pool.  The `switch (snapshotFormat)`
only logs. -/
def getSnapshotAndJpeg_configure (e : Env) (cam : V4L2Camera) (dev : V4L2Device)
    (yuv_buf jpeg_buf : Bool) : Int × V4L2Camera :=
  let (ret, dev) := dev.setCtrl e.camera V4L2_CID_S5K4CA_CAPTURE 1
  if ret < 0 then (-1, { cam with device := some dev })
  else
    let (ret, dev) := dev.enumFormat e.camera V4L2_CAPTURE cam.snapshotFormat
    if ret < 0 then (-1, { cam with device := some dev })
    else
      let (ret, dev) := dev.setFormat e.camera V4L2_CAPTURE
        cam.snapshotWidth cam.snapshotHeight cam.snapshotFormat
      if ret < 0 then (-1, { cam with device := some dev })
      else
        let sizeReal := get_buffer_size cam.snapshotWidth cam.snapshotHeight cam.snapshotFormat
        let sizeTarget :=
          get_buffer_size cam.snapshotWidth cam.snapshotHeight cam.snapshotTargetFormat
        let buf_size := max sizeReal sizeTarget
        let (allocation, cam) := newAllocation e dev.trace cam 1 buf_size
        if (cam.pools.deref (some allocation)).getBufferCount < 1 then
          (-1, { cam with device := some dev })
        else
          let (ret, dev) := dev.reqBufs e.camera cam.pools V4L2_CAPTURE (some allocation)
          if ret < 0 then (-1, { cam with device := some dev })
          else match (cam.pools.deref (some allocation)).getBuffer 0 with
            | none => getSnapshotAndJpeg_error e cam dev
            | some _ =>
              getSnapshotAndJpeg_capture e cam dev yuv_buf jpeg_buf allocation buf_size sizeTarget

/-- Embeds `getSnapshotAndJpeg(yuv_buf, jpeg_buf, output_size)`: the guards and the stop of a running
preview, then `getSnapshotAndJpeg_configure`.  The two flags say which of the output pointers
are non-null; what is written through the pointers is not part of the model. -/
def getSnapshotAndJpeg (e : Env) (cam : V4L2Camera) (yuv_buf jpeg_buf : Bool) :
    Int × V4L2Camera :=
  match cam.device with
  | none => (-1, cam)
  | some _ =>
    if yuv_buf = false ∧ jpeg_buf = false then (0, cam)
    else
      let cam := if cam.previewStarted then (stopPreview e cam).2 else cam
      match cam.device with
      | none => (-1, cam)
      | some dev => getSnapshotAndJpeg_configure e cam dev yuv_buf jpeg_buf

end V4L2Camera

/-! ## Observations on traces -/

/-- The member-function calls recorded in a trace, in order. -/
def calls : List Event → List DevCall
  | [] => []
  | Event.call c :: rest => c :: calls rest
  | Event.sys _ _ :: rest => calls rest

/-- The calls recorded in `after` beyond those already in `before`. -/
def newCalls (before after : List Event) : List DevCall :=
  (calls after).drop (calls before).length

/-- The trace of the capture device of a camera (empty when there is none). -/
def V4L2Camera.trace (cam : V4L2Camera) : List Event :=
  match cam.device with
  | none => []
  | some dev => dev.trace

/-- Runs `n` consecutive `getPreview()` calls: their results in order, and the state they leave. -/
def getPreviews (e : Env) : Nat → V4L2Camera → List Int × V4L2Camera
  | 0, cam => ([], cam)
  | n + 1, cam =>
    ((V4L2Camera.getPreview e cam).1 :: (getPreviews e n (V4L2Camera.getPreview e cam).2).1,
      (getPreviews e n (V4L2Camera.getPreview e cam).2).2)

/-- Whether a call hands a buffer to the device or takes one back. -/
def isBufferCall : DevCall → Bool
  | DevCall.queueBuf _ _ => true
  | DevCall.dequeueBuf _ => true
  | _ => false

/-- The buffer calls of a run of `getPreview()` calls that returned `rs`, if every call enqueues
what the call before it returned (`prev` for the first) and then dequeues. -/
def lagSchedule (prev : Int) : List Int → List DevCall
  | [] => []
  | r :: rs =>
    DevCall.queueBuf V4L2_CAPTURE prev :: DevCall.dequeueBuf V4L2_CAPTURE :: lagSchedule r rs

/-- The index a call queues on the capture direction, if it is such a call. -/
def queuedIndex : DevCall → Option Int
  | DevCall.queueBuf direction index => if direction = V4L2_CAPTURE then some index else none
  | _ => none

/-- The kernel-held set after the events `evs`, starting from `s`: a `VIDIOC_QBUF` that
succeeds adds its index, a `VIDIOC_DQBUF` that succeeds removes the index it reports (a 32-bit
field). -/
def heldAfter (s : Finset Nat) : List Event → Finset Nat
  | [] => s
  | Event.sys (Ioctl.QBUF _ index _ _ _) reply :: rest =>
    heldAfter (if reply.ret < 0 then s else insert index s) rest
  | Event.sys (Ioctl.DQBUF _) reply :: rest =>
    heldAfter (if reply.ret < 0 then s else s.erase (reply.index % 4294967296)) rest
  | _ :: rest => heldAfter s rest

/-- The kernel-held set built up by the events that `after` has beyond `before`. -/
def heldSince (before after : List Event) : Finset Nat :=
  heldAfter ∅ (after.drop before.length)

/-- The trace `t'` continues `t`, and the continuation changes the kernel-held set by `f`. -/
def HeldStep (t t' : List Event) (f : Finset Nat → Finset Nat) : Prop :=
  ∃ evs, t' = t ++ evs ∧ ∀ s, heldAfter s evs = f s

/-! ## A concrete platform and camera

A driver that accepts everything, reports a frame on every poll and hands buffers back in the
order they were queued; a heap that always maps at address 4096; a camera as the
constructor and `openCamera` leave it. -/

/-- The indices queued for buffer type `type` and not yet handed back, oldest first, after a
trace; `q` is the queue before it.  A successful `VIDIOC_REQBUFS` empties the queue. -/
def fifo (type : Nat) : List Event → List Nat → List Nat
  | [], q => q
  | Event.sys (Ioctl.QBUF t index _ _ _) reply :: rest, q =>
    fifo type rest (if t = type ∧ 0 ≤ reply.ret then q ++ [index] else q)
  | Event.sys (Ioctl.DQBUF t) reply :: rest, q =>
    fifo type rest (if t = type ∧ 0 ≤ reply.ret then q.tail else q)
  | Event.sys (Ioctl.REQBUFS _ t _) reply :: rest, q =>
    fifo type rest (if t = type ∧ 0 ≤ reply.ret then [] else q)
  | _ :: rest, q => fifo type rest q

/-- The replies of the accepting driver: a dequeue hands back the oldest queued buffer, with
1024 bytes used, and fails when nothing is queued. -/
def okReply (t : List Event) : Ioctl → Reply
  | Ioctl.POLL _ _ => ⟨1, 0, 0, 0, 0, POLLIN⟩
  | Ioctl.REQBUFS count _ _ => ⟨0, count, 0, 0, 0, 0⟩
  | Ioctl.DQBUF type =>
    match fifo type t [] with
    | [] => ⟨-1, 0, 0, 0, 0, 0⟩
    | index :: _ => ⟨0, 0, index, 1024, 0, 0⟩
  | _ => ⟨0, 0, 0, 0, 0, 0⟩

/-- The accepting driver. -/
def okDriver : Driver :=
  { formats := fun _ => [V4L2_PIX_FMT_YUV420, V4L2_PIX_FMT_YUYV, V4L2_PIX_FMT_JPEG]
    reply := okReply }

/-- A platform on which every call succeeds. -/
def okEnv : Env :=
  { camera := okDriver
    jpeg := okDriver
    heap := fun _ _ => ⟨true, some 4096, true⟩
    malloc := fun _ _ => some 8192
    jpegFd := fun _ => 4
    exifBuffer := fun _ => true
    buildExif := fun _ => 512 }

/-- The encoder as its constructor leaves it. -/
def freshEncoder : V4L2JpegEncoder :=
  { input := ⟨0, 0, V4L2_PIX_FMT_YUYV, none⟩
    thumbnail := ⟨0, 0, V4L2_PIX_FMT_YUYV, none⟩
    output := ⟨0, 0, V4L2_PIX_FMT_JPEG, none⟩
    jpegQuality := JPEG_MAX_QUALITY
    jpegSubsampling := V4L2JpegEncoder.V4L2_JPEG_CHROMA_SUBSAMPLING_422
    device := none }

/-- The capture device as `openCamera` leaves it: set to the multi-planar capture type. -/
def idleDevice : V4L2Device :=
  { fd := 3
    allocation := ⟨none, none⟩
    type := ⟨V4L2_BUF_TYPE_VIDEO_CAPTURE_MPLANE, V4L2_BUF_TYPE_VIDEO_OUTPUT⟩
    isMultiPlane := ⟨true, false⟩
    trace := [] }

/-- An opened, idle camera: the constructor defaults (640x480 NV21 preview over YUV420,
2048x1536 YUYV snapshot) around `idleDevice`. -/
def idleCamera : V4L2Camera :=
  { device := some idleDevice
    jpegEncoder := freshEncoder
    previewStarted := false
    recordingStarted := false
    previewFormat := V4L2_PIX_FMT_YUV420
    previewTargetFormat := V4L2_PIX_FMT_NV21
    previewWidth := 640
    previewHeight := 480
    previewAllocation := none
    previewConvBuffer := none
    snapshotFormat := V4L2_PIX_FMT_YUYV
    snapshotTargetFormat := V4L2_PIX_FMT_YUYV
    snapshotWidth := 2048
    snapshotHeight := 1536
    recordingWidth := 640
    recordingHeight := 480
    recordAllocation := none
    prevBufIdx := 0
    ctrlValues := List.replicate 21 (-1)
    pools := [] }

/-- A driver like `okDriver` on which `VIDIOC_STREAMOFF` always fails. -/
def noStreamOffDriver : Driver :=
  { formats := okDriver.formats
    reply := fun t r =>
      match r with
      | Ioctl.STREAMOFF _ => ⟨-1, 0, 0, 0, 0, 0⟩
      | _ => okReply t r }

/-- The platform `okEnv` with a capture driver that cannot stop streaming. -/
def noStreamOffEnv : Env := { okEnv with camera := noStreamOffDriver }

/-- A driver like `okDriver` on which `VIDIOC_DQBUF` always fails. -/
def noDequeueDriver : Driver :=
  { formats := okDriver.formats
    reply := fun t r =>
      match r with
      | Ioctl.DQBUF _ => ⟨-1, 0, 0, 0, 0, 0⟩
      | _ => okReply t r }

/-- A driver like `okDriver` on which `VIDIOC_STREAMON` always fails. -/
def noStreamOnDriver : Driver :=
  { formats := okDriver.formats
    reply := fun t r =>
      match r with
      | Ioctl.STREAMON _ => ⟨-1, 0, 0, 0, 0, 0⟩
      | _ => okReply t r }

/-- A store with two one-buffer pools, for an encode: pool 0 the raw frame, pool 1 the output. -/
def encodeStore : Store := [⟨1, [⟨4096, 8192, 0⟩]⟩, ⟨1, [⟨16384, 8192, 0⟩]⟩]

/-- An encoder whose output pool is pool 1 of `encodeStore`. -/
def readyEncoder : V4L2JpegEncoder :=
  { freshEncoder with output := ⟨0, 0, V4L2_PIX_FMT_JPEG, some 1⟩ }

/-- A 64x64 YUYV frame in pool 0 of `encodeStore`. -/
def rawFrame : ImageConfig := ⟨64, 64, V4L2_PIX_FMT_YUYV, some 0⟩

/-! ## Sequences of mode calls -/

/-- The calls that start or stop a stream mode. -/
inductive ModeCall where
  | startPreview
  | stopPreview
  | startRecord
  | stopRecord
  | getSnapshotAndJpeg (yuv_buf jpeg_buf : Bool)
deriving DecidableEq, Repr

/-- The state a mode call leaves. -/
def ModeCall.run (e : Env) (cam : V4L2Camera) : ModeCall → V4L2Camera
  | ModeCall.startPreview => (V4L2Camera.startPreview e cam).2
  | ModeCall.stopPreview => (V4L2Camera.stopPreview e cam).2
  | ModeCall.startRecord => (V4L2Camera.startRecord e cam).2
  | ModeCall.stopRecord => (V4L2Camera.stopRecord e cam).2
  | ModeCall.getSnapshotAndJpeg yuv_buf jpeg_buf =>
    (V4L2Camera.getSnapshotAndJpeg e cam yuv_buf jpeg_buf).2

/-- The state a sequence of mode calls leaves. -/
def runModeCalls (e : Env) : List ModeCall → V4L2Camera → V4L2Camera
  | [], cam => cam
  | c :: rest, cam => runModeCalls e rest (c.run e cam)

/-- The caller's discipline: a mode is started only while the other one is not running. -/
def ModeCall.allowed (cam : V4L2Camera) : ModeCall → Bool
  | ModeCall.startPreview => !cam.recordingStarted
  | ModeCall.startRecord => !cam.previewStarted
  | _ => true

/-- Whether a sequence of mode calls keeps to the caller's discipline all along. -/
def disciplined (e : Env) : List ModeCall → V4L2Camera → Bool
  | [], _ => true
  | c :: rest, cam => c.allowed cam && disciplined e rest (c.run e cam)

/-- A stream-off call on the capture direction, later followed by a zero-count
deregistration (`reqBufs` with no pool) on the capture direction. -/
def Cleaned (l : List DevCall) : Prop :=
  ∃ a b c, l = a ++ DevCall.setStream V4L2_CAPTURE false :: b
    ++ DevCall.reqBufs V4L2_CAPTURE none :: c

/-! ## The steps of an encode -/

/-- The encoder device after `encodeImage` has initialised both directions and polled. -/
def V4L2JpegEncoder.afterPoll (k : Driver) (m : Store) (enc : V4L2JpegEncoder)
    (dev : V4L2Device) (input : ImageConfig) : V4L2Device :=
  ((V4L2JpegEncoder.initDevice k m (V4L2JpegEncoder.initDevice k m dev V4L2_OUTPUT input).2
      V4L2_CAPTURE { enc.output with width := input.width, height := input.height }).2.pollDevice
    k (Nat.lor POLLIN POLLERR) 1000).2

/-- The calls of one `cleanupDevice(direction)`, given whether its dequeue and its stream-off
succeeded: the dequeue, then the stream-off if the dequeue succeeded, then the deregistration if
the stream-off succeeded as well. -/
def cleanupCalls (direction : Nat) (dequeued streamedOff : Bool) : List DevCall :=
  DevCall.dequeueBuf direction ::
    (if dequeued then
      DevCall.setStream direction false ::
        (if streamedOff then [DevCall.reqBufs direction none] else [])
    else [])

/-- The calls of one successful `initDevice(direction, config)`. -/
def initCalls (direction : Nat) (config : ImageConfig) : List DevCall :=
  [DevCall.enumFormat direction config.format,
   DevCall.setFormat direction (toInt32 config.width) (toInt32 config.height) config.format,
   DevCall.reqBufs direction config.allocation,
   DevCall.queueBuf direction 0,
   DevCall.setStream direction true]

/-! ## Class invariants -/

/-- The invariant of `class V4L2Allocation`: `nr_buffers` never exceeds `MAX_BUFFERS`, the size
of the member array `buffers`, and the descriptors below `nr_buffers` are those the constructor
wrote. -/
def V4L2Allocation.WF (a : V4L2Allocation) : Prop :=
  a.nr_buffers ≤ MAX_BUFFERS ∧ a.buffers.length = a.nr_buffers

instance (a : V4L2Allocation) : Decidable a.WF :=
  inferInstanceAs (Decidable (a.nr_buffers ≤ MAX_BUFFERS ∧ a.buffers.length = a.nr_buffers))

/-- Every pool of a store satisfies the class invariant. -/
def Store.WF (m : Store) : Prop := ∀ a ∈ m, V4L2Allocation.WF a

instance (m : Store) : Decidable (Store.WF m) :=
  inferInstanceAs (Decidable (∀ a ∈ m, V4L2Allocation.WF a))

/-! ## System calls on traces -/

/-- The system calls recorded in a trace, each with the reply it got, in order. -/
def ioctls : List Event → List (Ioctl × Reply)
  | [] => []
  | Event.call _ :: rest => ioctls rest
  | Event.sys r reply :: rest => (r, reply) :: ioctls rest

/-- The system calls recorded in `after` beyond those already in `before`. -/
def newIoctls (before after : List Event) : List (Ioctl × Reply) :=
  (ioctls after).drop (ioctls before).length

/-- The system calls of a trace that satisfy `p`, each with the reply it got, in order. -/
def ioctlsWhere (p : Ioctl → Bool) (t : List Event) : List (Ioctl × Reply) :=
  (ioctls t).filter (fun x => p x.1)

/-- The system calls satisfying `p` recorded in `after` beyond those already in `before`. -/
def newIoctlsWhere (p : Ioctl → Bool) (before after : List Event) : List (Ioctl × Reply) :=
  (ioctlsWhere p after).drop (ioctlsWhere p before).length

/-- Whether a system call is a `poll`. -/
def Ioctl.isPoll : Ioctl → Bool
  | Ioctl.POLL _ _ => true
  | _ => false

/-- Whether a system call is a `VIDIOC_S_FMT`. -/
def Ioctl.isSetFormat : Ioctl → Bool
  | Ioctl.S_FMT _ _ _ _ _ => true
  | _ => false

/-- Whether a `poll` reply reports a frame: a positive return value with `POLLIN` among the
returned events. -/
def Reply.reportsPollin (rep : Reply) : Bool :=
  decide (0 < rep.ret) && decide (Nat.land rep.revents POLLIN ≠ 0)

/-- Whether a call registers a pool (`reqBufs` with a pool that has buffers). -/
def isRegistration (m : Store) : DevCall → Bool
  | DevCall.reqBufs _ allocation => decide (0 < (m.deref allocation).getBufferCount)
  | _ => false

/-- Whether a call deregisters (`reqBufs` that requests a count of zero). -/
def isDeregistration (m : Store) : DevCall → Bool
  | DevCall.reqBufs _ allocation => decide ((m.deref allocation).getBufferCount = 0)
  | _ => false

/-! ## Sequences of device calls -/

/-- One member-function call on a device, with the pools as they are at the time of the call:
the device it leaves.  Results and the `used` fields written by a dequeue are dropped. -/
def V4L2Device.call (k : Driver) (m : Store) (dev : V4L2Device) : DevCall → V4L2Device
  | DevCall.setBufType direction type => (dev.setBufType k direction type).2
  | DevCall.pollDevice mask timeout => (dev.pollDevice k mask timeout).2
  | DevCall.setFormat direction width height fmt =>
    (dev.setFormat k direction width height fmt).2
  | DevCall.enumFormat direction fmt => (dev.enumFormat k direction fmt).2
  | DevCall.reqBufs direction allocation => (dev.reqBufs k m direction allocation).2
  | DevCall.queryBuf direction index => (dev.queryBuf m direction index).2.2
  | DevCall.setStream direction on_ => (dev.setStream k direction on_).2
  | DevCall.queueBuf direction index => (dev.queueBuf k m direction index).2
  | DevCall.dequeueBuf direction => (dev.dequeueBuf k m direction).2.2
  | DevCall.getCtrl id => (dev.getCtrl k id).2.2
  | DevCall.setCtrl id value => (dev.setCtrl k id value).2
  | DevCall.getParam direction => (dev.getParam k direction).2
  | DevCall.setParam direction => (dev.setParam k direction).2

/-- A sequence of member-function calls, each with the pools as they are at its time. -/
def V4L2Device.runCalls (k : Driver) : List (Store × DevCall) → V4L2Device → V4L2Device
  | [], dev => dev
  | (m, c) :: rest, dev => V4L2Device.runCalls k rest (dev.call k m c)

/-! ## Camera controls (`V4L2Camera.cpp`) -/

/-- Embeds `setControl(ctrl, val)`.  For a hardware-backed control the source calls `device->setCtrl`
without testing `device`; with no device that is a null dereference, for which the model has
the value `(-1, cam)`.  The theorems about hardware-backed controls assume a device. -/
def V4L2Camera.setControl (e : Env) (cam : V4L2Camera) (ctrl : Nat) (val : Int) :
    Int × V4L2Camera :=
  if ctrl ≥ CAMERA_CTRL_NUM then (-EINVAL, cam)
  else
    let cam := { cam with ctrlValues := cam.ctrlValues.set ctrl val }
    if ctrlTable.getD ctrl 0 = 0 then (0, cam)
    else match cam.device with
      | none => (-1, cam)
      | some dev =>
        let (ret, dev) := dev.setCtrl e.camera (ctrlTable.getD ctrl 0) val
        (ret, { cam with device := some dev })

/-- The value most recently passed to `VIDIOC_S_CTRL` for control `id` in a trace. -/
def lastSet (id : Nat) : List Event → Option Int
  | [] => none
  | Event.sys (Ioctl.S_CTRL i value) _ :: rest =>
    match lastSet id rest with
    | some v => some v
    | none => if i = id then some value else none
  | _ :: rest => lastSet id rest

/-- A device that stores the control values it is given: `VIDIOC_G_CTRL` succeeds and reads
back the value most recently set for that control. -/
def Driver.StoresControls (k : Driver) : Prop :=
  ∀ (t : List Event) (id : Nat) (v : Int), lastSet id t = some v →
    (k.reply t (Ioctl.G_CTRL id)).ret = 0 ∧ (k.reply t (Ioctl.G_CTRL id)).value = v

/-- A driver like `okDriver` that stores the control values it is given. -/
def storingDriver : Driver :=
  { formats := okDriver.formats
    reply := fun t r =>
      match r with
      | Ioctl.G_CTRL id => ⟨0, 0, 0, 0, (lastSet id t).getD 0, 0⟩
      | Ioctl.S_CTRL _ value => ⟨0, 0, 0, 0, value, 0⟩
      | _ => okReply t r }

/-- The platform `okEnv` with a capture driver that stores control values. -/
def storingEnv : Env := { okEnv with camera := storingDriver }

/-! ## More concrete drivers -/

/-- A driver like `okDriver` on which a `poll` with the timeout `t` times out. -/
def pollTimeoutDriver (t : Int) : Driver :=
  { formats := okDriver.formats
    reply := fun tr r =>
      match r with
      | Ioctl.POLL _ timeout => if timeout = t then ⟨0, 0, 0, 0, 0, 0⟩ else okReply tr r
      | _ => okReply tr r }

/-- The platform `okEnv` with a capture driver whose `poll` with timeout `t` times out. -/
def pollTimeoutEnv (t : Int) : Env := { okEnv with camera := pollTimeoutDriver t }

/-- A driver like `okDriver` that rejects `VIDIOC_S_FMT`. -/
def noFormatDriver : Driver :=
  { formats := okDriver.formats
    reply := fun t r =>
      match r with
      | Ioctl.S_FMT _ _ _ _ _ => ⟨-1, 0, 0, 0, 0, 0⟩
      | _ => okReply t r }

/-- The platform `okEnv` with a capture driver that rejects `VIDIOC_S_FMT`. -/
def noFormatEnv : Env := { okEnv with camera := noFormatDriver }

/-- A driver like `okDriver` that enumerates no format at all. -/
def noFormatsDriver : Driver :=
  { formats := fun _ => []
    reply := okReply }

/-! ## JPEG quality of a snapshot -/

/-- The quality `getSnapshotAndJpeg` hands to `setOutput`, from the value `quality` of the
control `CAMERA_CTRL_JPEG_QUALITY`: the two assignments
`jpegQuality = (100 - getControl(...)); jpegQuality = JPEG_MAX_QUALITY*jpegQuality / 100;`
on the `unsigned int` local `jpegQuality`. -/
def V4L2Camera.snapshotJpegQuality (quality : Int) : Nat :=
  (JPEG_MAX_QUALITY * toUInt32 (100 - quality)) % 4294967296 / 100

/-! ## Preview geometry (`V4L2Camera.cpp`) -/

/-- A byte buffer. -/
abbrev Bytes := List Nat

/-- Read of a `uint8_t` at a byte offset. -/
def Bytes.read8 (b : Bytes) (off : Nat) : Nat := b.getD off 0 % 256

/-- Read of a `uint32_t` at a byte offset. -/
def Bytes.read32 (b : Bytes) (off : Nat) : Nat :=
  Bytes.read8 b off + 256 * Bytes.read8 b (off + 1) + 65536 * Bytes.read8 b (off + 2)
    + 16777216 * Bytes.read8 b (off + 3)

/-- Write of a `uint16_t` at a byte offset. -/
def Bytes.write16 (b : Bytes) (off v : Nat) : Bytes :=
  (b.set off (v % 256)).set (off + 1) (v / 256 % 256)

/-- Write of a `uint32_t` at a byte offset. -/
def Bytes.write32 (b : Bytes) (off v : Nat) : Bytes :=
  (((b.set off (v % 256)).set (off + 1) (v / 256 % 256)).set (off + 2)
    (v / 65536 % 256)).set (off + 3) (v / 16777216 % 256)

/-- The call `memcpy(dst + d, src + s, n)`. -/
def Bytes.memcpy (dst : Bytes) (d : Nat) (src : Bytes) (s : Nat) : Nat → Bytes
  | 0 => dst
  | n + 1 => Bytes.memcpy (dst.set d (Bytes.read8 src s)) (d + 1) src (s + 1) n

/-- The state of the loops of `convertYUV420ToNV21`: `count`, the offsets of `Cb32`/`Cb8` and
`Cr32`/`Cr8` into `tmp`, the frame buffer and the offset of `CbCr32`/`CbCr16` into it. -/
structure ConvertState where
  count : Nat
  cb : Nat
  cr : Nat
  buffer : Bytes
  out : Nat
deriving DecidableEq, Repr

/-- The loop `while (count > 8) { ... count -= 8; }` of `convertYUV420ToNV21`; the first
argument bounds the number of rounds (a round lowers `count` by 8, so `count` rounds are never
used up). -/
def convertWords (tmp : Bytes) : Nat → ConvertState → ConvertState
  | 0, st => st
  | fuel + 1, st =>
    if st.count > 8 then
      let cr := Bytes.read32 tmp st.cr
      let cb := Bytes.read32 tmp st.cb
      let crcb1 :=
        Nat.lor (Nat.lor (Nat.lor
          (Nat.shiftLeft (Nat.land cb 255) 8 % 4294967296)
          (Nat.shiftLeft (Nat.land cb 65280) 16 % 4294967296))
          (Nat.land cr 255))
          (Nat.shiftLeft (Nat.land cr 65280) 8 % 4294967296)
      let crcb2 :=
        Nat.lor (Nat.lor (Nat.lor
          (Nat.shiftRight (Nat.land cb 16711680) 8)
          (Nat.land cb 4278190080))
          (Nat.shiftRight (Nat.land cr 16711680) 16))
          (Nat.shiftRight (Nat.land cr 4278190080) 8)
      convertWords tmp fuel
        { count := st.count - 8
          cb := st.cb + 4
          cr := st.cr + 4
          buffer := Bytes.write32 (Bytes.write32 st.buffer st.out crcb1) (st.out + 4) crcb2
          out := st.out + 8 }
    else st

/-- The loop `do { *CbCr16++ = *Cb8++ << 8 | *Cr8++; } while (--count);` of
`convertYUV420ToNV21`, entered with `count > 0`; the first argument bounds the number of rounds
(`count` rounds are enough). -/
def convertTail (tmp : Bytes) : Nat → ConvertState → ConvertState
  | 0, st => st
  | fuel + 1, st =>
    let st :=
      { st with
        buffer := Bytes.write16 st.buffer st.out
          (Nat.lor (Nat.shiftLeft (Bytes.read8 tmp st.cb) 8) (Bytes.read8 tmp st.cr) % 65536)
        cb := st.cb + 1
        cr := st.cr + 1
        out := st.out + 2
        count := (st.count + 4294967295) % 4294967296 }
    if st.count ≠ 0 then convertTail tmp fuel st else st

/-- Embeds `convertYUV420ToNV21(buffer, tmp, width, height)`: the frame buffer and `tmp` afterwards. -/
def V4L2Camera.convertYUV420ToNV21 (buffer tmp : Bytes) (width height : Int) : Bytes × Bytes :=
  let area := toInt32 (width * height)
  let count := toUInt32 (Int.tdiv area 4)
  let tmp := Bytes.memcpy tmp 0 buffer area.toNat (toUInt32 (Int.tdiv area 2))
  let st := convertWords tmp count
    { count := count, cb := 0, cr := count, buffer := buffer, out := area.toNat }
  if st.count ≠ 0 then ((convertTail tmp st.count st).buffer, tmp) else (st.buffer, tmp)

/-- Embeds `convertFrame(buffer, convBuffer, width, height, dstFormat)`, on the bytes of the frame
buffer: the status, the frame buffer and the conversion buffer afterwards. -/
def V4L2Camera.convertFrame (buffer convBuffer : Bytes) (width height dstFormat : Int) :
    Int × Bytes × Bytes :=
  if dstFormat = V4L2_PIX_FMT_NV21 then
    (0, V4L2Camera.convertYUV420ToNV21 buffer convBuffer width height)
  else (-1, buffer, convBuffer)

/-- A planar YUV 4:2:0 frame of `n` chroma samples per plane (luma `4 * n` bytes): luma byte `i`
is `i % 64`, `U[i]` is `64 + i % 64` and `V[i]` is `128 + i % 64`. -/
def testFrame (n : Nat) : Bytes :=
  (List.range (4 * n)).map (fun i => i % 64)
    ++ (List.range n).map (fun i => 64 + i % 64)
    ++ (List.range n).map (fun i => 128 + i % 64)

/-! ## Scene modes (`V4L2Camera.cpp`) -/

/-- The `S5K4CA_*` control values the scene lists use.  The sensor header that defines them is
not among the sources, so they are parameters. -/
structure SensorValues where
  S5K4CA_ISO_AUTO : Int
  S5K4CA_ISO_50 : Int
  S5K4CA_ISO_SPORT : Int
  S5K4CA_ISO_NIGHT : Int
  S5K4CA_METERING_CENTER : Int
  S5K4CA_METERING_MATRIX : Int
  S5K4CA_WB_SUNNY : Int

/-- Embeds `struct SceneControl`. -/
structure SceneControl where
  control : Nat
  value : Int
deriving DecidableEq, Repr

def CAMERA_SCENE_NUM : Nat := 9

def sceneListNone (s : SensorValues) : List SceneControl :=
  [⟨CAMERA_CTRL_ISO, s.S5K4CA_ISO_AUTO⟩, ⟨CAMERA_CTRL_BRIGHTNESS, 0⟩,
   ⟨CAMERA_CTRL_SATURATION, 0⟩, ⟨CAMERA_CTRL_SHARPNESS, 0⟩, ⟨CAMERA_CTRL_GLAMOUR, 0⟩,
   ⟨CAMERA_CTRL_AUTO_WB, 1⟩, ⟨CAMERA_CTRL_METERING, s.S5K4CA_METERING_CENTER⟩,
   ⟨CAMERA_CTRL_NIGHTSHOT, 0⟩, ⟨0, 0⟩]

def sceneListPortrait (s : SensorValues) : List SceneControl :=
  [⟨CAMERA_CTRL_ISO, s.S5K4CA_ISO_50⟩, ⟨CAMERA_CTRL_BRIGHTNESS, 0⟩,
   ⟨CAMERA_CTRL_SATURATION, 0⟩, ⟨CAMERA_CTRL_SHARPNESS, -1⟩, ⟨CAMERA_CTRL_GLAMOUR, 1⟩,
   ⟨CAMERA_CTRL_AUTO_WB, 1⟩, ⟨CAMERA_CTRL_METERING, s.S5K4CA_METERING_CENTER⟩, ⟨0, 0⟩]

def sceneListLandscape (s : SensorValues) : List SceneControl :=
  [⟨CAMERA_CTRL_ISO, s.S5K4CA_ISO_50⟩, ⟨CAMERA_CTRL_BRIGHTNESS, 0⟩,
   ⟨CAMERA_CTRL_SATURATION, 1⟩, ⟨CAMERA_CTRL_SHARPNESS, 1⟩, ⟨CAMERA_CTRL_GLAMOUR, -1⟩,
   ⟨CAMERA_CTRL_AUTO_WB, 1⟩, ⟨CAMERA_CTRL_METERING, s.S5K4CA_METERING_MATRIX⟩, ⟨0, 0⟩]

def sceneListSports (s : SensorValues) : List SceneControl :=
  [⟨CAMERA_CTRL_ISO, s.S5K4CA_ISO_SPORT⟩, ⟨CAMERA_CTRL_BRIGHTNESS, 0⟩,
   ⟨CAMERA_CTRL_SATURATION, 0⟩, ⟨CAMERA_CTRL_SHARPNESS, 0⟩, ⟨CAMERA_CTRL_GLAMOUR, 0⟩,
   ⟨CAMERA_CTRL_AUTO_WB, 1⟩, ⟨CAMERA_CTRL_METERING, s.S5K4CA_METERING_CENTER⟩, ⟨0, 0⟩]

def sceneListPartyIndoor (s : SensorValues) : List SceneControl :=
  [⟨CAMERA_CTRL_ISO, s.S5K4CA_ISO_50⟩, ⟨CAMERA_CTRL_BRIGHTNESS, 0⟩,
   ⟨CAMERA_CTRL_SATURATION, 1⟩, ⟨CAMERA_CTRL_SHARPNESS, 0⟩, ⟨CAMERA_CTRL_GLAMOUR, 0⟩,
   ⟨CAMERA_CTRL_AUTO_WB, 1⟩, ⟨CAMERA_CTRL_METERING, s.S5K4CA_METERING_CENTER⟩, ⟨0, 0⟩]

def sceneListBeachSnow (s : SensorValues) : List SceneControl :=
  [⟨CAMERA_CTRL_ISO, s.S5K4CA_ISO_50⟩, ⟨CAMERA_CTRL_BRIGHTNESS, 1⟩,
   ⟨CAMERA_CTRL_SATURATION, 1⟩, ⟨CAMERA_CTRL_SHARPNESS, 0⟩, ⟨CAMERA_CTRL_GLAMOUR, 0⟩,
   ⟨CAMERA_CTRL_AUTO_WB, 1⟩, ⟨CAMERA_CTRL_METERING, s.S5K4CA_METERING_CENTER⟩, ⟨0, 0⟩]

def sceneListSunsetCandleLight (s : SensorValues) : List SceneControl :=
  [⟨CAMERA_CTRL_ISO, s.S5K4CA_ISO_50⟩, ⟨CAMERA_CTRL_BRIGHTNESS, 0⟩,
   ⟨CAMERA_CTRL_SATURATION, 0⟩, ⟨CAMERA_CTRL_SHARPNESS, 0⟩, ⟨CAMERA_CTRL_GLAMOUR, 0⟩,
   ⟨CAMERA_CTRL_AUTO_WB, 0⟩, ⟨CAMERA_CTRL_WB_PRESET, s.S5K4CA_WB_SUNNY⟩,
   ⟨CAMERA_CTRL_METERING, s.S5K4CA_METERING_CENTER⟩, ⟨0, 0⟩]

def sceneListNightshot (s : SensorValues) : List SceneControl :=
  [⟨CAMERA_CTRL_ISO, s.S5K4CA_ISO_NIGHT⟩, ⟨CAMERA_CTRL_BRIGHTNESS, 0⟩,
   ⟨CAMERA_CTRL_SATURATION, 4⟩, ⟨CAMERA_CTRL_SHARPNESS, 0⟩, ⟨CAMERA_CTRL_GLAMOUR, 0⟩,
   ⟨CAMERA_CTRL_AUTO_WB, 1⟩, ⟨CAMERA_CTRL_METERING, s.S5K4CA_METERING_CENTER⟩,
   ⟨CAMERA_CTRL_NIGHTSHOT, 1⟩, ⟨0, 0⟩]

def sceneListFireworks (s : SensorValues) : List SceneControl :=
  [⟨CAMERA_CTRL_ISO, s.S5K4CA_ISO_NIGHT⟩, ⟨CAMERA_CTRL_BRIGHTNESS, 0⟩,
   ⟨CAMERA_CTRL_SATURATION, 4⟩, ⟨CAMERA_CTRL_SHARPNESS, 0⟩, ⟨CAMERA_CTRL_GLAMOUR, 0⟩,
   ⟨CAMERA_CTRL_AUTO_WB, 1⟩, ⟨CAMERA_CTRL_METERING, s.S5K4CA_METERING_CENTER⟩, ⟨0, 0⟩]

/-- Embeds `V4L2Camera::sceneTable`. -/
def sceneTable (s : SensorValues) : List (List SceneControl) :=
  [sceneListNone s, sceneListPortrait s, sceneListLandscape s, sceneListSports s,
   sceneListPartyIndoor s, sceneListBeachSnow s, sceneListSunsetCandleLight s,
   sceneListNightshot s, sceneListFireworks s]

/-- The loop `while (sc->control) { setControl(sc->control, sc->value); ++sc; }` of
`setSceneMode`, over the entries from `sc` on. -/
def V4L2Camera.sceneLoop (e : Env) : List SceneControl → V4L2Camera → V4L2Camera
  | [], cam => cam
  | sc :: rest, cam =>
    if sc.control ≠ 0 then
      V4L2Camera.sceneLoop e rest (V4L2Camera.setControl e cam sc.control sc.value).2
    else cam

/-- Embeds `setSceneMode(scene_mode)`. -/
def V4L2Camera.setSceneMode (e : Env) (s : SensorValues) (cam : V4L2Camera) (scene_mode : Int) :
    Int × V4L2Camera :=
  if scene_mode < 0 ∨ scene_mode ≥ CAMERA_SCENE_NUM then (-EINVAL, cam)
  else
    let cam := V4L2Camera.sceneLoop e ((sceneTable s).getD scene_mode.toNat []) cam
    let cam := (V4L2Camera.setControl e cam CAMERA_CTRL_SCENE_MODE scene_mode).2
    (0, cam)

/-- Embeds `getSceneMode()`. -/
def V4L2Camera.getSceneMode (e : Env) (cam : V4L2Camera) : Int × V4L2Camera :=
  V4L2Camera.getControl e cam CAMERA_CTRL_SCENE_MODE

/-- The entries of a scene list before its terminator. -/
def sceneEntries : List SceneControl → List SceneControl
  | [] => []
  | sc :: rest => if sc.control ≠ 0 then sc :: sceneEntries rest else []

/-- Sensor values for a concrete run. -/
def sensorValues : SensorValues := ⟨0, 1, 2, 3, 0, 1, 1⟩

/-! ## One more driver -/

/-- A driver like `okDriver` on which `VIDIOC_STREAMON` fails for the capture buffer type. -/
def noCaptureStreamOnDriver : Driver :=
  { formats := okDriver.formats
    reply := fun t r =>
      match r with
      | Ioctl.STREAMON type =>
        if type = V4L2_BUF_TYPE_VIDEO_CAPTURE then ⟨-1, 0, 0, 0, 0, 0⟩ else okReply t r
      | _ => okReply t r }

/-- A driver like `okDriver` on which `VIDIOC_REQBUFS` always fails. -/
def noReqBufsDriver : Driver :=
  { formats := okDriver.formats
    reply := fun t r =>
      match r with
      | Ioctl.REQBUFS _ _ _ => ⟨-1, 0, 0, 0, 0, 0⟩
      | _ => okReply t r }

/-! # Properties -/

/-! ## Calls recorded by the device operations -/

@[simp] theorem calls_append (a b : List Event) : calls (a ++ b) = calls a ++ calls b := by
  induction a with
  | nil => rfl
  | cons x xs ih => cases x <;> simp [calls, ih]

theorem newCalls_append (t t' : List Event) (l : List DevCall)
    (h : calls t' = calls t ++ l) : newCalls t t' = l := by
  simp [newCalls, h]

namespace V4L2Device

@[simp] theorem calls_enter (dev : V4L2Device) (c : DevCall) :
    calls (dev.enter c).trace = calls dev.trace ++ [c] := by
  simp [enter, calls]

@[simp] theorem calls_ioctl (k : Driver) (dev : V4L2Device) (r : Ioctl) :
    calls (dev.ioctl k r).2.trace = calls dev.trace := by
  simp [ioctl, calls]

@[simp] theorem calls_pollDevice (k : Driver) (dev : V4L2Device) (mask : Nat) (t : Int) :
    calls (dev.pollDevice k mask t).2.trace = calls dev.trace ++ [DevCall.pollDevice mask t] := by
  unfold pollDevice
  simp only
  split_ifs <;> simp

@[simp] theorem calls_setStream (k : Driver) (dev : V4L2Device) (d : Nat) (b : Bool) :
    calls (dev.setStream k d b).2.trace = calls dev.trace ++ [DevCall.setStream d b] := by
  unfold setStream
  simp only
  split_ifs <;> simp

@[simp] theorem calls_queueBuf (k : Driver) (m : Store) (dev : V4L2Device) (d : Nat) (i : Int) :
    calls (dev.queueBuf k m d i).2.trace = calls dev.trace ++ [DevCall.queueBuf d i] := by
  unfold queueBuf
  simp only
  split_ifs
  · simp
  · split
    · simp
    · split_ifs <;> simp

@[simp] theorem calls_dequeueBuf (k : Driver) (m : Store) (dev : V4L2Device) (d : Nat) :
    calls (dev.dequeueBuf k m d).2.2.trace = calls dev.trace ++ [DevCall.dequeueBuf d] := by
  unfold dequeueBuf
  simp only
  split_ifs
  · simp
  · simp
  · split <;> simp

@[simp] theorem calls_reqBufs (k : Driver) (m : Store) (dev : V4L2Device) (d : Nat)
    (a : Option Nat) :
    calls (dev.reqBufs k m d a).2.trace = calls dev.trace ++ [DevCall.reqBufs d a] := by
  unfold reqBufs
  simp only
  split_ifs <;> simp

@[simp] theorem calls_setCtrl (k : Driver) (dev : V4L2Device) (id : Nat) (v : Int) :
    calls (dev.setCtrl k id v).2.trace = calls dev.trace ++ [DevCall.setCtrl id v] := by
  unfold setCtrl
  simp only
  split_ifs <;> simp

@[simp] theorem calls_getCtrl (k : Driver) (dev : V4L2Device) (id : Nat) :
    calls (dev.getCtrl k id).2.2.trace = calls dev.trace ++ [DevCall.getCtrl id] := by
  unfold getCtrl
  simp only
  split_ifs <;> simp

@[simp] theorem calls_setFormat (k : Driver) (dev : V4L2Device) (d : Nat) (w h : Int)
    (fmt : Nat) :
    calls (dev.setFormat k d w h fmt).2.trace
      = calls dev.trace ++ [DevCall.setFormat d w h fmt] := by
  unfold setFormat
  simp only
  split_ifs <;> simp

theorem calls_enumLoop (ty fmt : Nat) (l : List Nat) (i pf : Nat) (dev : V4L2Device) :
    calls (enumLoop ty fmt l i pf dev).2.trace = calls dev.trace := by
  induction l generalizing i pf dev with
  | nil => simp [enumLoop, calls]
  | cons x xs ih =>
    unfold enumLoop
    simp only
    split_ifs
    · simp [calls]
    · rw [ih]; simp [calls]

@[simp] theorem calls_enumFormat (k : Driver) (dev : V4L2Device) (d fmt : Nat) :
    calls (dev.enumFormat k d fmt).2.trace = calls dev.trace ++ [DevCall.enumFormat d fmt] := by
  unfold enumFormat
  simp only
  split_ifs <;> simp [calls_enumLoop]

end V4L2Device

namespace V4L2Camera

@[simp] theorem calls_previewPoll (k : Driver) (dev : V4L2Device) :
    calls (previewPoll k dev).2.trace
      = calls dev.trace ++ [DevCall.pollDevice (Nat.lor POLLIN POLLERR) 1000] := by
  unfold previewPoll
  simp only
  split_ifs <;> simp

/-- A `queueBufs` loop that ran to its end has called `queueBuf` for every index, in order. -/
theorem calls_queueBufs (k : Driver) (m : Store) (l : List Int) (dev : V4L2Device)
    (h : ¬ (queueBufs k m l dev).1 < 0) :
    calls (queueBufs k m l dev).2.trace
      = calls dev.trace ++ l.map (DevCall.queueBuf V4L2_CAPTURE) := by
  induction l generalizing dev with
  | nil => simp [queueBufs]
  | cons i rest ih =>
    unfold queueBufs at h ⊢
    simp only at h ⊢
    split_ifs at h ⊢ with hq
    · exact absurd hq h
    · rw [ih _ h]; simp

end V4L2Camera

/-! ## Calls of the preview functions -/

namespace V4L2Camera

theorem getPreview_ok_calls (e : Env) (cam cam' : V4L2Camera) (dev : V4L2Device) (r : Int)
    (hdev : cam.device = some dev) (h : getPreview e cam = (r, cam')) (hr : 0 ≤ r) :
    calls cam'.trace = calls dev.trace ++
      [DevCall.pollDevice (Nat.lor POLLIN POLLERR) 1000,
       DevCall.queueBuf V4L2_CAPTURE cam.prevBufIdx, DevCall.dequeueBuf V4L2_CAPTURE]
    ∧ cam'.prevBufIdx = r ∧ r < REC_BUFFERS ∧ cam'.device ≠ none := by
  unfold getPreview at h
  simp only [hdev] at h
  split_ifs at h with h1 h2 h3 h4
  all_goals simp only [Prod.mk.injEq] at h
  all_goals obtain ⟨hr', hc⟩ := h
  all_goals subst hr'
  all_goals try omega
  subst hc
  simp [V4L2Camera.trace]
  omega

theorem startPreview_stream_ok_calls (e : Env) (cam cam' : V4L2Camera) (dev : V4L2Device)
    (h : startPreview_stream e cam dev = (0, cam')) :
    calls cam'.trace = calls dev.trace ++
      [DevCall.queueBuf V4L2_CAPTURE 1, DevCall.queueBuf V4L2_CAPTURE 2,
       DevCall.queueBuf V4L2_CAPTURE 3, DevCall.queueBuf V4L2_CAPTURE 4,
       DevCall.setStream V4L2_CAPTURE true,
       DevCall.pollDevice (Nat.lor POLLIN POLLERR) 10000]
    ∧ cam'.prevBufIdx = 0 ∧ cam'.previewStarted = true ∧ cam'.device ≠ none := by
  simp only [startPreview_stream, startPreview_err_free_v4l2_allocation,
    startPreview_err_free_conv_buffer] at h
  split_ifs at h with hq
  all_goals simp only [Prod.mk.injEq] at h
  all_goals try omega
  obtain ⟨-, hc⟩ := h
  subst hc
  have hq' := calls_queueBufs _ _ _ _ hq
  simp [REC_BUFFERS, List.range'] at hq'
  simp [V4L2Camera.trace, hq', REC_BUFFERS, List.range']

theorem startPreview_buffers_ok_calls (e : Env) (cam cam' : V4L2Camera) (dev : V4L2Device)
    (h : startPreview_buffers e cam dev = (0, cam')) :
    calls cam'.trace = calls dev.trace ++
      [DevCall.reqBufs V4L2_CAPTURE (some cam.pools.length),
       DevCall.queueBuf V4L2_CAPTURE 1, DevCall.queueBuf V4L2_CAPTURE 2,
       DevCall.queueBuf V4L2_CAPTURE 3, DevCall.queueBuf V4L2_CAPTURE 4,
       DevCall.setStream V4L2_CAPTURE true,
       DevCall.pollDevice (Nat.lor POLLIN POLLERR) 10000]
    ∧ cam'.prevBufIdx = 0 ∧ cam'.previewStarted = true ∧ cam'.device ≠ none := by
  simp only [startPreview_buffers, startPreview_err_free_v4l2_allocation,
    startPreview_err_free_conv_buffer, newAllocation] at h
  split_ifs at h
  all_goals try (simp only [Prod.mk.injEq] at h; omega)
  all_goals
    obtain ⟨h1, h2, h3, h4⟩ := startPreview_stream_ok_calls _ _ _ _ h
    refine ⟨?_, h2, h3, h4⟩
    rw [h1]
    simp

/-- The calls of a `startPreview()` that started the preview. -/
theorem startPreview_ok_calls (e : Env) (cam cam' : V4L2Camera) (dev : V4L2Device)
    (hdev : cam.device = some dev) (hidle : cam.previewStarted = false)
    (h : startPreview e cam = (0, cam')) :
    calls cam'.trace = calls dev.trace ++
      [DevCall.enumFormat V4L2_CAPTURE cam.previewFormat,
       DevCall.setCtrl V4L2_CID_S5K4CA_CAPTURE 0,
       DevCall.setFormat V4L2_CAPTURE cam.previewWidth cam.previewHeight cam.previewFormat,
       DevCall.reqBufs V4L2_CAPTURE (some cam.pools.length),
       DevCall.queueBuf V4L2_CAPTURE 1, DevCall.queueBuf V4L2_CAPTURE 2,
       DevCall.queueBuf V4L2_CAPTURE 3, DevCall.queueBuf V4L2_CAPTURE 4,
       DevCall.setStream V4L2_CAPTURE true,
       DevCall.pollDevice (Nat.lor POLLIN POLLERR) 10000]
    ∧ cam'.prevBufIdx = 0 ∧ cam'.previewStarted = true ∧ cam'.device ≠ none := by
  simp only [startPreview, hdev, hidle, Bool.false_eq_true, if_false] at h
  split_ifs at h
  all_goals try (simp only [Prod.mk.injEq] at h; omega)
  obtain ⟨h1, h2, h3, h4⟩ := startPreview_buffers_ok_calls _ _ _ _ h
  refine ⟨?_, h2, h3, h4⟩
  rw [h1]
  simp

end V4L2Camera

/-! ### The kernel-held set along a trace -/

theorem heldAfter_append (s : Finset Nat) (a b : List Event) :
    heldAfter s (a ++ b) = heldAfter (heldAfter s a) b := by
  induction a generalizing s with
  | nil => rfl
  | cons x xs ih =>
    cases x with
    | call c => simp [heldAfter, ih]
    | sys r rep => cases r <;> simp [heldAfter, ih]

theorem HeldStep.refl (t : List Event) : HeldStep t t (fun s => s) :=
  ⟨[], by simp, fun _ => rfl⟩

theorem HeldStep.trans {t t' t'' : List Event} {f g : Finset Nat → Finset Nat}
    (h1 : HeldStep t t' f) (h2 : HeldStep t' t'' g) : HeldStep t t'' (fun s => g (f s)) := by
  obtain ⟨a, ha, hf⟩ := h1
  obtain ⟨b, hb, hg⟩ := h2
  exact ⟨a ++ b, by rw [hb, ha, List.append_assoc], fun s => by rw [heldAfter_append, hf, hg]⟩

theorem HeldStep.heldSince {t t' : List Event} {f : Finset Nat → Finset Nat}
    (h : HeldStep t t' f) : heldSince t t' = f ∅ := by
  obtain ⟨a, ha, hf⟩ := h
  simp [Jet.heldSince, ha, hf]

namespace V4L2Device

theorem held_pollDevice (k : Driver) (dev : V4L2Device) (mask : Nat) (t : Int) :
    HeldStep dev.trace (dev.pollDevice k mask t).2.trace (fun s => s) := by
  unfold pollDevice
  simp only [enter, ioctl]
  split_ifs <;> exact ⟨_, by simp only [List.append_assoc]; rfl, fun s => by simp [heldAfter]⟩

theorem held_setStream (k : Driver) (dev : V4L2Device) (d : Nat) (b : Bool) :
    HeldStep dev.trace (dev.setStream k d b).2.trace (fun s => s) := by
  unfold setStream
  simp only [enter, ioctl]
  split_ifs
  · exact ⟨_, rfl, fun s => by simp [heldAfter]⟩
  · exact ⟨_, by simp only [List.append_assoc]; rfl, fun s => by simp [heldAfter]⟩
  · exact ⟨_, by simp only [List.append_assoc]; rfl, fun s => by simp [heldAfter]⟩

theorem held_setCtrl (k : Driver) (dev : V4L2Device) (id : Nat) (v : Int) :
    HeldStep dev.trace (dev.setCtrl k id v).2.trace (fun s => s) := by
  unfold setCtrl
  simp only [enter, ioctl]
  split_ifs <;> exact ⟨_, by simp only [List.append_assoc]; rfl, fun s => by simp [heldAfter]⟩

theorem held_setFormat (k : Driver) (dev : V4L2Device) (d : Nat) (w h : Int) (fmt : Nat) :
    HeldStep dev.trace (dev.setFormat k d w h fmt).2.trace (fun s => s) := by
  unfold setFormat
  simp only [enter, ioctl]
  split_ifs
  · exact ⟨_, rfl, fun s => by simp [heldAfter]⟩
  · exact ⟨_, by simp only [List.append_assoc]; rfl, fun s => by simp [heldAfter]⟩
  · exact ⟨_, by simp only [List.append_assoc]; rfl, fun s => by simp [heldAfter]⟩

theorem held_reqBufs (k : Driver) (m : Store) (dev : V4L2Device) (d : Nat) (a : Option Nat) :
    HeldStep dev.trace (dev.reqBufs k m d a).2.trace (fun s => s) := by
  unfold reqBufs
  simp only [enter, ioctl]
  split_ifs
  · exact ⟨_, rfl, fun s => by simp [heldAfter]⟩
  · exact ⟨_, by simp only [List.append_assoc]; rfl, fun s => by simp [heldAfter]⟩
  · exact ⟨_, by simp only [List.append_assoc]; rfl, fun s => by simp [heldAfter]⟩

theorem held_enumLoop (ty fmt : Nat) (l : List Nat) (i pf : Nat) (dev : V4L2Device) :
    HeldStep dev.trace (enumLoop ty fmt l i pf dev).2.trace (fun s => s) := by
  induction l generalizing i pf dev with
  | nil => exact ⟨_, rfl, fun s => by simp [heldAfter]⟩
  | cons x xs ih =>
    unfold enumLoop
    simp only
    split_ifs
    · exact ⟨_, rfl, fun s => by simp [heldAfter]⟩
    · exact HeldStep.trans (f := fun s => s) ⟨_, rfl, fun s => by simp [heldAfter]⟩ (ih _ _ _)

theorem held_enumFormat (k : Driver) (dev : V4L2Device) (d fmt : Nat) :
    HeldStep dev.trace (dev.enumFormat k d fmt).2.trace (fun s => s) := by
  unfold enumFormat
  simp only
  split_ifs
  · exact ⟨_, rfl, fun s => by simp [heldAfter]⟩
  · exact HeldStep.trans (f := fun s => s) ⟨_, rfl, fun s => by simp [heldAfter]⟩
      (held_enumLoop _ _ _ _ _ _)
  · exact HeldStep.trans (f := fun s => s) ⟨_, rfl, fun s => by simp [heldAfter]⟩
      (held_enumLoop _ _ _ _ _ _)

/-- A `queueBuf` that succeeds hands its index to the kernel. -/
theorem held_queueBuf (k : Driver) (m : Store) (dev : V4L2Device) (d : Nat) (i : Int)
    (h : ¬ (dev.queueBuf k m d i).1 < 0) :
    HeldStep dev.trace (dev.queueBuf k m d i).2.trace (fun s => insert (toUInt32 i) s) := by
  unfold queueBuf at h ⊢
  simp only [enter, ioctl] at h ⊢
  split_ifs at h ⊢
  · simp at h
  · split at h
    · simp at h
    · split_ifs at h ⊢ with hr
      · exact absurd hr h
      · exact ⟨_, by simp only [List.append_assoc]; rfl, fun s => by simp [heldAfter, hr]⟩

/-- A `dequeueBuf` that succeeds takes the index it returns from the kernel. -/
theorem held_dequeueBuf (k : Driver) (m : Store) (dev : V4L2Device) (d : Nat)
    (h : ¬ (dev.dequeueBuf k m d).1 < 0) :
    HeldStep dev.trace (dev.dequeueBuf k m d).2.2.trace
      (fun s => s.erase (dev.dequeueBuf k m d).1.toNat) := by
  unfold dequeueBuf at h ⊢
  simp only [enter, ioctl] at h ⊢
  split_ifs at h ⊢ with hd hr
  · simp at h
  · exact absurd hr h
  · split at h
    · simp at h
    · refine ⟨_, by simp only [List.append_assoc]; rfl, fun s => ?_⟩
      have hx : (toInt32 (k.reply (dev.trace ++ [Event.call (DevCall.dequeueBuf d)])
          (Ioctl.DQBUF (dev.type.get d))).index).toNat
          = (k.reply (dev.trace ++ [Event.call (DevCall.dequeueBuf d)])
          (Ioctl.DQBUF (dev.type.get d))).index % 4294967296 := by
        simp only [toInt32] at h ⊢
        split_ifs at h ⊢ <;> omega
      simp [heldAfter, hr, hx]

end V4L2Device

namespace V4L2Camera

theorem held_previewPoll (k : Driver) (dev : V4L2Device) :
    HeldStep dev.trace (previewPoll k dev).2.trace (fun s => s) := by
  unfold previewPoll
  simp only
  split_ifs <;> exact V4L2Device.held_pollDevice _ _ _ _

/-- A `queueBufs` loop that ran to its end has handed every index to the kernel. -/
theorem held_queueBufs (k : Driver) (m : Store) (l : List Int) (dev : V4L2Device)
    (h : ¬ (queueBufs k m l dev).1 < 0) :
    HeldStep dev.trace (queueBufs k m l dev).2.trace
      (fun s => l.foldl (fun s i => insert (toUInt32 i) s) s) := by
  induction l generalizing dev with
  | nil => exact HeldStep.refl _
  | cons i rest ih =>
    unfold queueBufs at h ⊢
    simp only at h ⊢
    split_ifs at h ⊢ with hq
    · exact absurd hq h
    · exact (V4L2Device.held_queueBuf _ _ _ _ _ hq).trans (ih _ h)

theorem getPreview_ok_held (e : Env) (cam cam' : V4L2Camera) (dev : V4L2Device) (r : Int)
    (hdev : cam.device = some dev) (h : getPreview e cam = (r, cam')) (hr : 0 ≤ r) :
    HeldStep dev.trace cam'.trace
      (fun s => (insert (toUInt32 cam.prevBufIdx) s).erase r.toNat) := by
  unfold getPreview at h
  simp only [hdev] at h
  split_ifs at h with h1 h2 h3 h4
  all_goals simp only [Prod.mk.injEq] at h
  all_goals obtain ⟨hr', hc⟩ := h
  all_goals subst hr'
  all_goals try omega
  subst hc
  have hd : ¬ (V4L2Device.dequeueBuf e.camera cam.pools
      (V4L2Device.queueBuf e.camera cam.pools (previewPoll e.camera dev).2 V4L2_CAPTURE
        cam.prevBufIdx).2 V4L2_CAPTURE).1 < 0 := by omega
  exact ((held_previewPoll _ _).trans (V4L2Device.held_queueBuf _ _ _ _ _ h3)).trans
    (V4L2Device.held_dequeueBuf _ _ _ _ hd)

theorem startPreview_stream_ok_held (e : Env) (cam cam' : V4L2Camera) (dev : V4L2Device)
    (h : startPreview_stream e cam dev = (0, cam')) :
    HeldStep dev.trace cam'.trace (fun s => insert 4 (insert 3 (insert 2 (insert 1 s)))) := by
  simp only [startPreview_stream, startPreview_err_free_v4l2_allocation,
    startPreview_err_free_conv_buffer] at h
  split_ifs at h with hq
  all_goals simp only [Prod.mk.injEq] at h
  all_goals try omega
  obtain ⟨-, hc⟩ := h
  subst hc
  have h1 := ((held_queueBufs _ _ _ _ hq).trans
    (V4L2Device.held_setStream e.camera _ V4L2_CAPTURE true)).trans
    (V4L2Device.held_pollDevice e.camera _ (Nat.lor POLLIN POLLERR) 10000)
  simpa [V4L2Camera.trace, REC_BUFFERS, List.range', toUInt32] using h1

theorem startPreview_buffers_ok_held (e : Env) (cam cam' : V4L2Camera) (dev : V4L2Device)
    (h : startPreview_buffers e cam dev = (0, cam')) :
    HeldStep dev.trace cam'.trace (fun s => insert 4 (insert 3 (insert 2 (insert 1 s)))) := by
  simp only [startPreview_buffers, startPreview_err_free_v4l2_allocation,
    startPreview_err_free_conv_buffer, newAllocation] at h
  split_ifs at h
  all_goals try (simp only [Prod.mk.injEq] at h; omega)
  all_goals
    exact (V4L2Device.held_reqBufs _ _ _ _ _).trans (startPreview_stream_ok_held _ _ _ _ h)

theorem startPreview_ok_held (e : Env) (cam cam' : V4L2Camera) (dev : V4L2Device)
    (hdev : cam.device = some dev) (hidle : cam.previewStarted = false)
    (h : startPreview e cam = (0, cam')) :
    HeldStep dev.trace cam'.trace (fun s => insert 4 (insert 3 (insert 2 (insert 1 s)))) := by
  simp only [startPreview, hdev, hidle, Bool.false_eq_true, if_false] at h
  split_ifs at h
  all_goals try (simp only [Prod.mk.injEq] at h; omega)
  exact (((V4L2Device.held_enumFormat _ _ _ _).trans (V4L2Device.held_setCtrl _ _ _ _)).trans
    (V4L2Device.held_setFormat _ _ _ _ _ _)).trans (startPreview_buffers_ok_held _ _ _ _ h)

/-- The lag invariant along a run of `getPreview()` calls that all succeed. -/
theorem getPreviews_ok_held (e : Env) (t0 : List Event) (n : Nat) (cam : V4L2Camera)
    (f : Finset Nat → Finset Nat)
    (hdev : cam.device ≠ none) (hf : HeldStep t0 cam.trace f)
    (hp : 0 ≤ cam.prevBufIdx ∧ cam.prevBufIdx < REC_BUFFERS)
    (hinv : f ∅ = (Finset.range REC_BUFFERS).erase cam.prevBufIdx.toNat)
    (hok : ∀ r ∈ (getPreviews e n cam).1, 0 ≤ r) :
    heldSince t0 (getPreviews e n cam).2.trace
        = (Finset.range REC_BUFFERS).erase (getPreviews e n cam).2.prevBufIdx.toNat
      ∧ 0 ≤ (getPreviews e n cam).2.prevBufIdx
      ∧ (getPreviews e n cam).2.prevBufIdx < REC_BUFFERS := by
  induction n generalizing cam f with
  | zero => exact ⟨by rw [getPreviews, hf.heldSince, hinv], hp.1, hp.2⟩
  | succ n ih =>
    obtain ⟨dev, hd⟩ := Option.ne_none_iff_exists'.mp hdev
    simp only [getPreviews] at hok ⊢
    rcases hg : getPreview e cam with ⟨r, cam1⟩
    rw [hg] at hok
    simp only at hok ⊢
    have hr : 0 ≤ r := hok _ (List.mem_cons_self _ _)
    obtain ⟨-, h2, h3, h4⟩ := getPreview_ok_calls e cam cam1 dev r hd hg hr
    have hstep := getPreview_ok_held e cam cam1 dev r hd hg hr
    have hcam : cam.trace = dev.trace := by simp [V4L2Camera.trace, hd]
    rw [← hcam] at hstep
    refine ih cam1 _ h4 (hf.trans hstep) ⟨by omega, by omega⟩ ?_
      (fun r hr' => hok r (List.mem_cons_of_mem _ hr'))
    have hu : toUInt32 cam.prevBufIdx = cam.prevBufIdx.toNat := by
      have := hp.1
      have := hp.2
      simp only [toUInt32, REC_BUFFERS] at *
      omega
    have hmem : cam.prevBufIdx.toNat ∈ Finset.range REC_BUFFERS := by
      have := hp.1
      have := hp.2
      simp only [Finset.mem_range, REC_BUFFERS] at *
      omega
    simp only [hinv, hu, h2, Finset.insert_erase hmem]

end V4L2Camera

/-! ## The one-buffer lag of the preview -/

namespace V4L2Camera

/-- The calls of a run of `getPreview()` calls that all succeeded. -/
theorem getPreviews_ok_calls (e : Env) (n : Nat) (cam : V4L2Camera) (hdev : cam.device ≠ none)
    (hok : ∀ r ∈ (getPreviews e n cam).1, 0 ≤ r) :
    ∃ l, calls (getPreviews e n cam).2.trace = calls cam.trace ++ l
      ∧ l.filter isBufferCall = lagSchedule cam.prevBufIdx (getPreviews e n cam).1 := by
  induction n generalizing cam with
  | zero => exact ⟨[], by simp [getPreviews], by simp [getPreviews, lagSchedule]⟩
  | succ n ih =>
    obtain ⟨dev, hd⟩ := Option.ne_none_iff_exists'.mp hdev
    simp only [getPreviews] at hok ⊢
    rcases hg : getPreview e cam with ⟨r, cam1⟩
    rw [hg] at hok
    simp only at hok ⊢
    have hr : 0 ≤ r := hok _ (List.mem_cons_self _ _)
    obtain ⟨h1, h2, -, h4⟩ := getPreview_ok_calls e cam cam1 dev r hd hg hr
    obtain ⟨l, hl1, hl2⟩ := ih cam1 h4 (fun r hr' => hok r (List.mem_cons_of_mem _ hr'))
    refine ⟨[DevCall.pollDevice (Nat.lor POLLIN POLLERR) 1000,
      DevCall.queueBuf V4L2_CAPTURE cam.prevBufIdx, DevCall.dequeueBuf V4L2_CAPTURE] ++ l, ?_, ?_⟩
    · rw [hl1, h1]
      simp [V4L2Camera.trace, hd]
    · simp [List.filter_cons, isBufferCall, lagSchedule, hl2, h2]

/-- C1: after a `startPreview()` that started the preview, in every run of `getPreview()`
calls that all succeed, the buffer calls on the capture device are, call after call, a
`queueBuf` of the index the previous call returned (index 0 for the first call) followed by
the call's own `dequeueBuf`. -/
theorem getPreview_enqueues_previous_index (e : Env) (cam0 cam1 : V4L2Camera)
    (dev0 : V4L2Device) (n : Nat)
    (hdev : cam0.device = some dev0) (hidle : cam0.previewStarted = false)
    (hstart : startPreview e cam0 = (0, cam1))
    (hok : ∀ r ∈ (getPreviews e n cam1).1, 0 ≤ r) :
    (newCalls cam1.trace (getPreviews e n cam1).2.trace).filter isBufferCall
      = lagSchedule 0 (getPreviews e n cam1).1 := by
  obtain ⟨-, h2, -, h4⟩ := startPreview_ok_calls e cam0 cam1 dev0 hdev hidle hstart
  obtain ⟨l, hl1, hl2⟩ := getPreviews_ok_calls e n cam1 h4 hok
  rw [newCalls_append _ _ _ hl1, hl2, h2]

theorem getPreview_enqueues_previous_index_witness :
    (newCalls (startPreview okEnv idleCamera).2.trace
        (getPreviews okEnv 3 (startPreview okEnv idleCamera).2).2.trace).filter isBufferCall
      = lagSchedule 0 [1, 2, 3] :=
  getPreview_enqueues_previous_index okEnv idleCamera (startPreview okEnv idleCamera).2
    idleDevice 3 rfl rfl (Prod.ext (by decide) rfl) (by decide)

/-- C2: a `startPreview()` that starts the preview (K = REC_BUFFERS = 5) issues exactly these
device calls: format negotiation, registration of the new pool, `queueBuf` for the indices
1, 2, 3, 4 in that order and for no other index, then the stream-on call, then the wait for the
first frame; so every `queueBuf` comes before the stream-on call and none is for index 0.
`prevBufIdx` is 0 afterwards. -/
theorem startPreview_queues_all_but_buffer_zero (e : Env) (cam cam' : V4L2Camera)
    (dev : V4L2Device) (hdev : cam.device = some dev) (hidle : cam.previewStarted = false)
    (h : startPreview e cam = (0, cam')) :
    newCalls dev.trace cam'.trace =
      [DevCall.enumFormat V4L2_CAPTURE cam.previewFormat,
       DevCall.setCtrl V4L2_CID_S5K4CA_CAPTURE 0,
       DevCall.setFormat V4L2_CAPTURE cam.previewWidth cam.previewHeight cam.previewFormat,
       DevCall.reqBufs V4L2_CAPTURE (some cam.pools.length),
       DevCall.queueBuf V4L2_CAPTURE 1, DevCall.queueBuf V4L2_CAPTURE 2,
       DevCall.queueBuf V4L2_CAPTURE 3, DevCall.queueBuf V4L2_CAPTURE 4,
       DevCall.setStream V4L2_CAPTURE true,
       DevCall.pollDevice (Nat.lor POLLIN POLLERR) 10000]
    ∧ (newCalls dev.trace cam'.trace).filterMap queuedIndex = [1, 2, 3, 4]
    ∧ ((newCalls dev.trace cam'.trace).takeWhile
        (fun c => decide (c ≠ DevCall.setStream V4L2_CAPTURE true))).filterMap queuedIndex
        = [1, 2, 3, 4]
    ∧ DevCall.setStream V4L2_CAPTURE true ∈ newCalls dev.trace cam'.trace
    ∧ cam'.prevBufIdx = 0 := by
  obtain ⟨h1, h2, -, -⟩ := startPreview_ok_calls e cam cam' dev hdev hidle h
  rw [newCalls_append _ _ _ h1]
  refine ⟨rfl, ?_, ?_, ?_, h2⟩
  · simp [queuedIndex]
  · simp [List.takeWhile, queuedIndex]
  · simp

theorem startPreview_queues_all_but_buffer_zero_witness :
    (newCalls idleDevice.trace (startPreview okEnv idleCamera).2.trace).filterMap queuedIndex
      = [1, 2, 3, 4]
    ∧ (startPreview okEnv idleCamera).2.prevBufIdx = 0 :=
  have h := startPreview_queues_all_but_buffer_zero okEnv idleCamera
    (startPreview okEnv idleCamera).2 idleDevice rfl rfl (Prod.ext (by decide) rfl)
  ⟨h.2.1, h.2.2.2.2⟩

end V4L2Camera

namespace V4L2Camera

/-- C3: with the kernel-held set taken to be the indices queued and not yet dequeued since
`startPreview()` was entered: after a `startPreview()` that started the preview and any number
of `getPreview()` calls that all succeeded, the kernel holds every one of the
K = REC_BUFFERS buffer indices except `prevBufIdx`, and `prevBufIdx` is one of them. -/
theorem preview_withholds_exactly_one_buffer (e : Env) (cam0 cam1 : V4L2Camera)
    (dev0 : V4L2Device) (n : Nat)
    (hdev : cam0.device = some dev0) (hidle : cam0.previewStarted = false)
    (hstart : startPreview e cam0 = (0, cam1))
    (hok : ∀ r ∈ (getPreviews e n cam1).1, 0 ≤ r) :
    heldSince dev0.trace (getPreviews e n cam1).2.trace
        = (Finset.range REC_BUFFERS).erase (getPreviews e n cam1).2.prevBufIdx.toNat
      ∧ 0 ≤ (getPreviews e n cam1).2.prevBufIdx
      ∧ (getPreviews e n cam1).2.prevBufIdx < REC_BUFFERS := by
  obtain ⟨-, h2, -, h4⟩ := startPreview_ok_calls e cam0 cam1 dev0 hdev hidle hstart
  have hs := startPreview_ok_held e cam0 cam1 dev0 hdev hidle hstart
  refine getPreviews_ok_held e dev0.trace n cam1 _ h4 hs ?_ ?_ hok
  · rw [h2]; decide
  · rw [h2]; decide

theorem preview_withholds_exactly_one_buffer_witness :
    heldSince idleDevice.trace
        (getPreviews okEnv 3 (startPreview okEnv idleCamera).2).2.trace
        = (Finset.range REC_BUFFERS).erase 3
      ∧ 0 ≤ (getPreviews okEnv 3 (startPreview okEnv idleCamera).2).2.prevBufIdx
      ∧ (getPreviews okEnv 3 (startPreview okEnv idleCamera).2).2.prevBufIdx < REC_BUFFERS :=
  preview_withholds_exactly_one_buffer okEnv idleCamera (startPreview okEnv idleCamera).2
    idleDevice 3 rfl rfl (Prod.ext (by decide) rfl) (by decide)

end V4L2Camera

/-! ## Buffer pools -/

theorem land_page_mask (n : Nat) (h : n < 4294967296) :
    Nat.land n 4294963200 = n / 4096 * 4096 := by
  show n &&& 4294963200 = n / 4096 * 4096
  apply Nat.eq_of_testBit_eq
  intro i
  have hM : (4294963200 : Nat) = 2 ^ 12 * (2 ^ 20 - 1) := by norm_num
  have h4 : (4096 : Nat) = 2 ^ 12 := by norm_num
  rw [Nat.testBit_and, hM, h4, Nat.mul_comm (n / 2 ^ 12), Nat.testBit_mul_pow_two,
    Nat.testBit_mul_pow_two, Nat.testBit_two_pow_sub_one, ← Nat.shiftRight_eq_div_pow,
    Nat.testBit_shiftRight]
  by_cases h12 : 12 ≤ i
  · by_cases h32 : i < 32
    · have : i - 12 < 20 := by omega
      simp [h12, this, show 12 + (i - 12) = i by omega]
    · have hlt : n < 2 ^ i := lt_of_lt_of_le h (by
        calc (4294967296 : Nat) = 2 ^ 32 := by norm_num
          _ ≤ 2 ^ i := Nat.pow_le_pow_right (by norm_num) (by omega))
      have : ¬ (i - 12 < 20) := by omega
      simp [h12, this, Nat.testBit_lt_two_pow hlt, show 12 + (i - 12) = i by omega]
  · simp [h12]

/-- Without overflow, `ALIGN_TO_PAGE` rounds up to a multiple of 4096. -/
theorem ALIGN_TO_PAGE_eq (s : Nat) (hs : s + 4095 < 4294967296) :
    ALIGN_TO_PAGE s = (s + 4095) / 4096 * 4096 := by
  unfold ALIGN_TO_PAGE
  rw [Nat.mod_eq_of_lt hs, land_page_mask _ hs]

namespace V4L2Allocation

theorem fill_getD (n vaddr size i : Nat) (d : V4L2Buffer) (h : i < n) :
    (fill n vaddr size).getD i d = ⟨vaddr + i * size, size, 0⟩ := by
  induction n generalizing vaddr i with
  | zero => omega
  | succ n ih =>
    cases i with
    | zero => simp [fill]
    | succ i =>
      simp only [fill, List.getD_cons_succ]
      rw [ih _ _ (by omega)]
      congr 1
      ring

/-- C4: for every count K with 1 <= K <= MAX_BUFFERS and every per-buffer size s with
s + 4095 not overflowing, a pool whose backing heap maps at `base` exposes exactly K
descriptors; descriptor i starts at `base + i * A` and has length A, where A is the smallest
multiple of 4096 that is at least s; the byte ranges of two descriptors do not overlap and every
start offset from `base` is a multiple of 4096. -/
theorem ctor_layout (K s base : Nat) (platform : Nat → HeapReply)
    (hK : 1 ≤ K ∧ K ≤ MAX_BUFFERS) (hs : s + 4095 < 4294967296)
    (hmap : platform ((ALIGN_TO_PAGE s * K) % 4294967296) = ⟨true, some base, true⟩) :
    (ctor K s platform).getBufferCount = K
    ∧ (∀ i, i < K →
        (ctor K s platform).getBuffer i = some ⟨base + i * ALIGN_TO_PAGE s, ALIGN_TO_PAGE s, 0⟩)
    ∧ (∀ i, K ≤ i → (ctor K s platform).getBuffer i = none)
    ∧ (4096 ∣ ALIGN_TO_PAGE s ∧ s ≤ ALIGN_TO_PAGE s
        ∧ ∀ B, 4096 ∣ B → s ≤ B → ALIGN_TO_PAGE s ≤ B)
    ∧ (∀ i j, i < j → j < K →
        (base + i * ALIGN_TO_PAGE s) + ALIGN_TO_PAGE s ≤ base + j * ALIGN_TO_PAGE s)
    ∧ (∀ i, i < K → 4096 ∣ (base + i * ALIGN_TO_PAGE s) - base) := by
  have hc : ctor K s platform
      = ⟨K, fill K base (ALIGN_TO_PAGE s)⟩ := by
    have h0 : ¬ (K = 0 ∨ K > MAX_BUFFERS) := by omega
    simp [ctor, h0, hmap]
  have hA := ALIGN_TO_PAGE_eq s hs
  have hdvd : 4096 ∣ ALIGN_TO_PAGE s := by rw [hA]; exact Dvd.intro_left _ rfl
  refine ⟨by rw [hc]; rfl, ?_, ?_, ⟨hdvd, ?_, ?_⟩, ?_, ?_⟩
  · intro i hi
    have hi' : ¬ i ≥ K := by omega
    rw [hc]
    simp only [getBuffer, if_neg hi', fill_getD _ _ _ _ _ hi]
  · intro i hi
    simp [hc, getBuffer, hi]
  · rw [hA]; omega
  · intro B hB hsB
    obtain ⟨q, rfl⟩ := hB
    rw [hA]
    have : (s + 4095) / 4096 ≤ q := by omega
    omega
  · intro i j hij _
    have : (i + 1) * ALIGN_TO_PAGE s ≤ j * ALIGN_TO_PAGE s := Nat.mul_le_mul_right _ hij
    rw [Nat.add_mul, Nat.one_mul] at this
    omega
  · intro i _
    rw [Nat.add_sub_cancel_left]
    exact Dvd.dvd.mul_left hdvd i

theorem ctor_layout_witness :
    (ctor 5 614400 (fun _ => ⟨true, some 4096, true⟩)).getBufferCount = 5
    ∧ (ctor 5 614400 (fun _ => ⟨true, some 4096, true⟩)).getBuffer 2
        = some ⟨4096 + 2 * ALIGN_TO_PAGE 614400, ALIGN_TO_PAGE 614400, 0⟩ :=
  have h := ctor_layout 5 614400 4096 (fun _ => ⟨true, some 4096, true⟩)
    (by decide) (by decide) rfl
  ⟨h.1, h.2.1 2 (by decide)⟩

end V4L2Allocation

/-! ## The run flags -/

namespace V4L2Camera

theorem getControl_flags (e : Env) (cam : V4L2Camera) (ctrl : Nat) :
    (getControl e cam ctrl).2.previewStarted = cam.previewStarted
    ∧ (getControl e cam ctrl).2.recordingStarted = cam.recordingStarted := by
  unfold getControl
  split_ifs
  · exact ⟨rfl, rfl⟩
  · exact ⟨rfl, rfl⟩
  · cases cam.device <;> exact ⟨rfl, rfl⟩

/-- A `getControl` of a control without a hardware id reads the cache and nothing else. -/
theorem getControl_virtual (e : Env) (cam : V4L2Camera) (ctrl : Nat)
    (h1 : ctrl < CAMERA_CTRL_NUM) (h2 : ctrlTable.getD ctrl 0 = 0) :
    getControl e cam ctrl = (cam.ctrlValues.getD ctrl 0, cam) := by
  have h1' : ¬ ctrl ≥ CAMERA_CTRL_NUM := by omega
  simp only [getControl, if_neg h1', if_pos h2]

/-- A `getControl` of a hardware-backed control on a camera that has a device is one `getCtrl`. -/
theorem getControl_hardware (e : Env) (cam : V4L2Camera) (dev : V4L2Device) (ctrl : Nat)
    (h1 : ctrl < CAMERA_CTRL_NUM) (h2 : ctrlTable.getD ctrl 0 ≠ 0) (hd : cam.device = some dev) :
    getControl e cam ctrl
      = ((dev.getCtrl e.camera (ctrlTable.getD ctrl 0)).2.1.getD 0,
         { cam with device := some (dev.getCtrl e.camera (ctrlTable.getD ctrl 0)).2.2 }) := by
  have h1' : ¬ ctrl ≥ CAMERA_CTRL_NUM := by omega
  simp only [getControl, if_neg h1', if_neg h2, hd]

/-- What `setExifChangedAttribute` does to a camera that has a device: two reads of the device,
the metering mode and then the white balance mode. -/
theorem setExifChangedAttribute_eq (e : Env) (cam : V4L2Camera) (dev : V4L2Device)
    (h : cam.device = some dev) :
    setExifChangedAttribute e cam
      = { cam with
          device := some (V4L2Device.getCtrl e.camera
                      (dev.getCtrl e.camera (ctrlTable.getD CAMERA_CTRL_METERING 0)).2.2
                      (ctrlTable.getD CAMERA_CTRL_AUTO_WB 0)).2.2 } := by
  simp only [setExifChangedAttribute,
    getControl_virtual e _ CAMERA_CTRL_EXIF_ORIENTATION (by decide) (by decide),
    getControl_virtual e _ CAMERA_CTRL_SCENE_MODE (by decide) (by decide),
    getControl_hardware e cam dev CAMERA_CTRL_METERING (by decide) (by decide) h,
    getControl_hardware e
      { cam with
        device := some (dev.getCtrl e.camera (ctrlTable.getD CAMERA_CTRL_METERING 0)).2.2 }
      (dev.getCtrl e.camera (ctrlTable.getD CAMERA_CTRL_METERING 0)).2.2
      CAMERA_CTRL_AUTO_WB (by decide) (by decide) rfl,
    getControl_virtual e _ CAMERA_CTRL_GPS_LATITUDE (by decide) (by decide),
    getControl_virtual e _ CAMERA_CTRL_GPS_LONGITUDE (by decide) (by decide),
    getControl_virtual e _ CAMERA_CTRL_GPS_ALTITUDE (by decide) (by decide),
    getControl_virtual e _ CAMERA_CTRL_GPS_TIMESTAMP (by decide) (by decide)]
  split_ifs <;> rfl

theorem startPreview_err_flags (e : Env) (cam : V4L2Camera) (dev : V4L2Device) :
    (startPreview_err_free_v4l2_allocation e cam dev).2.previewStarted = cam.previewStarted
    ∧ (startPreview_err_free_v4l2_allocation e cam dev).2.recordingStarted
      = cam.recordingStarted :=
  ⟨rfl, rfl⟩

theorem startPreview_stream_recording (e : Env) (cam : V4L2Camera) (dev : V4L2Device) :
    (startPreview_stream e cam dev).2.recordingStarted = cam.recordingStarted := by
  simp only [startPreview_stream]
  split_ifs <;> rfl

theorem startPreview_buffers_recording (e : Env) (cam : V4L2Camera) (dev : V4L2Device) :
    (startPreview_buffers e cam dev).2.recordingStarted = cam.recordingStarted := by
  simp only [startPreview_buffers, newAllocation]
  split_ifs <;>
    first
    | rfl
    | exact (startPreview_err_flags _ _ _).2
    | exact startPreview_stream_recording _ _ _

/-- The function `startPreview()` never writes `recordingStarted`. -/
theorem startPreview_recording (e : Env) (cam : V4L2Camera) :
    (startPreview e cam).2.recordingStarted = cam.recordingStarted := by
  unfold startPreview
  split_ifs
  · rfl
  · cases cam.device with
    | none => rfl
    | some dev =>
      simp only
      split_ifs <;> first | rfl | exact startPreview_buffers_recording _ _ _

/-- The function `stopPreview()` never writes `recordingStarted` and never sets `previewStarted`. -/
theorem stopPreview_flags (e : Env) (cam : V4L2Camera) :
    (stopPreview e cam).2.recordingStarted = cam.recordingStarted
    ∧ ((stopPreview e cam).2.previewStarted = true → cam.previewStarted = true) := by
  unfold stopPreview
  split_ifs
  · exact ⟨rfl, id⟩
  · cases cam.device with
    | none => exact ⟨rfl, id⟩
    | some dev =>
      simp only
      split_ifs
      · exact ⟨rfl, id⟩
      · exact ⟨rfl, fun h => by simp at h⟩

theorem startRecord_stream_preview (e : Env) (cam : V4L2Camera) (dev : V4L2Device) :
    (startRecord_stream e cam dev).2.previewStarted = cam.previewStarted := by
  simp only [startRecord_stream, startRecord_err_free_v4l2_allocation]
  split_ifs <;> rfl

/-- The function `startRecord()` never writes `previewStarted`. -/
theorem startRecord_preview (e : Env) (cam : V4L2Camera) :
    (startRecord e cam).2.previewStarted = cam.previewStarted := by
  unfold startRecord
  split_ifs
  · rfl
  · cases cam.device with
    | none => rfl
    | some dev =>
      simp only [newAllocation]
      split_ifs <;> first | rfl | exact startRecord_stream_preview _ _ _

/-- The function `stopRecord()` never writes `previewStarted` and never sets `recordingStarted`. -/
theorem stopRecord_flags (e : Env) (cam : V4L2Camera) :
    (stopRecord e cam).2.previewStarted = cam.previewStarted
    ∧ ((stopRecord e cam).2.recordingStarted = true → cam.recordingStarted = true) := by
  unfold stopRecord
  split_ifs
  · exact ⟨rfl, id⟩
  · cases cam.device with
    | none => exact ⟨rfl, id⟩
    | some dev =>
      simp only
      split_ifs
      · exact ⟨rfl, id⟩
      · exact ⟨rfl, fun h => by simp at h⟩

theorem getSnapshotAndJpeg_error_flags (e : Env) (cam : V4L2Camera) (dev : V4L2Device) :
    (getSnapshotAndJpeg_error e cam dev).2.previewStarted = cam.previewStarted
    ∧ (getSnapshotAndJpeg_error e cam dev).2.recordingStarted = cam.recordingStarted :=
  ⟨rfl, rfl⟩

theorem getSnapshotAndJpeg_yuv_flags (e : Env) (cam : V4L2Camera) (dev : V4L2Device)
    (y : Bool) (n : Nat) :
    (getSnapshotAndJpeg_yuv e cam dev y n).2.previewStarted = cam.previewStarted
    ∧ (getSnapshotAndJpeg_yuv e cam dev y n).2.recordingStarted = cam.recordingStarted := by
  unfold getSnapshotAndJpeg_yuv
  split_ifs <;> exact ⟨rfl, rfl⟩

theorem getSnapshotAndJpeg_jpeg_flags (e : Env) (cam : V4L2Camera) (dev : V4L2Device)
    (y j : Bool) (a b n : Nat) :
    (getSnapshotAndJpeg_jpeg e cam dev y j a b n).2.previewStarted = cam.previewStarted
    ∧ (getSnapshotAndJpeg_jpeg e cam dev y j a b n).2.recordingStarted
      = cam.recordingStarted := by
  simp only [getSnapshotAndJpeg_jpeg, newAllocation,
    getControl_virtual e _ CAMERA_CTRL_JPEG_QUALITY (by decide) (by decide), Option.getD_some,
    setExifChangedAttribute_eq e _ dev]
  split_ifs <;>
    first
    | exact getSnapshotAndJpeg_yuv_flags _ _ _ _ _
    | exact getSnapshotAndJpeg_error_flags _ _ _

theorem getSnapshotAndJpeg_capture_flags (e : Env) (cam : V4L2Camera) (dev : V4L2Device)
    (y j : Bool) (a b n : Nat) :
    (getSnapshotAndJpeg_capture e cam dev y j a b n).2.previewStarted = cam.previewStarted
    ∧ (getSnapshotAndJpeg_capture e cam dev y j a b n).2.recordingStarted
      = cam.recordingStarted := by
  simp only [getSnapshotAndJpeg_capture]
  split_ifs <;>
    first
    | exact getSnapshotAndJpeg_error_flags _ _ _
    | exact getSnapshotAndJpeg_jpeg_flags _ _ _ _ _ _ _ _

theorem getSnapshotAndJpeg_configure_flags (e : Env) (cam : V4L2Camera) (dev : V4L2Device)
    (y j : Bool) :
    (getSnapshotAndJpeg_configure e cam dev y j).2.previewStarted = cam.previewStarted
    ∧ (getSnapshotAndJpeg_configure e cam dev y j).2.recordingStarted
      = cam.recordingStarted := by
  simp only [getSnapshotAndJpeg_configure, newAllocation]
  split_ifs
  all_goals
    first
    | (split
       · exact getSnapshotAndJpeg_error_flags _ _ _
       · exact getSnapshotAndJpeg_capture_flags _ _ _ _ _ _ _ _)
    | exact ⟨rfl, rfl⟩

/-- The function `getSnapshotAndJpeg` never writes `recordingStarted` and never sets `previewStarted`. -/
theorem getSnapshotAndJpeg_flags (e : Env) (cam : V4L2Camera) (y j : Bool) :
    (getSnapshotAndJpeg e cam y j).2.recordingStarted = cam.recordingStarted
    ∧ ((getSnapshotAndJpeg e cam y j).2.previewStarted = true → cam.previewStarted = true) := by
  unfold getSnapshotAndJpeg
  cases hd : cam.device with
  | none => exact ⟨rfl, id⟩
  | some dev0 =>
    simp only
    split_ifs with h1 h2
    · exact ⟨rfl, id⟩
    · cases hd' : (stopPreview e cam).2.device with
      | none => exact ⟨(stopPreview_flags e cam).1, fun _ => h2⟩
      | some dev =>
        simp only
        exact ⟨(getSnapshotAndJpeg_configure_flags _ _ _ _ _).2.trans (stopPreview_flags e cam).1,
          fun _ => h2⟩
    · simp only [hd]
      exact ⟨(getSnapshotAndJpeg_configure_flags _ _ _ _ _).2,
        fun h => ((getSnapshotAndJpeg_configure_flags _ _ _ _ _).1.symm.trans h)⟩

end V4L2Camera

/-! ## Stream modes -/

/-- A mode call never makes both run flags true, if it keeps to the caller's discipline. -/
theorem ModeCall.run_exclusive (e : Env) (cam : V4L2Camera) (c : ModeCall)
    (hinv : ¬ (cam.previewStarted = true ∧ cam.recordingStarted = true))
    (hc : c.allowed cam = true) :
    ¬ ((c.run e cam).previewStarted = true ∧ (c.run e cam).recordingStarted = true) := by
  rintro ⟨hp, hr⟩
  cases c with
  | startPreview =>
    simp only [ModeCall.run, V4L2Camera.startPreview_recording] at hr
    simp [ModeCall.allowed, hr] at hc
  | stopPreview =>
    simp only [ModeCall.run] at hp hr
    rw [(V4L2Camera.stopPreview_flags e cam).1] at hr
    exact hinv ⟨(V4L2Camera.stopPreview_flags e cam).2 hp, hr⟩
  | startRecord =>
    simp only [ModeCall.run, V4L2Camera.startRecord_preview] at hp
    simp [ModeCall.allowed, hp] at hc
  | stopRecord =>
    simp only [ModeCall.run] at hp hr
    rw [(V4L2Camera.stopRecord_flags e cam).1] at hp
    exact hinv ⟨hp, (V4L2Camera.stopRecord_flags e cam).2 hr⟩
  | getSnapshotAndJpeg y j =>
    simp only [ModeCall.run] at hp hr
    rw [(V4L2Camera.getSnapshotAndJpeg_flags e cam y j).1] at hr
    exact hinv ⟨(V4L2Camera.getSnapshotAndJpeg_flags e cam y j).2 hp, hr⟩

/-- C5 (as amended): the run flags stay mutually exclusive along every sequence of
`startPreview`, `stopPreview`, `startRecord`, `stopRecord` and `getSnapshotAndJpeg` calls in
which a mode is started only while the other mode is not running.  The code itself has no such
gate: `startPreview` never writes `recordingStarted` and `startRecord` never writes
`previewStarted`. -/
theorem run_flags_exclusive_under_discipline (e : Env) (cs : List ModeCall) (cam : V4L2Camera)
    (hinv : ¬ (cam.previewStarted = true ∧ cam.recordingStarted = true))
    (hcs : disciplined e cs cam = true) :
    ¬ ((runModeCalls e cs cam).previewStarted = true
        ∧ (runModeCalls e cs cam).recordingStarted = true)
    ∧ (V4L2Camera.startPreview e cam).2.recordingStarted = cam.recordingStarted
    ∧ (V4L2Camera.startRecord e cam).2.previewStarted = cam.previewStarted := by
  refine ⟨?_, V4L2Camera.startPreview_recording e cam, V4L2Camera.startRecord_preview e cam⟩
  induction cs generalizing cam with
  | nil => exact hinv
  | cons c rest ih =>
    simp only [disciplined, Bool.and_eq_true] at hcs
    exact ih (c.run e cam) (ModeCall.run_exclusive e cam c hinv hcs.1) hcs.2

theorem run_flags_exclusive_under_discipline_witness :
    ¬ ((runModeCalls okEnv
          [ModeCall.startPreview, ModeCall.getSnapshotAndJpeg true true, ModeCall.startRecord,
           ModeCall.stopRecord, ModeCall.startPreview] idleCamera).previewStarted = true
        ∧ (runModeCalls okEnv
          [ModeCall.startPreview, ModeCall.getSnapshotAndJpeg true true, ModeCall.startRecord,
           ModeCall.stopRecord, ModeCall.startPreview] idleCamera).recordingStarted = true) :=
  (run_flags_exclusive_under_discipline okEnv
    [ModeCall.startPreview, ModeCall.getSnapshotAndJpeg true true, ModeCall.startRecord,
     ModeCall.stopRecord, ModeCall.startPreview] idleCamera (by decide) (by decide)).1

/-- C5 (as stated) fails: on a platform where every call succeeds, `startPreview()` followed by
`startRecord()` on an opened idle camera leaves both run flags true. -/
theorem run_flags_not_exclusive :
    idleCamera.device ≠ none
    ∧ (runModeCalls okEnv [ModeCall.startPreview, ModeCall.startRecord] idleCamera).previewStarted
        = true
    ∧ (runModeCalls okEnv [ModeCall.startPreview, ModeCall.startRecord]
        idleCamera).recordingStarted = true := by
  decide

namespace V4L2Camera

/-- C9 (as amended): `stopPreview()` on an opened camera with preview running issues the
stream-off; when the stream-off succeeds it goes on to the zero-count `reqBufs`, releases the
pool and the conversion buffer, clears `previewStarted` and returns success; when the stream-off
fails it returns -1 at once, with no deregistration, the pool kept and `previewStarted` still
set. -/
theorem stopPreview_running (e : Env) (cam : V4L2Camera) (dev : V4L2Device)
    (hdev : cam.device = some dev) (hrun : cam.previewStarted = true) :
    (¬ (dev.setStream e.camera V4L2_CAPTURE false).1 < 0 →
      0 ≤ (stopPreview e cam).1
      ∧ newCalls dev.trace (stopPreview e cam).2.trace
          = [DevCall.setStream V4L2_CAPTURE false, DevCall.reqBufs V4L2_CAPTURE none]
      ∧ (stopPreview e cam).2.previewAllocation = none
      ∧ (stopPreview e cam).2.previewConvBuffer = none
      ∧ (stopPreview e cam).2.previewStarted = false)
    ∧ ((dev.setStream e.camera V4L2_CAPTURE false).1 < 0 →
      (stopPreview e cam).1 = -1
      ∧ newCalls dev.trace (stopPreview e cam).2.trace = [DevCall.setStream V4L2_CAPTURE false]
      ∧ (stopPreview e cam).2.previewAllocation = cam.previewAllocation
      ∧ (stopPreview e cam).2.previewStarted = true) := by
  constructor
  · intro h
    have heq : stopPreview e cam = ((dev.setStream e.camera V4L2_CAPTURE false).1,
        { cam with
          device := some ((dev.setStream e.camera V4L2_CAPTURE false).2.reqBufs e.camera
            cam.pools V4L2_CAPTURE none).2
          previewAllocation := none
          previewConvBuffer := none
          previewStarted := false }) := by
      simp only [stopPreview, hdev, hrun, Bool.true_eq_false, if_false, if_neg h]
    rw [heq]
    refine ⟨by simp only; omega, ?_, rfl, rfl, rfl⟩
    apply newCalls_append
    simp [V4L2Camera.trace]
  · intro h
    have heq : stopPreview e cam = (-1,
        { cam with device := some (dev.setStream e.camera V4L2_CAPTURE false).2 }) := by
      simp only [stopPreview, hdev, hrun, Bool.true_eq_false, if_false, if_pos h]
    rw [heq]
    refine ⟨rfl, ?_, rfl, hrun⟩
    apply newCalls_append
    simp [V4L2Camera.trace]

theorem stopPreview_running_witness :
    0 ≤ (stopPreview okEnv (startPreview okEnv idleCamera).2).1
    ∧ (stopPreview okEnv (startPreview okEnv idleCamera).2).2.previewStarted = false :=
  have h := (stopPreview_running okEnv (startPreview okEnv idleCamera).2
    ((startPreview okEnv idleCamera).2.device.getD idleDevice) (by decide) (by decide)).1
    (by decide)
  ⟨h.1, h.2.2.2.2⟩

/-- C9 (as stated) fails: with a driver that rejects the stream-off, `stopPreview()` on an
opened camera with preview running returns -1, issues no deregistration, keeps the pool and
leaves `previewStarted` set. -/
theorem stopPreview_fails_when_streamoff_fails :
    (startPreview noStreamOffEnv idleCamera).2.device ≠ none
    ∧ (startPreview noStreamOffEnv idleCamera).2.previewStarted = true
    ∧ ¬ (0 ≤ (stopPreview noStreamOffEnv (startPreview noStreamOffEnv idleCamera).2).1
        ∧ DevCall.reqBufs V4L2_CAPTURE none ∈
            newCalls (startPreview noStreamOffEnv idleCamera).2.trace
              (stopPreview noStreamOffEnv (startPreview noStreamOffEnv idleCamera).2).2.trace
        ∧ (stopPreview noStreamOffEnv
            (startPreview noStreamOffEnv idleCamera).2).2.previewAllocation = none
        ∧ (stopPreview noStreamOffEnv
            (startPreview noStreamOffEnv idleCamera).2).2.previewStarted = false) := by
  decide

/-- C10: `stopPreview()` when preview is not running and `stopRecord()` when recording is not
running return 0 and leave the camera, its device trace included, exactly as it was; so after
a stop that succeeded, a second stop returns 0 and changes nothing. -/
theorem stop_when_not_running (e : Env) (cam : V4L2Camera) :
    (cam.previewStarted = false → stopPreview e cam = (0, cam))
    ∧ (cam.recordingStarted = false → stopRecord e cam = (0, cam))
    ∧ (0 ≤ (stopPreview e cam).1 →
        stopPreview e (stopPreview e cam).2 = (0, (stopPreview e cam).2))
    ∧ (0 ≤ (stopRecord e cam).1 →
        stopRecord e (stopRecord e cam).2 = (0, (stopRecord e cam).2)) := by
  have hp : ∀ c : V4L2Camera, c.previewStarted = false → stopPreview e c = (0, c) :=
    fun c h => by simp [stopPreview, h]
  have hr : ∀ c : V4L2Camera, c.recordingStarted = false → stopRecord e c = (0, c) :=
    fun c h => by simp [stopRecord, h]
  refine ⟨hp cam, hr cam, fun h => hp _ ?_, fun h => hr _ ?_⟩
  · unfold stopPreview at h ⊢
    split_ifs at h ⊢ with h1
    · exact h1
    · cases hd : cam.device with
      | none => simp [hd] at h
      | some dev =>
        simp only [hd] at h ⊢
        split_ifs at h ⊢
        · simp at h
        · rfl
  · unfold stopRecord at h ⊢
    split_ifs at h ⊢ with h1
    · exact h1
    · cases hd : cam.device with
      | none => simp [hd] at h
      | some dev =>
        simp only [hd] at h ⊢
        split_ifs at h ⊢
        · simp at h
        · rfl

theorem stop_when_not_running_witness :
    stopPreview okEnv idleCamera = (0, idleCamera)
    ∧ stopRecord okEnv idleCamera = (0, idleCamera)
    ∧ stopPreview okEnv (stopPreview okEnv (startPreview okEnv idleCamera).2).2
        = (0, (stopPreview okEnv (startPreview okEnv idleCamera).2).2) :=
  ⟨(stop_when_not_running okEnv idleCamera).1 rfl,
    (stop_when_not_running okEnv idleCamera).2.1 rfl,
    (stop_when_not_running okEnv (startPreview okEnv idleCamera).2).2.2.1 (by decide)⟩

end V4L2Camera

/-! ## Calls of the snapshot -/

theorem Cleaned.suffix (a c : List DevCall) :
    Cleaned (a ++ DevCall.setStream V4L2_CAPTURE false
      :: DevCall.reqBufs V4L2_CAPTURE none :: c) :=
  ⟨a, [], c, by simp⟩

namespace V4L2Camera

@[simp] theorem calls_getSnapshotAndJpeg_error (e : Env) (cam : V4L2Camera)
    (dev : V4L2Device) :
    calls (getSnapshotAndJpeg_error e cam dev).2.trace = calls dev.trace ++
      [DevCall.setStream V4L2_CAPTURE false, DevCall.reqBufs V4L2_CAPTURE none] := by
  simp [getSnapshotAndJpeg_error, V4L2Camera.trace]

@[simp] theorem calls_getSnapshotAndJpeg_yuv (e : Env) (cam : V4L2Camera) (dev : V4L2Device)
    (y : Bool) (n : Nat) :
    calls (getSnapshotAndJpeg_yuv e cam dev y n).2.trace = calls dev.trace := by
  unfold getSnapshotAndJpeg_yuv
  split_ifs <;> simp [V4L2Camera.trace]

theorem getControl_jpeg_quality (e : Env) (cam : V4L2Camera) :
    getControl e cam CAMERA_CTRL_JPEG_QUALITY
      = (cam.ctrlValues.getD CAMERA_CTRL_JPEG_QUALITY 0, cam) := rfl

/-- The JPEG part of the snapshot adds to the calls of the capture device only the two control
reads of `setExifChangedAttribute` and the two calls of the error label. -/
theorem calls_getSnapshotAndJpeg_jpeg (e : Env) (cam : V4L2Camera) (dev : V4L2Device)
    (y j : Bool) (a b n : Nat) :
    ∃ l, calls (getSnapshotAndJpeg_jpeg e cam dev y j a b n).2.trace = calls dev.trace ++ l
      ∧ DevCall.queueBuf V4L2_CAPTURE 0 ∉ l := by
  simp only [getSnapshotAndJpeg_jpeg, newAllocation, getControl_jpeg_quality, Option.getD_some,
    setExifChangedAttribute_eq e _ dev]
  split_ifs
  · exact ⟨[], by simp, by simp⟩
  · exact ⟨[DevCall.setStream V4L2_CAPTURE false, DevCall.reqBufs V4L2_CAPTURE none],
      by simp, by simp⟩
  · exact ⟨[DevCall.setStream V4L2_CAPTURE false, DevCall.reqBufs V4L2_CAPTURE none],
      by simp, by simp⟩
  · exact ⟨[DevCall.setStream V4L2_CAPTURE false, DevCall.reqBufs V4L2_CAPTURE none],
      by simp, by simp⟩
  · exact ⟨[DevCall.getCtrl (ctrlTable.getD CAMERA_CTRL_METERING 0),
        DevCall.getCtrl (ctrlTable.getD CAMERA_CTRL_AUTO_WB 0),
        DevCall.setStream V4L2_CAPTURE false, DevCall.reqBufs V4L2_CAPTURE none],
      by simp, by simp⟩
  · exact ⟨[DevCall.getCtrl (ctrlTable.getD CAMERA_CTRL_METERING 0),
        DevCall.getCtrl (ctrlTable.getD CAMERA_CTRL_AUTO_WB 0)],
      by simp, by simp⟩

/-- Every return of the snapshot that comes after the enqueue of index 0 has issued, after that
enqueue, a stream-off and then a zero-count deregistration on the capture direction. -/
theorem calls_getSnapshotAndJpeg_capture (e : Env) (cam : V4L2Camera) (dev : V4L2Device)
    (y j : Bool) (a b n : Nat) :
    ∃ l, calls (getSnapshotAndJpeg_capture e cam dev y j a b n).2.trace
        = calls dev.trace ++ DevCall.queueBuf V4L2_CAPTURE 0 :: l
      ∧ DevCall.queueBuf V4L2_CAPTURE 0 ∉ l ∧ Cleaned l := by
  simp only [getSnapshotAndJpeg_capture]
  split_ifs
  · exact ⟨_, by simp, by simp, Cleaned.suffix [] []⟩
  · exact ⟨_, by simp, by simp,
      Cleaned.suffix [DevCall.setStream V4L2_CAPTURE true] []⟩
  · exact ⟨_, by simp, by simp,
      Cleaned.suffix [DevCall.setStream V4L2_CAPTURE true,
        DevCall.pollDevice (Nat.lor POLLIN POLLERR) 10000] []⟩
  · exact ⟨_, by simp, by simp,
      Cleaned.suffix [DevCall.setStream V4L2_CAPTURE true,
        DevCall.pollDevice (Nat.lor POLLIN POLLERR) 10000,
        DevCall.dequeueBuf V4L2_CAPTURE] []⟩
  · obtain ⟨l, hl, hq⟩ := calls_getSnapshotAndJpeg_jpeg e
      { cam with pools := (V4L2Device.dequeueBuf e.camera cam.pools
          (V4L2Device.pollDevice e.camera
            (V4L2Device.setStream e.camera
              (V4L2Device.queueBuf e.camera cam.pools dev V4L2_CAPTURE 0).2
              V4L2_CAPTURE true).2 (Nat.lor POLLIN POLLERR) 10000).2 V4L2_CAPTURE).2.1 }
      _ y j a b n
    refine ⟨[DevCall.setStream V4L2_CAPTURE true,
        DevCall.pollDevice (Nat.lor POLLIN POLLERR) 10000,
        DevCall.dequeueBuf V4L2_CAPTURE, DevCall.setStream V4L2_CAPTURE false,
        DevCall.reqBufs V4L2_CAPTURE none] ++ l, ?_, ?_, ?_⟩
    · rw [hl]; simp
    · simp [hq]
    · exact Cleaned.suffix [DevCall.setStream V4L2_CAPTURE true,
        DevCall.pollDevice (Nat.lor POLLIN POLLERR) 10000,
        DevCall.dequeueBuf V4L2_CAPTURE] l

end V4L2Camera

namespace V4L2Camera

/-- The calls of the snapshot from `setCtrl` on: some calls that are neither the enqueue of
index 0 nor a stream-on, and then either nothing more, or that enqueue and after it a
stream-off followed by a deregistration. -/
theorem calls_getSnapshotAndJpeg_configure (e : Env) (cam : V4L2Camera) (dev : V4L2Device)
    (y j : Bool) :
    ∃ p, DevCall.queueBuf V4L2_CAPTURE 0 ∉ p
      ∧ (calls (getSnapshotAndJpeg_configure e cam dev y j).2.trace = calls dev.trace ++ p
        ∨ ∃ l, calls (getSnapshotAndJpeg_configure e cam dev y j).2.trace
            = calls dev.trace ++ p ++ DevCall.queueBuf V4L2_CAPTURE 0 :: l
          ∧ DevCall.queueBuf V4L2_CAPTURE 0 ∉ l ∧ Cleaned l) := by
  simp only [getSnapshotAndJpeg_configure, newAllocation]
  split_ifs
  · exact ⟨[DevCall.setCtrl V4L2_CID_S5K4CA_CAPTURE 1], by simp,
      Or.inl (by simp [V4L2Camera.trace])⟩
  · exact ⟨[DevCall.setCtrl V4L2_CID_S5K4CA_CAPTURE 1,
      DevCall.enumFormat V4L2_CAPTURE cam.snapshotFormat], by simp,
      Or.inl (by simp [V4L2Camera.trace])⟩
  · exact ⟨[DevCall.setCtrl V4L2_CID_S5K4CA_CAPTURE 1,
      DevCall.enumFormat V4L2_CAPTURE cam.snapshotFormat,
      DevCall.setFormat V4L2_CAPTURE cam.snapshotWidth cam.snapshotHeight cam.snapshotFormat],
      by simp, Or.inl (by simp [V4L2Camera.trace])⟩
  · exact ⟨[DevCall.setCtrl V4L2_CID_S5K4CA_CAPTURE 1,
      DevCall.enumFormat V4L2_CAPTURE cam.snapshotFormat,
      DevCall.setFormat V4L2_CAPTURE cam.snapshotWidth cam.snapshotHeight cam.snapshotFormat],
      by simp, Or.inl (by simp [V4L2Camera.trace])⟩
  · exact ⟨[DevCall.setCtrl V4L2_CID_S5K4CA_CAPTURE 1,
      DevCall.enumFormat V4L2_CAPTURE cam.snapshotFormat,
      DevCall.setFormat V4L2_CAPTURE cam.snapshotWidth cam.snapshotHeight cam.snapshotFormat,
      DevCall.reqBufs V4L2_CAPTURE (some cam.pools.length)],
      by simp, Or.inl (by simp [V4L2Camera.trace])⟩
  · split
    · exact ⟨[DevCall.setCtrl V4L2_CID_S5K4CA_CAPTURE 1,
        DevCall.enumFormat V4L2_CAPTURE cam.snapshotFormat,
        DevCall.setFormat V4L2_CAPTURE cam.snapshotWidth cam.snapshotHeight cam.snapshotFormat,
        DevCall.reqBufs V4L2_CAPTURE (some cam.pools.length),
        DevCall.setStream V4L2_CAPTURE false, DevCall.reqBufs V4L2_CAPTURE none],
        by simp, Or.inl (by simp)⟩
    · obtain ⟨l, hl, hq, hc⟩ := calls_getSnapshotAndJpeg_capture e
        { cam with pools := cam.pools ++ [V4L2Allocation.ctor 1
            (max (get_buffer_size cam.snapshotWidth cam.snapshotHeight cam.snapshotFormat)
              (get_buffer_size cam.snapshotWidth cam.snapshotHeight cam.snapshotTargetFormat))
            (e.heap (V4L2Device.setFormat e.camera
              (V4L2Device.enumFormat e.camera
                (V4L2Device.setCtrl e.camera dev V4L2_CID_S5K4CA_CAPTURE 1).2
                V4L2_CAPTURE cam.snapshotFormat).2
              V4L2_CAPTURE cam.snapshotWidth cam.snapshotHeight cam.snapshotFormat).2.trace)] }
        _ y j cam.pools.length _ _
      refine ⟨[DevCall.setCtrl V4L2_CID_S5K4CA_CAPTURE 1,
        DevCall.enumFormat V4L2_CAPTURE cam.snapshotFormat,
        DevCall.setFormat V4L2_CAPTURE cam.snapshotWidth cam.snapshotHeight cam.snapshotFormat,
        DevCall.reqBufs V4L2_CAPTURE (some cam.pools.length)], by simp, Or.inr ⟨l, ?_, hq, hc⟩⟩
      rw [hl]
      simp

/-- The function `stopPreview()` on a running preview starts with the stream-off. -/
theorem calls_stopPreview_running (e : Env) (cam : V4L2Camera) (dev : V4L2Device)
    (hdev : cam.device = some dev) (hrun : cam.previewStarted = true) :
    ∃ s, calls (stopPreview e cam).2.trace
        = calls dev.trace ++ DevCall.setStream V4L2_CAPTURE false :: s
      ∧ DevCall.queueBuf V4L2_CAPTURE 0 ∉ s
      ∧ (stopPreview e cam).2.device ≠ none := by
  simp only [stopPreview, hdev, hrun, Bool.true_eq_false, if_false]
  split_ifs
  · exact ⟨[], by simp [V4L2Camera.trace], by simp, by simp⟩
  · exact ⟨[DevCall.reqBufs V4L2_CAPTURE none], by simp [V4L2Camera.trace], by simp, by simp⟩

/-- The calls of `getSnapshotAndJpeg`: a first part without the enqueue of index 0, which
starts with the stream-off when preview was running and a buffer was asked for, and then either
nothing more, or the enqueue of index 0 and after it a stream-off followed by a
deregistration. -/
theorem calls_getSnapshotAndJpeg (e : Env) (cam : V4L2Camera) (y j : Bool) :
    ∃ p, DevCall.queueBuf V4L2_CAPTURE 0 ∉ p
      ∧ (cam.device ≠ none → ¬ (y = false ∧ j = false) → cam.previewStarted = true →
          ∃ p', p = DevCall.setStream V4L2_CAPTURE false :: p')
      ∧ (calls (getSnapshotAndJpeg e cam y j).2.trace = calls cam.trace ++ p
        ∨ ∃ l, calls (getSnapshotAndJpeg e cam y j).2.trace
            = calls cam.trace ++ p ++ DevCall.queueBuf V4L2_CAPTURE 0 :: l
          ∧ DevCall.queueBuf V4L2_CAPTURE 0 ∉ l ∧ Cleaned l) := by
  unfold getSnapshotAndJpeg
  cases hd : cam.device with
  | none => exact ⟨[], by simp, fun h => absurd rfl h, Or.inl (by simp)⟩
  | some dev0 =>
    have ht : cam.trace = dev0.trace := by simp [V4L2Camera.trace, hd]
    simp only
    split_ifs with h1 h2
    · exact ⟨[], by simp, fun _ h => absurd h1 h, Or.inl (by simp)⟩
    · obtain ⟨s, hs, hsq, hsd⟩ := calls_stopPreview_running e cam dev0 hd h2
      obtain ⟨dev1, hd1⟩ := Option.ne_none_iff_exists'.mp hsd
      have ht1 : (stopPreview e cam).2.trace = dev1.trace := by simp [V4L2Camera.trace, hd1]
      simp only [hd1]
      obtain ⟨p, hp, hc⟩ := calls_getSnapshotAndJpeg_configure e (stopPreview e cam).2 dev1 y j
      refine ⟨DevCall.setStream V4L2_CAPTURE false :: s ++ p, ?_, fun _ _ _ => ⟨_, rfl⟩, ?_⟩
      · simp [hsq, hp]
      · rcases hc with hc | ⟨l, hl, hlq, hlc⟩
        · left
          rw [hc, ← ht1, hs, ht]
          simp
        · right
          refine ⟨l, ?_, hlq, hlc⟩
          rw [hl, ← ht1, hs, ht]
          simp
    · simp only [hd]
      obtain ⟨p, hp, hc⟩ := calls_getSnapshotAndJpeg_configure e cam dev0 y j
      refine ⟨p, hp, fun _ _ h => absurd h h2, ?_⟩
      rw [ht]
      exact hc

end V4L2Camera

namespace V4L2Camera

/-- C6: when `getSnapshotAndJpeg` is called on an opened camera while preview is running, with
at least one output buffer requested, the first device call it issues is the stream-off of the
preview; so a stream-off call precedes every stream-on call it issues. -/
theorem getSnapshotAndJpeg_stops_preview_first (e : Env) (cam : V4L2Camera) (y j : Bool)
    (hdev : cam.device ≠ none) (hrun : cam.previewStarted = true)
    (hbuf : ¬ (y = false ∧ j = false)) :
    (∃ rest, newCalls cam.trace (getSnapshotAndJpeg e cam y j).2.trace
        = DevCall.setStream V4L2_CAPTURE false :: rest)
    ∧ ∀ pre post, newCalls cam.trace (getSnapshotAndJpeg e cam y j).2.trace
        = pre ++ DevCall.setStream V4L2_CAPTURE true :: post →
        DevCall.setStream V4L2_CAPTURE false ∈ pre := by
  obtain ⟨p, -, hp, hc⟩ := calls_getSnapshotAndJpeg e cam y j
  obtain ⟨p', rfl⟩ := hp hdev hbuf hrun
  have hfirst : ∃ rest, newCalls cam.trace (getSnapshotAndJpeg e cam y j).2.trace
      = DevCall.setStream V4L2_CAPTURE false :: rest := by
    rcases hc with hc | ⟨l, hl, -, -⟩
    · exact ⟨_, newCalls_append _ _ _ hc⟩
    · exact ⟨p' ++ DevCall.queueBuf V4L2_CAPTURE 0 :: l,
        newCalls_append _ _ _ (by rw [hl]; simp)⟩
  refine ⟨hfirst, fun pre post h => ?_⟩
  obtain ⟨rest, hr⟩ := hfirst
  rw [hr] at h
  cases pre with
  | nil => simp at h
  | cons x xs =>
    simp only [List.cons_append, List.cons.injEq] at h
    rw [← h.1]
    exact List.mem_cons_self _ _

theorem getSnapshotAndJpeg_stops_preview_first_witness :
    (∃ rest, newCalls (startPreview okEnv idleCamera).2.trace
        (getSnapshotAndJpeg okEnv (startPreview okEnv idleCamera).2 true true).2.trace
        = DevCall.setStream V4L2_CAPTURE false :: rest)
    ∧ DevCall.setStream V4L2_CAPTURE true ∈ newCalls (startPreview okEnv idleCamera).2.trace
        (getSnapshotAndJpeg okEnv (startPreview okEnv idleCamera).2 true true).2.trace :=
  ⟨(getSnapshotAndJpeg_stops_preview_first okEnv (startPreview okEnv idleCamera).2 true true
    (by decide) (by decide) (by decide)).1, by decide⟩

end V4L2Camera

/-! ## The encode session -/

namespace V4L2JpegEncoder

/-- The calls of `cleanupDevice`: the dequeue; the stream-off if the dequeue succeeded; the
deregistration if the stream-off succeeded too. -/
theorem calls_cleanupDevice (k : Driver) (m : Store) (dev : V4L2Device) (d : Nat) :
    calls (cleanupDevice k m dev d).2.2.trace = calls dev.trace ++
      DevCall.dequeueBuf d ::
        (if (dev.dequeueBuf k m d).1 < 0 then []
         else DevCall.setStream d false ::
          (if ((dev.dequeueBuf k m d).2.2.setStream k d false).1 < 0 then []
           else [DevCall.reqBufs d none])) := by
  simp only [cleanupDevice]
  split_ifs <;> simp

/-- An `initDevice` that succeeded has issued its five calls. -/
theorem calls_initDevice (k : Driver) (m : Store) (dev : V4L2Device) (d : Nat)
    (config : ImageConfig) (h : ¬ (initDevice k m dev d config).1 < 0) :
    calls (initDevice k m dev d config).2.trace = calls dev.trace ++
      [DevCall.enumFormat d config.format,
       DevCall.setFormat d (toInt32 config.width) (toInt32 config.height) config.format,
       DevCall.reqBufs d config.allocation, DevCall.queueBuf d 0, DevCall.setStream d true] := by
  simp only [initDevice] at h ⊢
  split_ifs at h ⊢
  all_goals first | (simp at h; done) | simp

/-- When both directions were initialised, `encodeImage` is the poll followed by
`cleanupDevice` on OUTPUT and then on CAPTURE, whatever the poll reports. -/
theorem encodeImage_eq (k : Driver) (m : Store) (enc : V4L2JpegEncoder) (dev : V4L2Device)
    (input : ImageConfig)
    (hout : ¬ (initDevice k m dev V4L2_OUTPUT input).1 < 0)
    (hcap : ¬ (initDevice k m (initDevice k m dev V4L2_OUTPUT input).2 V4L2_CAPTURE
      { enc.output with width := input.width, height := input.height }).1 < 0) :
    (encodeImage k m enc dev input).2.2.2 =
      (cleanupDevice k
        (cleanupDevice k m
          ((initDevice k m (initDevice k m dev V4L2_OUTPUT input).2 V4L2_CAPTURE
            { enc.output with width := input.width, height := input.height }).2.pollDevice k
              (Nat.lor POLLIN POLLERR) 1000).2 V4L2_OUTPUT).2.1
        (cleanupDevice k m
          ((initDevice k m (initDevice k m dev V4L2_OUTPUT input).2 V4L2_CAPTURE
            { enc.output with width := input.width, height := input.height }).2.pollDevice k
              (Nat.lor POLLIN POLLERR) 1000).2 V4L2_OUTPUT).2.2
        V4L2_CAPTURE).2.2 := by
  simp only [encodeImage, if_neg hout, if_neg hcap]
  split_ifs <;> rfl

end V4L2JpegEncoder

namespace V4L2JpegEncoder

/-- C8 (as amended): whenever both directions were initialised successfully, `encodeImage`
issues, for every poll outcome, the two initialisations, the poll, `cleanupDevice` on OUTPUT and
then `cleanupDevice` on CAPTURE.  Each `cleanupDevice` always attempts the dequeue; it issues
the stream-off when the dequeue succeeded and the zero-count `reqBufs` when the stream-off
succeeded as well, and stops at the first of its calls that fails. -/
theorem encodeImage_cleanup (k : Driver) (m : Store) (enc : V4L2JpegEncoder)
    (dev : V4L2Device) (input : ImageConfig)
    (hout : ¬ (initDevice k m dev V4L2_OUTPUT input).1 < 0)
    (hcap : ¬ (initDevice k m (initDevice k m dev V4L2_OUTPUT input).2 V4L2_CAPTURE
      { enc.output with width := input.width, height := input.height }).1 < 0) :
    newCalls dev.trace (encodeImage k m enc dev input).2.2.2.trace =
      initCalls V4L2_OUTPUT input
      ++ initCalls V4L2_CAPTURE { enc.output with width := input.width, height := input.height }
      ++ [DevCall.pollDevice (Nat.lor POLLIN POLLERR) 1000]
      ++ cleanupCalls V4L2_OUTPUT
          (decide (¬ ((afterPoll k m enc dev input).dequeueBuf k m V4L2_OUTPUT).1 < 0))
          (decide (¬ (((afterPoll k m enc dev input).dequeueBuf k m V4L2_OUTPUT).2.2.setStream
            k V4L2_OUTPUT false).1 < 0))
      ++ cleanupCalls V4L2_CAPTURE
          (decide (¬ ((cleanupDevice k m (afterPoll k m enc dev input) V4L2_OUTPUT).2.2.dequeueBuf k
            (cleanupDevice k m (afterPoll k m enc dev input) V4L2_OUTPUT).2.1 V4L2_CAPTURE).1 < 0))
          (decide (¬ (((cleanupDevice k m (afterPoll k m enc dev input)
            V4L2_OUTPUT).2.2.dequeueBuf k
              (cleanupDevice k m (afterPoll k m enc dev input) V4L2_OUTPUT).2.1
              V4L2_CAPTURE).2.2.setStream k V4L2_CAPTURE false).1 < 0)) := by
  apply newCalls_append
  rw [encodeImage_eq k m enc dev input hout hcap, calls_cleanupDevice, calls_cleanupDevice]
  simp only [afterPoll, V4L2Device.calls_pollDevice, calls_initDevice _ _ _ _ _ hcap,
    calls_initDevice _ _ _ _ _ hout, cleanupCalls, initCalls]
  split_ifs <;> simp_all

theorem encodeImage_cleanup_witness :
    newCalls (V4L2Device.opened 4).trace
      (encodeImage okDriver encodeStore readyEncoder (V4L2Device.opened 4) rawFrame).2.2.2.trace =
      [DevCall.enumFormat V4L2_OUTPUT V4L2_PIX_FMT_YUYV,
       DevCall.setFormat V4L2_OUTPUT 64 64 V4L2_PIX_FMT_YUYV,
       DevCall.reqBufs V4L2_OUTPUT (some 0),
       DevCall.queueBuf V4L2_OUTPUT 0,
       DevCall.setStream V4L2_OUTPUT true,
       DevCall.enumFormat V4L2_CAPTURE V4L2_PIX_FMT_JPEG,
       DevCall.setFormat V4L2_CAPTURE 64 64 V4L2_PIX_FMT_JPEG,
       DevCall.reqBufs V4L2_CAPTURE (some 1),
       DevCall.queueBuf V4L2_CAPTURE 0,
       DevCall.setStream V4L2_CAPTURE true,
       DevCall.pollDevice (Nat.lor POLLIN POLLERR) 1000,
       DevCall.dequeueBuf V4L2_OUTPUT,
       DevCall.setStream V4L2_OUTPUT false,
       DevCall.reqBufs V4L2_OUTPUT none,
       DevCall.dequeueBuf V4L2_CAPTURE,
       DevCall.setStream V4L2_CAPTURE false,
       DevCall.reqBufs V4L2_CAPTURE none] :=
  encodeImage_cleanup okDriver encodeStore readyEncoder (V4L2Device.opened 4) rawFrame
    (by decide) (by decide)

/-- C8 (as stated) fails: with a driver on which the dequeue fails, both directions are
initialised successfully, yet `encodeImage` returns without a stream-off or a deregistration
of either direction. -/
theorem encodeImage_skips_cleanup_when_dequeue_fails :
    ¬ (initDevice noDequeueDriver encodeStore (V4L2Device.opened 4) V4L2_OUTPUT rawFrame).1 < 0
    ∧ ¬ (initDevice noDequeueDriver encodeStore
        (initDevice noDequeueDriver encodeStore (V4L2Device.opened 4) V4L2_OUTPUT rawFrame).2
        V4L2_CAPTURE { readyEncoder.output with width := 64, height := 64 }).1 < 0
    ∧ ¬ (DevCall.setStream V4L2_OUTPUT false ∈ calls (encodeImage noDequeueDriver encodeStore
          readyEncoder (V4L2Device.opened 4) rawFrame).2.2.2.trace
        ∧ DevCall.reqBufs V4L2_OUTPUT none ∈ calls (encodeImage noDequeueDriver encodeStore
          readyEncoder (V4L2Device.opened 4) rawFrame).2.2.2.trace
        ∧ DevCall.setStream V4L2_CAPTURE false ∈ calls (encodeImage noDequeueDriver encodeStore
          readyEncoder (V4L2Device.opened 4) rawFrame).2.2.2.trace
        ∧ DevCall.reqBufs V4L2_CAPTURE none ∈ calls (encodeImage noDequeueDriver encodeStore
          readyEncoder (V4L2Device.opened 4) rawFrame).2.2.2.trace) := by
  decide

end V4L2JpegEncoder

/-! ## System calls recorded by the device operations -/

@[simp] theorem ioctls_append (a b : List Event) : ioctls (a ++ b) = ioctls a ++ ioctls b := by
  induction a with
  | nil => rfl
  | cons x xs ih => cases x <;> simp [ioctls, ih]

theorem newIoctls_append (t t' : List Event) (l : List (Ioctl × Reply))
    (h : ioctls t' = ioctls t ++ l) : newIoctls t t' = l := by
  simp [newIoctls, h]

@[simp] theorem newIoctls_self (t : List Event) : newIoctls t t = [] := by
  simp [newIoctls]

namespace V4L2Device

@[simp] theorem ioctls_enter (dev : V4L2Device) (c : DevCall) :
    ioctls (dev.enter c).trace = ioctls dev.trace := by
  simp [enter, ioctls]

@[simp] theorem ioctls_ioctl (k : Driver) (dev : V4L2Device) (r : Ioctl) :
    ioctls (dev.ioctl k r).2.trace = ioctls dev.trace ++ [(r, k.reply dev.trace r)] := by
  simp [ioctl, ioctls]

@[simp] theorem enter_allocation (dev : V4L2Device) (c : DevCall) :
    (dev.enter c).allocation = dev.allocation := rfl

@[simp] theorem enter_type (dev : V4L2Device) (c : DevCall) : (dev.enter c).type = dev.type := rfl

@[simp] theorem enter_isMultiPlane (dev : V4L2Device) (c : DevCall) :
    (dev.enter c).isMultiPlane = dev.isMultiPlane := rfl

theorem enter_trace (dev : V4L2Device) (c : DevCall) :
    (dev.enter c).trace = dev.trace ++ [Event.call c] := rfl

@[simp] theorem ioctl_allocation (k : Driver) (dev : V4L2Device) (r : Ioctl) :
    (dev.ioctl k r).2.allocation = dev.allocation := rfl

@[simp] theorem ioctl_type (k : Driver) (dev : V4L2Device) (r : Ioctl) :
    (dev.ioctl k r).2.type = dev.type := rfl

@[simp] theorem ioctl_reply (k : Driver) (dev : V4L2Device) (r : Ioctl) :
    (dev.ioctl k r).1 = k.reply dev.trace r := rfl

end V4L2Device

/-! ## Pools and the class invariant -/

namespace V4L2Allocation

theorem fill_length (n vaddr size : Nat) : (fill n vaddr size).length = n := by
  induction n generalizing vaddr with
  | zero => rfl
  | succ k ih => simp [fill, ih]

/-- The constructor establishes the class invariant, whatever the platform answers. -/
theorem ctor_WF (nr_bufs buf_size : Nat) (platform : Nat → HeapReply) :
    (ctor nr_bufs buf_size platform).WF := by
  have h0 : none_exposed.WF := by simp [WF, none_exposed]
  unfold ctor
  split_ifs with h1
  · exact h0
  · have hn : nr_bufs ≤ MAX_BUFFERS := by simp only [gt_iff_lt] at h1; omega
    simp only
    split_ifs
    · exact h0
    · split <;> exact h0
    · split
      · exact h0
      · exact ⟨hn, fill_length _ _ _⟩

end V4L2Allocation

theorem emptyAllocation_eq : emptyAllocation = ⟨0, []⟩ := by
  simp [emptyAllocation, V4L2Allocation.ctor, V4L2Allocation.none_exposed]

theorem emptyAllocation_getBuffer (i : Nat) : emptyAllocation.getBuffer i = none := by
  simp [emptyAllocation_eq, V4L2Allocation.getBuffer]

theorem Store.deref_WF (m : Store) (h : Store.WF m) (p : Option Nat) : (m.deref p).WF := by
  cases p with
  | none => simp [Store.deref, emptyAllocation_eq, V4L2Allocation.WF]
  | some i =>
    simp only [Store.deref]
    by_cases hi : i < m.length
    · rw [List.getD_eq_getElem _ _ hi]
      exact h _ (List.getElem_mem _)
    · rw [List.getD_eq_default _ _ (by omega)]
      simp [emptyAllocation_eq, V4L2Allocation.WF]

/-- A new pool keeps the store well-formed. -/
theorem Store.WF_append_ctor (m : Store) (h : Store.WF m) (n s : Nat)
    (platform : Nat → HeapReply) : Store.WF (m ++ [V4L2Allocation.ctor n s platform]) := by
  intro a ha
  rcases List.mem_append.1 ha with ha | ha
  · exact h a ha
  · rw [List.mem_singleton.1 ha]
    exact V4L2Allocation.ctor_WF _ _ _

/-! ## Machine integers -/

theorem toUInt32_of_nonneg (i : Int) (h0 : 0 ≤ i) (h1 : i < 2147483648) :
    toUInt32 i = i.toNat := by
  unfold toUInt32
  rw [Int.emod_eq_of_lt h0 (by omega)]

theorem toUInt32_of_neg (i : Int) (h0 : i < 0) (h1 : -2147483648 ≤ i) :
    2147483648 ≤ toUInt32 i := by
  unfold toUInt32
  have : i % 4294967296 = i + 4294967296 := by
    rw [← Int.add_emod_self, Int.emod_eq_of_lt (by omega) (by omega)]
  rw [this]
  omega

theorem toInt32_of_small (n : Nat) (h : n < 2147483648) : toInt32 n = n := by
  unfold toInt32
  have : ((n : Int)) % 4294967296 = n := Int.emod_eq_of_lt (by omega) (by omega)
  rw [this]
  simp only [ite_eq_left_iff]
  omega

/-! ## Enqueue, dequeue and registration -/

namespace V4L2Device

/-- C15: for a valid direction and an `int` index, `queueBuf` submits a `VIDIOC_QBUF` exactly
when `0 <= index < getBufferCount()` of the pool bound to the direction.  When it does, the one
system call it issues carries the start address and length of descriptor `index` of that pool,
and the result is 0 exactly when the call succeeded; otherwise it returns -1 and issues no system
call. -/
theorem queueBuf_submits_iff_index_in_pool (k : Driver) (m : Store) (dev : V4L2Device)
    (direction : Nat) (index : Int)
    (hd : direction < V4L2_DIRECTIONS) (hm : Store.WF m)
    (hi : -2147483648 ≤ index ∧ index < 2147483648) :
    ((0 ≤ index ∧ index < (m.deref (dev.allocation.get direction)).getBufferCount) →
      ∃ buf rep, (m.deref (dev.allocation.get direction)).getBuffer index.toNat = some buf
        ∧ newIoctls dev.trace (dev.queueBuf k m direction index).2.trace
            = [(Ioctl.QBUF (dev.type.get direction) index.toNat buf.start buf.length
                  (dev.isMultiPlane.get direction), rep)]
        ∧ ((dev.queueBuf k m direction index).1 = 0 ↔ 0 ≤ rep.ret))
    ∧ (¬ (0 ≤ index ∧ index < (m.deref (dev.allocation.get direction)).getBufferCount) →
      (dev.queueBuf k m direction index).1 = -1
        ∧ newIoctls dev.trace (dev.queueBuf k m direction index).2.trace = []) := by
  have hwf := Store.deref_WF m hm (dev.allocation.get direction)
  have hd' : ¬ direction ≥ V4L2_DIRECTIONS := by omega
  have hcount : (m.deref (dev.allocation.get direction)).nr_buffers ≤ 8 := hwf.1
  constructor
  · rintro ⟨h0, h1⟩
    have hu : toUInt32 index = index.toNat := toUInt32_of_nonneg index h0 hi.2
    have hlt : index.toNat < (m.deref (dev.allocation.get direction)).nr_buffers := by
      simp only [V4L2Allocation.getBufferCount] at h1
      omega
    obtain ⟨buf, hget⟩ : ∃ buf,
        (m.deref (dev.allocation.get direction)).getBuffer index.toNat = some buf := by
      simp only [V4L2Allocation.getBuffer, ge_iff_le]
      rw [if_neg (by omega)]
      exact ⟨_, rfl⟩
    refine ⟨buf, k.reply (dev.trace ++ [Event.call (DevCall.queueBuf direction index)])
      (Ioctl.QBUF (dev.type.get direction) index.toNat buf.start buf.length
        (dev.isMultiPlane.get direction)), hget, ?_, ?_⟩
    · apply newIoctls_append
      simp only [queueBuf, if_neg hd', enter_allocation, hu, hget]
      split_ifs <;> simp [enter_trace, ioctls]
    · simp only [queueBuf, if_neg hd', enter_allocation, hu, hget]
      split_ifs with hr
      · simp only [ioctl_reply, enter_trace, enter_type, enter_isMultiPlane] at hr ⊢
        constructor
        · intro h; omega
        · intro h; omega
      · simp only [ioctl_reply, enter_trace, enter_type, enter_isMultiPlane] at hr ⊢
        constructor
        · intro _; omega
        · intro _; trivial
  · intro hn
    have hget : (m.deref (dev.allocation.get direction)).getBuffer (toUInt32 index) = none := by
      simp only [V4L2Allocation.getBuffer, ge_iff_le, ite_eq_left_iff, not_le]
      intro hlt
      exfalso
      apply hn
      by_cases h0 : 0 ≤ index
      · rw [toUInt32_of_nonneg index h0 hi.2] at hlt
        simp only [V4L2Allocation.getBufferCount]
        omega
      · have := toUInt32_of_neg index (by omega) hi.1
        omega
    constructor
    · simp only [queueBuf, if_neg hd', enter_allocation, hget]
    · apply newIoctls_append
      simp only [queueBuf, if_neg hd', enter_allocation, hget]
      simp

theorem queueBuf_submits_iff_index_in_pool_witness :
    (∃ buf rep, (encodeStore.deref (some 0)).getBuffer 0 = some buf
        ∧ newIoctls ((V4L2Device.opened 4).reqBufs okDriver encodeStore V4L2_OUTPUT
              (some 0)).2.trace
            ((((V4L2Device.opened 4).reqBufs okDriver encodeStore V4L2_OUTPUT
              (some 0)).2).queueBuf okDriver encodeStore V4L2_OUTPUT 0).2.trace
            = [(Ioctl.QBUF V4L2_BUF_TYPE_VIDEO_OUTPUT 0 buf.start buf.length false, rep)])
    ∧ ((V4L2Device.opened 4).queueBuf okDriver encodeStore V4L2_OUTPUT (-1)).1 = -1
    ∧ newIoctls (V4L2Device.opened 4).trace
        ((V4L2Device.opened 4).queueBuf okDriver encodeStore V4L2_OUTPUT (-1)).2.trace = [] :=
  ⟨by
    obtain ⟨buf, rep, h1, h2, -⟩ := (queueBuf_submits_iff_index_in_pool okDriver encodeStore
      ((V4L2Device.opened 4).reqBufs okDriver encodeStore V4L2_OUTPUT (some 0)).2
      V4L2_OUTPUT 0 (by decide) (by decide) (by decide)).1 (by decide)
    exact ⟨buf, rep, h1, h2⟩,
   (queueBuf_submits_iff_index_in_pool okDriver encodeStore (V4L2Device.opened 4)
      V4L2_OUTPUT (-1) (by decide) (by decide) (by decide)).2 (by decide)⟩

end V4L2Device

theorem getD_modify {α : Type} (f : α → α) (l : List α) (n i : Nat) (d : α) :
    (l.modify f n).getD i d = if n = i ∧ i < l.length then f (l.getD i d) else l.getD i d := by
  simp only [List.getD_eq_getElem?_getD, List.getElem?_modify]
  by_cases hi : i < l.length
  · rw [List.getElem?_eq_getElem hi]
    by_cases hn : n = i <;> simp [hn, hi]
  · rw [List.getElem?_eq_none (by omega)]
    simp [hi]

theorem Store.deref_set_self (m : Store) (i : Nat) (a : V4L2Allocation) (h : i < m.length) :
    Store.deref (m.set i a) (some i) = a := by
  simp [Store.deref, List.getD_eq_getElem?_getD, List.getElem?_set, h]

theorem Store.deref_set_ne (m : Store) (i : Nat) (a : V4L2Allocation) (q : Option Nat)
    (h : q ≠ some i) : Store.deref (m.set i a) q = Store.deref m q := by
  cases q with
  | none => rfl
  | some j =>
    have hij : i ≠ j := fun e => h (by rw [e])
    simp [Store.deref, List.getD_eq_getElem?_getD, List.getElem?_set, hij]

namespace V4L2Device

@[simp] theorem ioctls_dequeueBuf (k : Driver) (m : Store) (dev : V4L2Device) (d : Nat)
    (hd : d < V4L2_DIRECTIONS) :
    ioctls (dev.dequeueBuf k m d).2.2.trace = ioctls dev.trace ++
      [(Ioctl.DQBUF (dev.type.get d),
        k.reply (dev.trace ++ [Event.call (DevCall.dequeueBuf d)])
          (Ioctl.DQBUF (dev.type.get d)))] := by
  have hd' : ¬ d ≥ V4L2_DIRECTIONS := by omega
  simp only [dequeueBuf, if_neg hd']
  split_ifs
  · simp [enter_trace, ioctls]
  · split <;> simp [enter_trace, ioctls]

/-- C16: when the `VIDIOC_DQBUF` of `dequeueBuf` succeeds with an index `i` below the buffer
count of the bound pool and a byte count `b`, the result is `i`, descriptor `i` of that pool is
as before but with `used = b`, and every other descriptor, the buffer count and every other pool
are unchanged.  When the call fails, or `i` is outside the bound pool, the result is negative and
the pools are as before. -/
theorem dequeueBuf_records_used (k : Driver) (m : Store) (dev : V4L2Device) (direction : Nat)
    (rep : Reply) (hd : direction < V4L2_DIRECTIONS) (hm : Store.WF m)
    (hrep : newIoctls dev.trace (dev.dequeueBuf k m direction).2.2.trace
      = [(Ioctl.DQBUF (dev.type.get direction), rep)]) :
    ((0 ≤ rep.ret ∧ rep.index < (m.deref (dev.allocation.get direction)).getBufferCount) →
      (dev.dequeueBuf k m direction).1 = rep.index
      ∧ ((dev.dequeueBuf k m direction).2.1.deref (dev.allocation.get direction)).getBuffer
          rep.index
        = ((m.deref (dev.allocation.get direction)).getBuffer rep.index).map
            (fun b => { b with used := rep.bytesused })
      ∧ (∀ j, j ≠ rep.index →
          ((dev.dequeueBuf k m direction).2.1.deref (dev.allocation.get direction)).getBuffer j
            = (m.deref (dev.allocation.get direction)).getBuffer j)
      ∧ ((dev.dequeueBuf k m direction).2.1.deref (dev.allocation.get direction)).getBufferCount
          = (m.deref (dev.allocation.get direction)).getBufferCount
      ∧ (∀ q, q ≠ dev.allocation.get direction →
          (dev.dequeueBuf k m direction).2.1.deref q = m.deref q))
    ∧ ((rep.ret < 0 ∨ (m.deref (dev.allocation.get direction)).getBufferCount ≤ rep.index) →
      (dev.dequeueBuf k m direction).1 < 0 ∧ (dev.dequeueBuf k m direction).2.1 = m) := by
  have hd' : ¬ direction ≥ V4L2_DIRECTIONS := by omega
  have hr : rep = k.reply (dev.trace ++ [Event.call (DevCall.dequeueBuf direction)])
      (Ioctl.DQBUF (dev.type.get direction)) := by
    rw [newIoctls_append _ _ _ (ioctls_dequeueBuf k m dev direction hd)] at hrep
    simp only [List.cons.injEq, Prod.mk.injEq, true_and, and_true] at hrep
    exact hrep.symm
  have hwf := Store.deref_WF m hm (dev.allocation.get direction)
  constructor
  · rintro ⟨h0, h1⟩
    simp only [V4L2Allocation.getBufferCount] at h1
    have hget : (m.deref (dev.allocation.get direction)).getBuffer rep.index
        = some ((m.deref (dev.allocation.get direction)).buffers.getD rep.index ⟨0, 0, 0⟩) := by
      simp only [V4L2Allocation.getBuffer, ge_iff_le]
      rw [if_neg (by omega)]
    have hn8 : (m.deref (dev.allocation.get direction)).nr_buffers ≤ 8 := hwf.1
    obtain ⟨p, hp, hpl⟩ : ∃ p, dev.allocation.get direction = some p ∧ p < m.length := by
      cases hp : dev.allocation.get direction with
      | none =>
        rw [hp] at h1
        simp [Store.deref, emptyAllocation_eq] at h1
      | some p =>
        refine ⟨p, rfl, ?_⟩
        by_contra hlen
        rw [hp] at h1
        simp only [Store.deref] at h1
        rw [List.getD_eq_default _ _ (by omega)] at h1
        simp [emptyAllocation_eq] at h1
    rw [hp] at hget hwf h1 hn8
    have heq : dev.dequeueBuf k m direction
        = (toInt32 rep.index, setUsed m (some p) rep.index rep.bytesused,
            (ioctl k (dev.enter (DevCall.dequeueBuf direction))
              (Ioctl.DQBUF (dev.type.get direction))).2) := by
      simp only [dequeueBuf, if_neg hd', enter_allocation, enter_type, ioctl_reply,
        ioctl_allocation, enter_trace, ← hr, if_neg (not_lt.2 h0), hp, hget]
    rw [hp, heq]
    simp only [setUsed]
    rw [Store.deref_set_self _ _ _ hpl]
    refine ⟨?_, ?_, ?_, ?_, ?_⟩
    · exact toInt32_of_small _ (by omega)
    · have hl : rep.index < (m.deref (some p)).buffers.length := by rw [hwf.2]; exact h1
      simp only [V4L2Allocation.getBuffer, ge_iff_le, getD_modify]
      simp [not_le.2 h1, hl]
    · intro j hj
      simp only [V4L2Allocation.getBuffer, ge_iff_le, getD_modify]
      simp [Ne.symm hj]
    · rfl
    · intro q hq
      exact Store.deref_set_ne _ _ _ _ hq
  · intro h
    have hcase : rep.ret < 0
        ∨ (m.deref (dev.allocation.get direction)).getBuffer rep.index = none := by
      rcases h with h | h
      · exact Or.inl h
      · right
        simp only [V4L2Allocation.getBufferCount] at h
        simp only [V4L2Allocation.getBuffer, ge_iff_le, ite_eq_left_iff, not_le]
        intro h'; omega
    simp only [dequeueBuf, if_neg hd', enter_allocation, enter_type, ioctl_reply,
      ioctl_allocation, enter_trace, ← hr]
    split_ifs with h1
    · exact ⟨h1, rfl⟩
    · rcases hcase with hc | hc
      · exact absurd hc h1
      · simp [hc]

theorem dequeueBuf_records_used_witness :
    ((((V4L2Device.opened 4).reqBufs okDriver encodeStore V4L2_OUTPUT (some 0)).2.queueBuf
        okDriver encodeStore V4L2_OUTPUT 0).2.dequeueBuf okDriver encodeStore V4L2_OUTPUT).1 = 0
    ∧ (((((V4L2Device.opened 4).reqBufs okDriver encodeStore V4L2_OUTPUT (some 0)).2.queueBuf
        okDriver encodeStore V4L2_OUTPUT 0).2.dequeueBuf okDriver encodeStore
          V4L2_OUTPUT).2.1.deref (some 0)).getBuffer 0 = some ⟨4096, 8192, 1024⟩
    ∧ ((V4L2Device.opened 4).dequeueBuf noDequeueDriver encodeStore V4L2_OUTPUT).2.1
        = encodeStore :=
  have h := (dequeueBuf_records_used okDriver encodeStore
    (((V4L2Device.opened 4).reqBufs okDriver encodeStore V4L2_OUTPUT (some 0)).2.queueBuf
        okDriver encodeStore V4L2_OUTPUT 0).2 V4L2_OUTPUT ⟨0, 0, 0, 1024, 0, 0⟩
    (by decide) (by decide) (by decide)).1 (by decide)
  ⟨h.1, h.2.1,
    ((dequeueBuf_records_used noDequeueDriver encodeStore (V4L2Device.opened 4) V4L2_OUTPUT
      ⟨-1, 0, 0, 0, 0, 0⟩ (by decide) (by decide) (by decide)).2 (by decide)).2⟩

end V4L2Device

namespace V4L2Device

@[simp] theorem ioctls_reqBufs (k : Driver) (m : Store) (dev : V4L2Device) (d : Nat)
    (a : Option Nat) (hd : d < V4L2_DIRECTIONS) :
    ioctls (dev.reqBufs k m d a).2.trace = ioctls dev.trace ++
      [(Ioctl.REQBUFS (m.deref a).getBufferCount (dev.type.get d) V4L2_MEMORY_USERPTR,
        k.reply (dev.trace ++ [Event.call (DevCall.reqBufs d a)])
          (Ioctl.REQBUFS (m.deref a).getBufferCount (dev.type.get d) V4L2_MEMORY_USERPTR))] := by
  have hd' : ¬ d ≥ V4L2_DIRECTIONS := by omega
  simp only [reqBufs, if_neg hd']
  split_ifs <;> simp [enter_trace, ioctls]

theorem get_set_self {α : Type} (a : PerDirection α) (d : Nat) (v : α) :
    (a.set d v).get d = v := by
  unfold PerDirection.set PerDirection.get
  split_ifs <;> rfl

theorem get_set_ne {α : Type} (a : PerDirection α) (d d' : Nat) (v : α)
    (hd : d < V4L2_DIRECTIONS) (hd' : d' < V4L2_DIRECTIONS) (h : d' ≠ d) :
    (a.set d' v).get d = a.get d := by
  unfold PerDirection.set PerDirection.get
  simp only [V4L2_DIRECTIONS, V4L2_CAPTURE] at *
  split_ifs <;> first | rfl | omega

theorem enumLoop_allocation (ty fmt : Nat) (l : List Nat) (i pf : Nat) (dev : V4L2Device) :
    (enumLoop ty fmt l i pf dev).2.allocation = dev.allocation := by
  induction l generalizing i pf dev with
  | nil => rfl
  | cons x xs ih =>
    unfold enumLoop
    simp only
    split_ifs
    · rfl
    · rw [ih]

/-- Only `reqBufs` rebinds a direction: a call that is not a registration of a pool on
`direction` leaves a direction that is bound to the empty pool as it is. -/
theorem call_keeps_empty_binding (k : Driver) (m : Store) (dev : V4L2Device) (c : DevCall)
    (direction : Nat) (hd : direction < V4L2_DIRECTIONS)
    (hb : dev.allocation.get direction = none)
    (hc : ∀ p, c ≠ DevCall.reqBufs direction (some p)) :
    (dev.call k m c).allocation.get direction = none := by
  cases c with
  | setBufType d t =>
    simp only [call, setBufType]
    split_ifs <;> exact hb
  | pollDevice mask t =>
    simp only [call, pollDevice]
    split_ifs <;> exact hb
  | setFormat d w h fmt =>
    simp only [call, setFormat]
    split_ifs <;> exact hb
  | enumFormat d fmt =>
    simp only [call, enumFormat]
    split_ifs
    · exact hb
    · rw [enumLoop_allocation]; exact hb
    · rw [enumLoop_allocation]; exact hb
  | reqBufs d a =>
    simp only [call, reqBufs]
    split_ifs with h1 h2
    · exact hb
    · exact hb
    · simp only [ioctl_allocation, enter_allocation]
      by_cases hdd : d = direction
      · subst hdd
        rw [get_set_self]
        cases a with
        | none => rfl
        | some p => exact absurd rfl (hc p)
      · rw [get_set_ne _ _ _ _ hd (by omega) hdd]; exact hb
  | queryBuf d i =>
    simp only [call, queryBuf]
    split_ifs
    · exact hb
    · split <;> exact hb
  | setStream d b =>
    simp only [call, setStream]
    split_ifs <;> exact hb
  | queueBuf d i =>
    simp only [call, queueBuf]
    split_ifs
    · exact hb
    · split
      · exact hb
      · split_ifs <;> exact hb
  | dequeueBuf d =>
    simp only [call, dequeueBuf]
    split_ifs
    · exact hb
    · exact hb
    · split <;> exact hb
  | getCtrl id =>
    simp only [call, getCtrl]
    split_ifs <;> exact hb
  | setCtrl id v =>
    simp only [call, setCtrl]
    split_ifs <;> exact hb
  | getParam d =>
    simp only [call, getParam]
    split_ifs <;> exact hb
  | setParam d =>
    simp only [call, setParam]
    split_ifs <;> exact hb

theorem runCalls_keeps_empty_binding (k : Driver) (cs : List (Store × DevCall))
    (dev : V4L2Device) (direction : Nat) (hd : direction < V4L2_DIRECTIONS)
    (hb : dev.allocation.get direction = none)
    (hc : ∀ s p, (s, DevCall.reqBufs direction (some p)) ∉ cs) :
    (runCalls k cs dev).allocation.get direction = none := by
  induction cs generalizing dev with
  | nil => exact hb
  | cons x rest ih =>
    obtain ⟨s, c⟩ := x
    simp only [runCalls]
    apply ih
    · apply call_keeps_empty_binding k s dev c direction hd hb
      intro p hp
      exact hc s p (by rw [hp]; exact List.mem_cons_self _ _)
    · intro s' p hp
      exact hc s' p (List.mem_cons_of_mem _ hp)

/-- With the empty pool bound, `queueBuf` fails for every index without a system call. -/
theorem queueBuf_empty_binding (k : Driver) (m : Store) (dev : V4L2Device) (direction : Nat)
    (i : Int) (hb : dev.allocation.get direction = none) :
    (dev.queueBuf k m direction i).1 = -1
      ∧ newIoctls dev.trace (dev.queueBuf k m direction i).2.trace = [] := by
  constructor
  · simp only [queueBuf, enter_allocation, hb, Store.deref, emptyAllocation_getBuffer]
    split_ifs <;> rfl
  · apply newIoctls_append
    simp only [queueBuf, enter_allocation, hb, Store.deref, emptyAllocation_getBuffer]
    split_ifs <;> simp

/-- C17: `reqBufs(direction, pool)` issues one `VIDIOC_REQBUFS` that requests
`pool.getBufferCount()` buffers; when the call succeeds the pool is bound to the direction, when
it fails the result is -1 and the bindings are as before.  With no pool the count requested is
0 and, when the call succeeds, the empty pool is bound: from then on `queueBuf(direction, i)`
returns -1 without a system call for every `i`, through any sequence of calls on the device that
registers no pool on that direction. -/
theorem reqBufs_binds_pool (k : Driver) (m : Store) (dev : V4L2Device) (direction : Nat)
    (allocation : Option Nat) (hd : direction < V4L2_DIRECTIONS) :
    (∃ rep, newIoctls dev.trace (dev.reqBufs k m direction allocation).2.trace
        = [(Ioctl.REQBUFS (m.deref allocation).getBufferCount (dev.type.get direction)
              V4L2_MEMORY_USERPTR, rep)]
      ∧ (0 ≤ rep.ret → (dev.reqBufs k m direction allocation).2.allocation.get direction
          = allocation)
      ∧ (rep.ret < 0 → (dev.reqBufs k m direction allocation).1 = -1
          ∧ (dev.reqBufs k m direction allocation).2.allocation = dev.allocation))
    ∧ (m.deref none).getBufferCount = 0
    ∧ (0 ≤ (k.reply (dev.trace ++ [Event.call (DevCall.reqBufs direction none)])
          (Ioctl.REQBUFS 0 (dev.type.get direction) V4L2_MEMORY_USERPTR)).ret →
        (dev.reqBufs k m direction none).2.allocation.get direction = none
        ∧ ∀ (cs : List (Store × DevCall)) (m' : Store) (i : Int),
          (∀ s p, (s, DevCall.reqBufs direction (some p)) ∉ cs) →
          ((runCalls k cs (dev.reqBufs k m direction none).2).queueBuf k m' direction i).1 = -1
          ∧ newIoctls (runCalls k cs (dev.reqBufs k m direction none).2).trace
              ((runCalls k cs (dev.reqBufs k m direction none).2).queueBuf k m'
                direction i).2.trace = []) := by
  have hd' : ¬ direction ≥ V4L2_DIRECTIONS := by omega
  have h0 : (m.deref none).getBufferCount = 0 := by
    simp [Store.deref, emptyAllocation_eq, V4L2Allocation.getBufferCount]
  have hbind : ∀ a : Option Nat,
      0 ≤ (k.reply (dev.trace ++ [Event.call (DevCall.reqBufs direction a)])
          (Ioctl.REQBUFS (m.deref a).getBufferCount (dev.type.get direction)
            V4L2_MEMORY_USERPTR)).ret →
      (dev.reqBufs k m direction a).2.allocation.get direction = a := by
    intro a h
    simp only [reqBufs, if_neg hd', enter_type, ioctl_reply, enter_trace, if_neg (not_lt.2 h)]
    exact get_set_self _ _ _
  refine ⟨⟨_, newIoctls_append _ _ _ (ioctls_reqBufs k m dev direction allocation hd),
    hbind allocation, ?_⟩, h0, ?_⟩
  · intro h
    simp only [reqBufs, if_neg hd', enter_type, ioctl_reply, enter_trace, if_pos h]
    constructor <;> trivial
  · intro h
    have hb : (dev.reqBufs k m direction none).2.allocation.get direction = none := by
      apply hbind none
      rw [h0]
      exact h
    refine ⟨hb, fun cs m' i hcs => ?_⟩
    exact queueBuf_empty_binding k m' _ direction i
      (runCalls_keeps_empty_binding k cs _ direction hd hb hcs)

theorem reqBufs_binds_pool_witness :
    ((V4L2Device.opened 4).reqBufs okDriver encodeStore V4L2_OUTPUT none).2.allocation.get
        V4L2_OUTPUT = none
    ∧ ((runCalls okDriver
          [(encodeStore, DevCall.setFormat V4L2_OUTPUT 64 64 V4L2_PIX_FMT_YUYV),
           (encodeStore, DevCall.reqBufs V4L2_CAPTURE (some 1)),
           (encodeStore, DevCall.setStream V4L2_OUTPUT true)]
          ((V4L2Device.opened 4).reqBufs okDriver encodeStore V4L2_OUTPUT none).2).queueBuf
        okDriver encodeStore V4L2_OUTPUT 0).1 = -1 :=
  have h := (reqBufs_binds_pool okDriver encodeStore (V4L2Device.opened 4) V4L2_OUTPUT none
    (by decide)).2.2 (by decide)
  ⟨h.1, (h.2 [(encodeStore, DevCall.setFormat V4L2_OUTPUT 64 64 V4L2_PIX_FMT_YUYV),
           (encodeStore, DevCall.reqBufs V4L2_CAPTURE (some 1)),
           (encodeStore, DevCall.setStream V4L2_OUTPUT true)] encodeStore 0
           (by simp [V4L2_OUTPUT, V4L2_CAPTURE])).1⟩

end V4L2Device

/-! ## Format negotiation and the order of calls -/

namespace V4L2Device

/-- The loop of `enumFormat` ends with the candidate when the driver enumerates it, and
otherwise with the last format enumerated (the initial `pixelformat` when there is none). -/
theorem enumLoop_result (ty fmt : Nat) (l : List Nat) (i pf : Nat) (dev : V4L2Device) :
    (enumLoop ty fmt l i pf dev).1 = if fmt ∈ l then fmt else l.getLast?.getD pf := by
  induction l generalizing i pf dev with
  | nil => simp [enumLoop]
  | cons x xs ih =>
    unfold enumLoop
    simp only
    split_ifs with h1 h2 h3
    · exact h1
    · exact absurd (h1 ▸ List.mem_cons_self _ _) h2
    · rw [ih, if_pos (by
        rcases List.mem_cons.1 h3 with h | h
        · exact absurd h.symm h1
        · exact h)]
    · have hx : fmt ∉ xs := fun h => h3 (List.mem_cons_of_mem _ h)
      rw [ih, if_neg hx]
      cases xs with
      | nil => rfl
      | cons y ys =>
        simp only [List.getLast?_cons_cons]
        rw [List.getLast?_eq_getLast _ (List.cons_ne_nil _ _)]
        rfl

/-- The result of `enumFormat` on a valid direction: 0 when the driver enumerates the
candidate, and also when the driver enumerates nothing and the candidate is 0 (the value the
zeroed descriptor holds); -1 in every other case. -/
theorem enumFormat_result (k : Driver) (dev : V4L2Device) (direction fmt : Nat)
    (hd : direction < V4L2_DIRECTIONS) :
    (dev.enumFormat k direction fmt).1
      = if fmt ∈ k.formats (dev.type.get direction)
          ∨ (k.formats (dev.type.get direction) = [] ∧ fmt = 0) then 0 else -1 := by
  have hd' : ¬ direction ≥ V4L2_DIRECTIONS := by omega
  simp only [enumFormat, if_neg hd', enter_type, enumLoop_result]
  by_cases hmem : fmt ∈ k.formats (dev.type.get direction)
  · simp [hmem]
  · simp only [hmem, if_false, false_or]
    cases hl : k.formats (dev.type.get direction) with
    | nil =>
      by_cases h0 : fmt = 0
      · simp [h0]
      · have : ¬ (0 = fmt) := fun h => h0 h.symm
        simp [h0, this]
    | cons x xs =>
      have hlast : (x :: xs).getLast?.getD 0 ∈ x :: xs := by
        rw [List.getLast?_eq_getLast _ (List.cons_ne_nil _ _)]
        exact List.getLast_mem _
      have hne : (x :: xs).getLast?.getD 0 ≠ fmt := by
        intro h
        rw [hl] at hmem
        exact hmem (h ▸ hlast)
      simp [hne]

/-- Outside the fourCCs, the one case `enumFormat_result` adds: the driver enumerates no format
and the candidate is 0.  The zeroed descriptor already holds 0 and the loop body never runs, so
the comparison after the loop finds 0 equal to 0. -/
theorem enumFormat_accepts_zero_when_nothing_enumerated :
    noFormatsDriver.formats ((V4L2Device.opened 3).type.get V4L2_CAPTURE) = []
    ∧ ((V4L2Device.opened 3).enumFormat noFormatsDriver V4L2_CAPTURE 0).1 = 0
    ∧ ((V4L2Device.opened 3).enumFormat noFormatsDriver V4L2_CAPTURE V4L2_PIX_FMT_YUYV).1
        = -1 := by
  decide

/-- C18: on a valid direction, for the list of formats the driver enumerates for the buffer
type of that direction and every candidate fourCC `fmt` (a fourCC packs four characters and is
never 0), `enumFormat(direction, fmt)` returns 0 if and only if `fmt` occurs in the list, and
returns -1 when it is absent.  The loop is a recursion on the list, so the call returns for
every list, and it changes neither the buffer types nor the bindings of the device. -/
theorem enumFormat_accepts_iff_enumerated (k : Driver) (dev : V4L2Device) (direction fmt : Nat)
    (hd : direction < V4L2_DIRECTIONS) (hf : fmt ≠ 0) :
    ((dev.enumFormat k direction fmt).1 = 0 ↔ fmt ∈ k.formats (dev.type.get direction))
    ∧ (fmt ∉ k.formats (dev.type.get direction) → (dev.enumFormat k direction fmt).1 = -1)
    ∧ (dev.enumFormat k direction fmt).2.allocation = dev.allocation := by
  have hres := enumFormat_result k dev direction fmt hd
  have hd' : ¬ direction ≥ V4L2_DIRECTIONS := by omega
  refine ⟨⟨fun h => ?_, fun h => ?_⟩, fun h => ?_, ?_⟩
  · by_contra hmem
    rw [hres, if_neg (by simp [hmem, hf])] at h
    exact absurd h (by decide)
  · rw [hres, if_pos (Or.inl h)]
  · rw [hres, if_neg (by simp [h, hf])]
  · simp only [enumFormat, if_neg hd']
    split_ifs <;> simp [enumLoop_allocation]

theorem enumFormat_accepts_iff_enumerated_witness :
    ((V4L2Device.opened 4).enumFormat okDriver V4L2_CAPTURE V4L2_PIX_FMT_JPEG).1 = 0
    ∧ ((V4L2Device.opened 3).enumFormat noFormatsDriver V4L2_CAPTURE V4L2_PIX_FMT_YUYV).1 = -1 :=
  ⟨(enumFormat_accepts_iff_enumerated okDriver (V4L2Device.opened 4) V4L2_CAPTURE
      V4L2_PIX_FMT_JPEG (by decide) (by decide)).1.2 (by decide),
   (enumFormat_accepts_iff_enumerated noFormatsDriver (V4L2Device.opened 3) V4L2_CAPTURE
      V4L2_PIX_FMT_YUYV (by decide) (by decide)).2.1 (by decide)⟩

@[simp] theorem ioctls_setStream (k : Driver) (dev : V4L2Device) (d : Nat) (b : Bool)
    (hd : d < V4L2_DIRECTIONS) :
    ioctls (dev.setStream k d b).2.trace = ioctls dev.trace ++
      [(if b then Ioctl.STREAMON (dev.type.get d) else Ioctl.STREAMOFF (dev.type.get d),
        k.reply (dev.trace ++ [Event.call (DevCall.setStream d b)])
          (if b then Ioctl.STREAMON (dev.type.get d) else Ioctl.STREAMOFF (dev.type.get d)))] := by
  have hd' : ¬ d ≥ V4L2_DIRECTIONS := by omega
  simp only [setStream, if_neg hd']
  simp [enter_trace, ioctls]

@[simp] theorem ioctls_setFormat (k : Driver) (dev : V4L2Device) (d : Nat) (w h : Int)
    (fmt : Nat) (hd : d < V4L2_DIRECTIONS) :
    ioctls (dev.setFormat k d w h fmt).2.trace = ioctls dev.trace ++
      [(Ioctl.S_FMT (dev.type.get d) w h fmt (get_buffer_size w h fmt),
        k.reply (dev.trace ++ [Event.call (DevCall.setFormat d w h fmt)])
          (Ioctl.S_FMT (dev.type.get d) w h fmt (get_buffer_size w h fmt)))] := by
  have hd' : ¬ d ≥ V4L2_DIRECTIONS := by omega
  simp only [setFormat, if_neg hd']
  split_ifs <;> simp [enter_trace, ioctls]

/-- C19 (as amended): `setStream` and `setFormat` check the direction index and nothing else.
On a valid direction each issues its system call whatever was called before, with the buffer
type currently held for the direction (the default one when `setBufType` was never called);
`setStream` returns what the call returned, `setFormat` returns -1 when the call failed and 0
otherwise.  On an invalid direction both return -1 without a system call. -/
theorem setStream_setFormat_check_direction_only (k : Driver) (dev : V4L2Device)
    (direction : Nat) (on_ : Bool) (width height : Int) (fmt : Nat) :
    (direction < V4L2_DIRECTIONS →
      (∃ rep, newIoctls dev.trace (dev.setStream k direction on_).2.trace
          = [(if on_ then Ioctl.STREAMON (dev.type.get direction)
              else Ioctl.STREAMOFF (dev.type.get direction), rep)]
        ∧ (dev.setStream k direction on_).1 = rep.ret)
      ∧ (∃ rep, newIoctls dev.trace (dev.setFormat k direction width height fmt).2.trace
          = [(Ioctl.S_FMT (dev.type.get direction) width height fmt
              (get_buffer_size width height fmt), rep)]
        ∧ (dev.setFormat k direction width height fmt).1 = if rep.ret < 0 then -1 else 0))
    ∧ (V4L2_DIRECTIONS ≤ direction →
      (dev.setStream k direction on_).1 = -1
      ∧ newIoctls dev.trace (dev.setStream k direction on_).2.trace = []
      ∧ (dev.setFormat k direction width height fmt).1 = -1
      ∧ newIoctls dev.trace (dev.setFormat k direction width height fmt).2.trace = []) := by
  constructor
  · intro hd
    have hd' : ¬ direction ≥ V4L2_DIRECTIONS := by omega
    refine ⟨⟨_, newIoctls_append _ _ _ (ioctls_setStream k dev direction on_ hd), ?_⟩,
      ⟨_, newIoctls_append _ _ _ (ioctls_setFormat k dev direction width height fmt hd), ?_⟩⟩
    · simp only [setStream, if_neg hd']
      rfl
    · simp only [setFormat, if_neg hd']
      split_ifs with h1 h2 h2
      · rfl
      · exact absurd h1 h2
      · exact absurd h2 h1
      · rfl
  · intro hd
    have hd' : direction ≥ V4L2_DIRECTIONS := hd
    refine ⟨?_, ?_, ?_, ?_⟩
    · simp only [setStream, if_pos hd']
    · apply newIoctls_append
      simp only [setStream, if_pos hd']
      simp
    · simp only [setFormat, if_pos hd']
    · apply newIoctls_append
      simp only [setFormat, if_pos hd']
      simp

theorem setStream_setFormat_check_direction_only_witness :
    (∃ rep, newIoctls (V4L2Device.opened 3).trace
          ((V4L2Device.opened 3).setStream okDriver V4L2_CAPTURE true).2.trace
          = [(Ioctl.STREAMON V4L2_BUF_TYPE_VIDEO_CAPTURE, rep)]
        ∧ ((V4L2Device.opened 3).setStream okDriver V4L2_CAPTURE true).1 = rep.ret)
    ∧ ((V4L2Device.opened 3).setStream okDriver 2 true).1 = -1 :=
  ⟨((setStream_setFormat_check_direction_only okDriver (V4L2Device.opened 3) V4L2_CAPTURE
      true 640 480 V4L2_PIX_FMT_YUYV).1 (by decide)).1,
   ((setStream_setFormat_check_direction_only okDriver (V4L2Device.opened 3) 2
      true 640 480 V4L2_PIX_FMT_YUYV).2 (by decide)).1⟩

/-- C19 (as stated) fails: on a device fresh from its constructor, with no pool registered and
`setBufType` never called, `setStream(V4L2_CAPTURE, true)` issues `VIDIOC_STREAMON` and
`setFormat` issues `VIDIOC_S_FMT`, and both report the success the driver reports. -/
theorem setStream_setFormat_do_not_fail_fast :
    (V4L2Device.opened 3).allocation.get V4L2_CAPTURE = none
    ∧ calls (V4L2Device.opened 3).trace = []
    ∧ ¬ (((V4L2Device.opened 3).setStream okDriver V4L2_CAPTURE true).1 < 0
        ∧ newIoctls (V4L2Device.opened 3).trace
            ((V4L2Device.opened 3).setStream okDriver V4L2_CAPTURE true).2.trace = [])
    ∧ ¬ (((V4L2Device.opened 3).setFormat okDriver V4L2_CAPTURE 640 480 V4L2_PIX_FMT_YUYV).1 < 0
        ∧ newIoctls (V4L2Device.opened 3).trace
            ((V4L2Device.opened 3).setFormat okDriver V4L2_CAPTURE 640 480
              V4L2_PIX_FMT_YUYV).2.trace = []) := by
  decide

end V4L2Device

/-! ## Camera controls -/

theorem lastSet_after_set (id : Nat) (v : Int) (t : List Event) (rep : Reply) (c c' : DevCall) :
    lastSet id (t ++ [Event.call c] ++ [Event.sys (Ioctl.S_CTRL id v) rep] ++ [Event.call c'])
      = some v := by
  induction t with
  | nil => simp [lastSet]
  | cons x xs ih =>
    simp only [List.append_assoc, List.cons_append] at ih ⊢
    cases x with
    | call c0 => simpa [lastSet] using ih
    | sys r rep0 =>
      cases r <;> simp only [lastSet, ih]

theorem storingDriver_stores : storingDriver.StoresControls := by
  intro t id v h
  simp [storingDriver, h]

namespace V4L2Camera

/-- C20: for every control id below `CAMERA_CTRL_NUM` and every value, `getControl` after
`setControl` returns the value set: from `ctrlValues` when the control is virtual (its
`ctrlTable` entry is 0), and from the device when it is hardware-backed, the camera has a device
and the device stores the value it is given. -/
theorem setControl_getControl_roundtrip (e : Env) (cam : V4L2Camera) (c : Nat) (v : Int)
    (hc : c < CAMERA_CTRL_NUM) (hlen : cam.ctrlValues.length = CAMERA_CTRL_NUM) :
    (ctrlTable.getD c 0 = 0 → (getControl e (setControl e cam c v).2 c).1 = v)
    ∧ (ctrlTable.getD c 0 ≠ 0 → cam.device ≠ none → e.camera.StoresControls →
        (getControl e (setControl e cam c v).2 c).1 = v) := by
  have hc' : ¬ c ≥ CAMERA_CTRL_NUM := by omega
  constructor
  · intro h0
    simp only [setControl, getControl, if_neg hc', if_pos h0]
    simp [List.getD_eq_getElem?_getD, List.getElem?_set, hlen, hc]
  · intro h0 hdev hk
    cases hd : cam.device with
    | none => exact absurd hd hdev
    | some dev =>
      simp only [setControl, getControl, if_neg hc', if_neg h0, hd]
      have hrep := hk ((dev.setCtrl e.camera (ctrlTable.getD c 0) v).2.trace
          ++ [Event.call (DevCall.getCtrl (ctrlTable.getD c 0))]) (ctrlTable.getD c 0) v (by
        have ht : (dev.setCtrl e.camera (ctrlTable.getD c 0) v).2.trace
            = dev.trace ++ [Event.call (DevCall.setCtrl (ctrlTable.getD c 0) v)]
              ++ [Event.sys (Ioctl.S_CTRL (ctrlTable.getD c 0) v)
                (e.camera.reply (dev.trace ++ [Event.call (DevCall.setCtrl (ctrlTable.getD c 0) v)])
                  (Ioctl.S_CTRL (ctrlTable.getD c 0) v))] := by
          simp only [V4L2Device.setCtrl, V4L2Device.ioctl, V4L2Device.enter]
          split_ifs <;> rfl
        rw [ht]
        exact lastSet_after_set _ _ _ _ _ _)
      simp only [V4L2Device.getCtrl, V4L2Device.ioctl_reply, V4L2Device.enter_trace]
      rw [if_neg (by rw [hrep.1]; decide)]
      simpa using hrep.2

theorem setControl_getControl_roundtrip_witness :
    (getControl storingEnv (setControl storingEnv idleCamera CAMERA_CTRL_SCENE_MODE 7).2
        CAMERA_CTRL_SCENE_MODE).1 = 7
    ∧ (getControl storingEnv (setControl storingEnv idleCamera CAMERA_CTRL_BRIGHTNESS 3).2
        CAMERA_CTRL_BRIGHTNESS).1 = 3 :=
  ⟨(setControl_getControl_roundtrip storingEnv idleCamera CAMERA_CTRL_SCENE_MODE 7
      (by decide) (by decide)).1 (by decide),
   (setControl_getControl_roundtrip storingEnv idleCamera CAMERA_CTRL_BRIGHTNESS 3
      (by decide) (by decide)).2 (by decide) (by decide) storingDriver_stores⟩

end V4L2Camera

/-! ## Calls of a recording start -/

namespace V4L2Camera

theorem startRecord_stream_ok_calls (e : Env) (cam cam' : V4L2Camera) (dev : V4L2Device)
    (h : startRecord_stream e cam dev = (0, cam')) :
    calls cam'.trace = calls dev.trace ++
      [DevCall.queueBuf V4L2_CAPTURE 0, DevCall.queueBuf V4L2_CAPTURE 1,
       DevCall.queueBuf V4L2_CAPTURE 2, DevCall.queueBuf V4L2_CAPTURE 3,
       DevCall.queueBuf V4L2_CAPTURE 4,
       DevCall.setStream V4L2_CAPTURE true,
       DevCall.pollDevice (Nat.lor POLLIN POLLERR) 10000]
    ∧ cam'.recordingStarted = true := by
  simp only [startRecord_stream, startRecord_err_free_v4l2_allocation] at h
  split_ifs at h with hq
  all_goals simp only [Prod.mk.injEq] at h
  all_goals try omega
  obtain ⟨-, hc⟩ := h
  subst hc
  have hq' := calls_queueBufs _ _ _ _ hq
  simp [REC_BUFFERS, List.range, List.range.loop] at hq'
  simp [V4L2Camera.trace, hq', REC_BUFFERS, List.range, List.range.loop]

/-- The calls of a `startRecord()` that started the recording. -/
theorem startRecord_ok_calls (e : Env) (cam cam' : V4L2Camera) (dev : V4L2Device)
    (hdev : cam.device = some dev) (hidle : cam.recordingStarted = false)
    (h : startRecord e cam = (0, cam')) :
    calls cam'.trace = calls dev.trace ++
      [DevCall.enumFormat V4L2_CAPTURE V4L2_PIX_FMT_YUYV,
       DevCall.setFormat V4L2_CAPTURE cam.recordingWidth cam.recordingHeight V4L2_PIX_FMT_YUYV,
       DevCall.reqBufs V4L2_CAPTURE (some cam.pools.length),
       DevCall.queueBuf V4L2_CAPTURE 0, DevCall.queueBuf V4L2_CAPTURE 1,
       DevCall.queueBuf V4L2_CAPTURE 2, DevCall.queueBuf V4L2_CAPTURE 3,
       DevCall.queueBuf V4L2_CAPTURE 4,
       DevCall.setStream V4L2_CAPTURE true,
       DevCall.pollDevice (Nat.lor POLLIN POLLERR) 10000]
    ∧ cam'.recordingStarted = true := by
  simp only [startRecord, hdev, hidle, Bool.false_eq_true, if_false, newAllocation] at h
  split_ifs at h
  all_goals try (simp only [Prod.mk.injEq] at h; omega)
  obtain ⟨h1, h2⟩ := startRecord_stream_ok_calls _ _ _ _ h
  refine ⟨?_, h2⟩
  rw [h1]
  simp

/-- C14: a `startRecord()` that starts the recording issues exactly these device calls: format
negotiation, registration of the new pool, `queueBuf` for every index 0, 1, 2, 3, 4 in
increasing order (all `REC_BUFFERS` buffers, none withheld), then the stream-on call, then the
wait for the first frame; so every `queueBuf` comes before the stream-on call. -/
theorem startRecord_queues_all_buffers (e : Env) (cam cam' : V4L2Camera)
    (dev : V4L2Device) (hdev : cam.device = some dev) (hidle : cam.recordingStarted = false)
    (h : startRecord e cam = (0, cam')) :
    newCalls dev.trace cam'.trace =
      [DevCall.enumFormat V4L2_CAPTURE V4L2_PIX_FMT_YUYV,
       DevCall.setFormat V4L2_CAPTURE cam.recordingWidth cam.recordingHeight V4L2_PIX_FMT_YUYV,
       DevCall.reqBufs V4L2_CAPTURE (some cam.pools.length),
       DevCall.queueBuf V4L2_CAPTURE 0, DevCall.queueBuf V4L2_CAPTURE 1,
       DevCall.queueBuf V4L2_CAPTURE 2, DevCall.queueBuf V4L2_CAPTURE 3,
       DevCall.queueBuf V4L2_CAPTURE 4,
       DevCall.setStream V4L2_CAPTURE true,
       DevCall.pollDevice (Nat.lor POLLIN POLLERR) 10000]
    ∧ (newCalls dev.trace cam'.trace).filterMap queuedIndex
        = (List.range REC_BUFFERS).map Int.ofNat
    ∧ ((newCalls dev.trace cam'.trace).takeWhile
        (fun c => decide (c ≠ DevCall.setStream V4L2_CAPTURE true))).filterMap queuedIndex
        = (List.range REC_BUFFERS).map Int.ofNat
    ∧ DevCall.setStream V4L2_CAPTURE true ∈ newCalls dev.trace cam'.trace := by
  obtain ⟨h1, -⟩ := startRecord_ok_calls e cam cam' dev hdev hidle h
  rw [newCalls_append _ _ _ h1]
  refine ⟨rfl, ?_, ?_, ?_⟩
  · simp [queuedIndex, REC_BUFFERS, List.range, List.range.loop]
  · simp [List.takeWhile, queuedIndex, REC_BUFFERS, List.range, List.range.loop]
  · simp

theorem startRecord_queues_all_buffers_witness :
    (newCalls idleDevice.trace (startRecord okEnv idleCamera).2.trace).filterMap queuedIndex
      = (List.range REC_BUFFERS).map Int.ofNat
    ∧ (startRecord okEnv idleCamera).1 = 0 :=
  have h := startRecord_queues_all_buffers okEnv idleCamera
    (startRecord okEnv idleCamera).2 idleDevice rfl rfl (Prod.ext (by decide) rfl)
  ⟨h.2.1, by decide⟩

end V4L2Camera

/-! ## System calls of one kind along the device operations -/

@[simp] theorem ioctlsWhere_append (p : Ioctl → Bool) (a b : List Event) :
    ioctlsWhere p (a ++ b) = ioctlsWhere p a ++ ioctlsWhere p b := by
  simp [ioctlsWhere]

theorem newIoctlsWhere_append (p : Ioctl → Bool) (t t' : List Event) (l : List (Ioctl × Reply))
    (h : ioctlsWhere p t' = ioctlsWhere p t ++ l) : newIoctlsWhere p t t' = l := by
  simp [newIoctlsWhere, h]

theorem newIoctlsWhere_same (p : Ioctl → Bool) (t t' : List Event)
    (h : ioctlsWhere p t' = ioctlsWhere p t) : newIoctlsWhere p t t' = [] := by
  simp [newIoctlsWhere, h]

/-- The new system calls do not depend on calls of another kind made before. -/
theorem newIoctlsWhere_congr (p : Ioctl → Bool) (t t' T : List Event)
    (h : ioctlsWhere p t' = ioctlsWhere p t) : newIoctlsWhere p t' T = newIoctlsWhere p t T := by
  simp [newIoctlsWhere, h]

namespace V4L2Device

@[simp] theorem ioctlsWhere_enter (p : Ioctl → Bool) (dev : V4L2Device) (c : DevCall) :
    ioctlsWhere p (dev.enter c).trace = ioctlsWhere p dev.trace := by
  simp [ioctlsWhere]

@[simp] theorem ioctlsWhere_ioctl (p : Ioctl → Bool) (k : Driver) (dev : V4L2Device)
    (r : Ioctl) :
    ioctlsWhere p (dev.ioctl k r).2.trace
      = ioctlsWhere p dev.trace ++ (if p r = true then [(r, k.reply dev.trace r)] else []) := by
  simp only [ioctlsWhere, ioctls_ioctl, List.filter_append]
  by_cases h : p r = true <;> simp [h]

theorem pollDevice_trace (k : Driver) (dev : V4L2Device) (mask : Nat) (t : Int) :
    (dev.pollDevice k mask t).2.trace = dev.trace ++
      [Event.call (DevCall.pollDevice mask t),
       Event.sys (Ioctl.POLL mask t)
        (k.reply (dev.trace ++ [Event.call (DevCall.pollDevice mask t)]) (Ioctl.POLL mask t))] := by
  unfold pollDevice
  simp only
  split_ifs <;> simp [ioctl, enter]

theorem ioctlsWhere_pollDevice (p : Ioctl → Bool) (k : Driver) (dev : V4L2Device)
    (mask : Nat) (t : Int) :
    ioctlsWhere p (dev.pollDevice k mask t).2.trace
      = ioctlsWhere p dev.trace ++
        (if p (Ioctl.POLL mask t) = true then
          [(Ioctl.POLL mask t,
            k.reply (dev.trace ++ [Event.call (DevCall.pollDevice mask t)]) (Ioctl.POLL mask t))]
        else []) := by
  rw [pollDevice_trace]
  by_cases h : p (Ioctl.POLL mask t) = true <;> simp [ioctlsWhere, ioctls, h]

theorem ioctlsWhere_setStream (p : Ioctl → Bool) (k : Driver) (dev : V4L2Device) (d : Nat)
    (b : Bool)
    (hp : ∀ ty, p (Ioctl.STREAMON ty) = false ∧ p (Ioctl.STREAMOFF ty) = false) :
    ioctlsWhere p (dev.setStream k d b).2.trace = ioctlsWhere p dev.trace := by
  unfold setStream
  simp only
  split_ifs <;> simp [(hp _).1, (hp _).2]

theorem ioctlsWhere_setCtrl (p : Ioctl → Bool) (k : Driver) (dev : V4L2Device) (id : Nat)
    (v : Int) (hp : ∀ i w, p (Ioctl.S_CTRL i w) = false) :
    ioctlsWhere p (dev.setCtrl k id v).2.trace = ioctlsWhere p dev.trace := by
  unfold setCtrl
  simp only
  split_ifs <;> simp [hp]

theorem ioctlsWhere_getCtrl (p : Ioctl → Bool) (k : Driver) (dev : V4L2Device) (id : Nat)
    (hp : ∀ i, p (Ioctl.G_CTRL i) = false) :
    ioctlsWhere p (dev.getCtrl k id).2.2.trace = ioctlsWhere p dev.trace := by
  unfold getCtrl
  simp only
  split_ifs <;> simp [hp]

theorem ioctlsWhere_reqBufs (p : Ioctl → Bool) (k : Driver) (m : Store) (dev : V4L2Device)
    (d : Nat) (a : Option Nat) (hp : ∀ c ty mem, p (Ioctl.REQBUFS c ty mem) = false) :
    ioctlsWhere p (dev.reqBufs k m d a).2.trace = ioctlsWhere p dev.trace := by
  unfold reqBufs
  simp only
  split_ifs <;> simp [hp]

theorem ioctlsWhere_setFormat (p : Ioctl → Bool) (k : Driver) (dev : V4L2Device) (d : Nat)
    (w h : Int) (fmt : Nat) (hp : ∀ ty w h f s, p (Ioctl.S_FMT ty w h f s) = false) :
    ioctlsWhere p (dev.setFormat k d w h fmt).2.trace = ioctlsWhere p dev.trace := by
  unfold setFormat
  simp only
  split_ifs <;> simp [hp]

theorem ioctlsWhere_queueBuf (p : Ioctl → Bool) (k : Driver) (m : Store) (dev : V4L2Device)
    (d : Nat) (i : Int) (hp : ∀ ty ix u l pl, p (Ioctl.QBUF ty ix u l pl) = false) :
    ioctlsWhere p (dev.queueBuf k m d i).2.trace = ioctlsWhere p dev.trace := by
  unfold queueBuf
  simp only
  split_ifs
  · simp
  · split
    · simp
    · split_ifs <;> simp [hp]

theorem ioctlsWhere_dequeueBuf (p : Ioctl → Bool) (k : Driver) (m : Store) (dev : V4L2Device)
    (d : Nat) (hp : ∀ ty, p (Ioctl.DQBUF ty) = false) :
    ioctlsWhere p (dev.dequeueBuf k m d).2.2.trace = ioctlsWhere p dev.trace := by
  unfold dequeueBuf
  simp only
  split_ifs
  · simp
  · simp [hp]
  · split <;> simp [hp]

theorem ioctlsWhere_enumLoop (p : Ioctl → Bool) (ty fmt : Nat) (l : List Nat) (i pf : Nat)
    (dev : V4L2Device) (hp : ∀ t ix, p (Ioctl.ENUM_FMT t ix) = false) :
    ioctlsWhere p (enumLoop ty fmt l i pf dev).2.trace = ioctlsWhere p dev.trace := by
  induction l generalizing i pf dev with
  | nil => simp [enumLoop, ioctlsWhere, ioctls, hp]
  | cons x xs ih =>
    unfold enumLoop
    simp only
    split_ifs
    · simp [ioctlsWhere, ioctls, hp]
    · rw [ih]; simp [ioctlsWhere, ioctls, hp]

theorem ioctlsWhere_enumFormat (p : Ioctl → Bool) (k : Driver) (dev : V4L2Device)
    (d fmt : Nat) (hp : ∀ t ix, p (Ioctl.ENUM_FMT t ix) = false) :
    ioctlsWhere p (dev.enumFormat k d fmt).2.trace = ioctlsWhere p dev.trace := by
  unfold enumFormat
  simp only
  split_ifs <;> simp [ioctlsWhere_enumLoop p _ _ _ _ _ _ hp]

/-- What `pollDevice` returns has `POLLIN` set exactly when the reply reports a frame. -/
theorem pollDevice_pollin (k : Driver) (dev : V4L2Device) (mask : Nat) (t : Int) :
    Nat.land (dev.pollDevice k mask t).1 POLLIN = 0
      ↔ (k.reply (dev.trace ++ [Event.call (DevCall.pollDevice mask t)])
          (Ioctl.POLL mask t)).reportsPollin = false := by
  unfold pollDevice
  simp only [ioctl_reply, enter_trace, Reply.reportsPollin]
  split_ifs with h1 h2
  · have h3 : ¬ 0 < (k.reply (dev.trace ++ [Event.call (DevCall.pollDevice mask t)])
        (Ioctl.POLL mask t)).ret := by omega
    simp [h3]
    decide
  · simp [h2]
    decide
  · have h3 : 0 < (k.reply (dev.trace ++ [Event.call (DevCall.pollDevice mask t)])
        (Ioctl.POLL mask t)).ret := by omega
    simp [h3]

end V4L2Device

namespace V4L2Camera

theorem ioctlsWhere_queueBufs (p : Ioctl → Bool) (k : Driver) (m : Store) (l : List Int)
    (dev : V4L2Device) (hp : ∀ ty ix u len pl, p (Ioctl.QBUF ty ix u len pl) = false) :
    ioctlsWhere p (queueBufs k m l dev).2.trace = ioctlsWhere p dev.trace := by
  induction l generalizing dev with
  | nil => simp [queueBufs]
  | cons i rest ih =>
    unfold queueBufs
    simp only
    split_ifs
    · exact V4L2Device.ioctlsWhere_queueBuf p k m dev _ i hp
    · rw [ih, V4L2Device.ioctlsWhere_queueBuf p k m dev _ i hp]

/-- The calls of a `queueBufs` loop, run to its end or not, are all `queueBuf` calls. -/
theorem calls_queueBufs_any (k : Driver) (m : Store) (l : List Int) (dev : V4L2Device) :
    ∃ q, calls (queueBufs k m l dev).2.trace = calls dev.trace ++ q
      ∧ ∀ c ∈ q, ∃ i, c = DevCall.queueBuf V4L2_CAPTURE i := by
  induction l generalizing dev with
  | nil => exact ⟨[], by simp [queueBufs], by simp⟩
  | cons i rest ih =>
    unfold queueBufs
    simp only
    split_ifs
    · exact ⟨[DevCall.queueBuf V4L2_CAPTURE i], by simp, by simp⟩
    · obtain ⟨q, hq, hall⟩ := ih (dev.queueBuf k m V4L2_CAPTURE i).2
      refine ⟨DevCall.queueBuf V4L2_CAPTURE i :: q, by rw [hq]; simp, ?_⟩
      intro c hc
      rcases List.mem_cons.1 hc with h | h
      · exact ⟨i, h⟩
      · exact hall c h

end V4L2Camera

/-! ## Polls and format settings along the camera functions -/

namespace V4L2Device

@[simp] theorem polls_enumFormat (k : Driver) (dev : V4L2Device) (d fmt : Nat) :
    ioctlsWhere Ioctl.isPoll (dev.enumFormat k d fmt).2.trace
      = ioctlsWhere Ioctl.isPoll dev.trace :=
  ioctlsWhere_enumFormat _ k dev d fmt (fun _ _ => rfl)

@[simp] theorem polls_setCtrl (k : Driver) (dev : V4L2Device) (id : Nat) (v : Int) :
    ioctlsWhere Ioctl.isPoll (dev.setCtrl k id v).2.trace = ioctlsWhere Ioctl.isPoll dev.trace :=
  ioctlsWhere_setCtrl _ k dev id v (fun _ _ => rfl)

@[simp] theorem polls_setFormat (k : Driver) (dev : V4L2Device) (d : Nat) (w h : Int)
    (fmt : Nat) :
    ioctlsWhere Ioctl.isPoll (dev.setFormat k d w h fmt).2.trace
      = ioctlsWhere Ioctl.isPoll dev.trace :=
  ioctlsWhere_setFormat _ k dev d w h fmt (fun _ _ _ _ _ => rfl)

@[simp] theorem polls_reqBufs (k : Driver) (m : Store) (dev : V4L2Device) (d : Nat)
    (a : Option Nat) :
    ioctlsWhere Ioctl.isPoll (dev.reqBufs k m d a).2.trace = ioctlsWhere Ioctl.isPoll dev.trace :=
  ioctlsWhere_reqBufs _ k m dev d a (fun _ _ _ => rfl)

@[simp] theorem polls_queueBuf (k : Driver) (m : Store) (dev : V4L2Device) (d : Nat) (i : Int) :
    ioctlsWhere Ioctl.isPoll (dev.queueBuf k m d i).2.trace = ioctlsWhere Ioctl.isPoll dev.trace :=
  ioctlsWhere_queueBuf _ k m dev d i (fun _ _ _ _ _ => rfl)

@[simp] theorem polls_dequeueBuf (k : Driver) (m : Store) (dev : V4L2Device) (d : Nat) :
    ioctlsWhere Ioctl.isPoll (dev.dequeueBuf k m d).2.2.trace
      = ioctlsWhere Ioctl.isPoll dev.trace :=
  ioctlsWhere_dequeueBuf _ k m dev d (fun _ => rfl)

@[simp] theorem polls_setStream (k : Driver) (dev : V4L2Device) (d : Nat) (b : Bool) :
    ioctlsWhere Ioctl.isPoll (dev.setStream k d b).2.trace = ioctlsWhere Ioctl.isPoll dev.trace :=
  ioctlsWhere_setStream _ k dev d b (fun _ => ⟨rfl, rfl⟩)

@[simp] theorem polls_pollDevice (k : Driver) (dev : V4L2Device) (mask : Nat) (t : Int) :
    ioctlsWhere Ioctl.isPoll (dev.pollDevice k mask t).2.trace
      = ioctlsWhere Ioctl.isPoll dev.trace ++
        [(Ioctl.POLL mask t,
          k.reply (dev.trace ++ [Event.call (DevCall.pollDevice mask t)]) (Ioctl.POLL mask t))] := by
  rw [ioctlsWhere_pollDevice]
  rfl

@[simp] theorem setFormats_enumFormat (k : Driver) (dev : V4L2Device) (d fmt : Nat) :
    ioctlsWhere Ioctl.isSetFormat (dev.enumFormat k d fmt).2.trace
      = ioctlsWhere Ioctl.isSetFormat dev.trace :=
  ioctlsWhere_enumFormat _ k dev d fmt (fun _ _ => rfl)

@[simp] theorem setFormats_setCtrl (k : Driver) (dev : V4L2Device) (id : Nat) (v : Int) :
    ioctlsWhere Ioctl.isSetFormat (dev.setCtrl k id v).2.trace
      = ioctlsWhere Ioctl.isSetFormat dev.trace :=
  ioctlsWhere_setCtrl _ k dev id v (fun _ _ => rfl)

@[simp] theorem setFormats_reqBufs (k : Driver) (m : Store) (dev : V4L2Device) (d : Nat)
    (a : Option Nat) :
    ioctlsWhere Ioctl.isSetFormat (dev.reqBufs k m d a).2.trace
      = ioctlsWhere Ioctl.isSetFormat dev.trace :=
  ioctlsWhere_reqBufs _ k m dev d a (fun _ _ _ => rfl)

@[simp] theorem setFormats_setStream (k : Driver) (dev : V4L2Device) (d : Nat) (b : Bool) :
    ioctlsWhere Ioctl.isSetFormat (dev.setStream k d b).2.trace
      = ioctlsWhere Ioctl.isSetFormat dev.trace :=
  ioctlsWhere_setStream _ k dev d b (fun _ => ⟨rfl, rfl⟩)

@[simp] theorem setFormats_pollDevice (k : Driver) (dev : V4L2Device) (mask : Nat) (t : Int) :
    ioctlsWhere Ioctl.isSetFormat (dev.pollDevice k mask t).2.trace
      = ioctlsWhere Ioctl.isSetFormat dev.trace := by
  rw [ioctlsWhere_pollDevice]
  simp [Ioctl.isSetFormat]

/-- The one `VIDIOC_S_FMT` of `setFormat` on a valid direction, with its reply. -/
theorem setFormats_setFormat (k : Driver) (dev : V4L2Device) (d : Nat) (w h : Int) (fmt : Nat)
    (hd : d < V4L2_DIRECTIONS) :
    ioctlsWhere Ioctl.isSetFormat (dev.setFormat k d w h fmt).2.trace
      = ioctlsWhere Ioctl.isSetFormat dev.trace ++
        [(Ioctl.S_FMT (dev.type.get d) w h fmt (get_buffer_size w h fmt),
          k.reply (dev.trace ++ [Event.call (DevCall.setFormat d w h fmt)])
            (Ioctl.S_FMT (dev.type.get d) w h fmt (get_buffer_size w h fmt)))] := by
  simp only [ioctlsWhere, ioctls_setFormat k dev d w h fmt hd, List.filter_append]
  simp [Ioctl.isSetFormat]

/-- The result of `setFormat` on a valid direction is negative exactly when the call failed. -/
theorem setFormat_failed_iff (k : Driver) (dev : V4L2Device) (d : Nat) (w h : Int) (fmt : Nat)
    (hd : d < V4L2_DIRECTIONS) :
    (dev.setFormat k d w h fmt).1 < 0
      ↔ (k.reply (dev.trace ++ [Event.call (DevCall.setFormat d w h fmt)])
          (Ioctl.S_FMT (dev.type.get d) w h fmt (get_buffer_size w h fmt))).ret < 0 := by
  have hd' : ¬ d ≥ V4L2_DIRECTIONS := by omega
  simp only [setFormat, if_neg hd', ioctl_reply, enter_trace, enter_type]
  split_ifs with h1
  · simp [h1]
  · simp [h1]

end V4L2Device

namespace V4L2Camera

@[simp] theorem polls_queueBufs (k : Driver) (m : Store) (l : List Int) (dev : V4L2Device) :
    ioctlsWhere Ioctl.isPoll (queueBufs k m l dev).2.trace = ioctlsWhere Ioctl.isPoll dev.trace :=
  ioctlsWhere_queueBufs _ k m l dev (fun _ _ _ _ _ => rfl)

@[simp] theorem setFormats_queueBufs (k : Driver) (m : Store) (l : List Int)
    (dev : V4L2Device) :
    ioctlsWhere Ioctl.isSetFormat (queueBufs k m l dev).2.trace
      = ioctlsWhere Ioctl.isSetFormat dev.trace :=
  ioctlsWhere_queueBufs _ k m l dev (fun _ _ _ _ _ => rfl)

/-- The last part of `startPreview()` when the first-frame poll reports no frame. -/
theorem startPreview_stream_first_frame (e : Env) (cam : V4L2Camera) (dev : V4L2Device)
    (rep : Reply)
    (hpoll : newIoctlsWhere Ioctl.isPoll dev.trace (startPreview_stream e cam dev).2.trace
      = [(Ioctl.POLL (Nat.lor POLLIN POLLERR) 10000, rep)])
    (hno : rep.reportsPollin = false) :
    (startPreview_stream e cam dev).1 = -1
    ∧ (startPreview_stream e cam dev).2.previewAllocation = none
    ∧ (startPreview_stream e cam dev).2.previewConvBuffer = none
    ∧ (startPreview_stream e cam dev).2.previewStarted = cam.previewStarted
    ∧ ∃ pre, calls (startPreview_stream e cam dev).2.trace = calls dev.trace ++ pre ++
        [DevCall.setStream V4L2_CAPTURE true,
         DevCall.pollDevice (Nat.lor POLLIN POLLERR) 10000,
         DevCall.setStream V4L2_CAPTURE false,
         DevCall.reqBufs V4L2_CAPTURE none] := by
  simp only [startPreview_stream, startPreview_err_free_v4l2_allocation,
    startPreview_err_free_conv_buffer] at hpoll ⊢
  split_ifs at hpoll ⊢ with h1 h2 h3
  · simp [newIoctlsWhere, V4L2Camera.trace] at hpoll
  · simp [newIoctlsWhere, V4L2Camera.trace] at hpoll
  · refine ⟨rfl, rfl, rfl, rfl, ?_⟩
    obtain ⟨q, hq, -⟩ := calls_queueBufs_any e.camera cam.pools
      ((List.range' 1 (REC_BUFFERS - 1)).map Int.ofNat) dev
    exact ⟨q, by simp [V4L2Camera.trace, hq]⟩
  · exfalso
    simp only [newIoctlsWhere, V4L2Camera.trace, V4L2Device.polls_pollDevice,
      V4L2Device.polls_setStream, polls_queueBufs, List.drop_left, List.cons.injEq,
      Prod.mk.injEq, true_and, and_true] at hpoll
    rw [V4L2Device.pollDevice_pollin, hpoll] at h3
    exact h3 hno

/-- The middle part of `startPreview()` when the first-frame poll reports no frame. -/
theorem startPreview_buffers_first_frame (e : Env) (cam : V4L2Camera) (dev : V4L2Device)
    (rep : Reply)
    (hpoll : newIoctlsWhere Ioctl.isPoll dev.trace (startPreview_buffers e cam dev).2.trace
      = [(Ioctl.POLL (Nat.lor POLLIN POLLERR) 10000, rep)])
    (hno : rep.reportsPollin = false) :
    (startPreview_buffers e cam dev).1 = -1
    ∧ (startPreview_buffers e cam dev).2.previewAllocation = none
    ∧ (startPreview_buffers e cam dev).2.previewConvBuffer = none
    ∧ (startPreview_buffers e cam dev).2.previewStarted = cam.previewStarted
    ∧ ∃ pre, calls (startPreview_buffers e cam dev).2.trace = calls dev.trace ++ pre ++
        [DevCall.setStream V4L2_CAPTURE true,
         DevCall.pollDevice (Nat.lor POLLIN POLLERR) 10000,
         DevCall.setStream V4L2_CAPTURE false,
         DevCall.reqBufs V4L2_CAPTURE none] := by
  simp only [startPreview_buffers, startPreview_err_free_v4l2_allocation,
    startPreview_err_free_conv_buffer, newAllocation] at hpoll ⊢
  split_ifs at hpoll ⊢
  all_goals first
    | (simp [newIoctlsWhere, V4L2Camera.trace] at hpoll; done)
    | (rw [← newIoctlsWhere_congr Ioctl.isPoll _ _ _ (V4L2Device.polls_reqBufs e.camera _ dev
        V4L2_CAPTURE _)] at hpoll
       obtain ⟨r1, r2, r3, r4, pre, hpre⟩ := startPreview_stream_first_frame e _ _ rep hpoll hno
       refine ⟨r1, r2, r3, r4, DevCall.reqBufs V4L2_CAPTURE (some cam.pools.length) :: pre, ?_⟩
       rw [hpre]
       simp)

/-- C11: when the first-frame poll of `startPreview()` (timeout 10000 ms; `previewPoll` waits
1000 ms) does not report `POLLIN`, the calls that follow the poll are the stream-off and then
the zero-count `reqBufs`; the preview pool and the conversion buffer are released, the result is
-1 and `previewStarted` is left false. -/
theorem startPreview_first_frame_timeout (e : Env) (cam : V4L2Camera) (rep : Reply)
    (hpoll : newIoctlsWhere Ioctl.isPoll cam.trace (startPreview e cam).2.trace
      = [(Ioctl.POLL (Nat.lor POLLIN POLLERR) 10000, rep)])
    (hno : rep.reportsPollin = false) :
    (startPreview e cam).1 = -1
    ∧ (∃ pre, newCalls cam.trace (startPreview e cam).2.trace = pre ++
        [DevCall.setStream V4L2_CAPTURE true,
         DevCall.pollDevice (Nat.lor POLLIN POLLERR) 10000,
         DevCall.setStream V4L2_CAPTURE false,
         DevCall.reqBufs V4L2_CAPTURE none])
    ∧ (startPreview e cam).2.previewAllocation = none
    ∧ (startPreview e cam).2.previewConvBuffer = none
    ∧ (startPreview e cam).2.previewStarted = false
    ∧ (∀ dev, newCalls dev.trace (previewPoll e.camera dev).2.trace
        = [DevCall.pollDevice (Nat.lor POLLIN POLLERR) 1000])
    ∧ (1000 : Int) < 10000 := by
  have hpp : ∀ dev : V4L2Device, newCalls dev.trace (previewPoll e.camera dev).2.trace
      = [DevCall.pollDevice (Nat.lor POLLIN POLLERR) 1000] :=
    fun dev => newCalls_append _ _ _ (calls_previewPoll e.camera dev)
  by_cases hrun : cam.previewStarted = true
  · simp [startPreview, hrun, newIoctlsWhere] at hpoll
  have hidle : cam.previewStarted = false := by simpa using hrun
  cases hd : cam.device with
  | none => simp [startPreview, hd, hidle, newIoctlsWhere] at hpoll
  | some dev =>
    have ht : cam.trace = dev.trace := by simp [V4L2Camera.trace, hd]
    rw [ht] at hpoll ⊢
    simp only [startPreview, hd, hidle, Bool.false_eq_true, if_false] at hpoll ⊢
    split_ifs at hpoll ⊢ with h1 h2 h3
    · simp [newIoctlsWhere, V4L2Camera.trace] at hpoll
    · simp [newIoctlsWhere, V4L2Camera.trace] at hpoll
    · simp [newIoctlsWhere, V4L2Camera.trace] at hpoll
    · rw [← newIoctlsWhere_congr Ioctl.isPoll _ _ _
        (show ioctlsWhere Ioctl.isPoll
            (((dev.enumFormat e.camera V4L2_CAPTURE cam.previewFormat).2.setCtrl e.camera
              V4L2_CID_S5K4CA_CAPTURE 0).2.setFormat e.camera V4L2_CAPTURE cam.previewWidth
              cam.previewHeight cam.previewFormat).2.trace
          = ioctlsWhere Ioctl.isPoll dev.trace by simp)] at hpoll
      obtain ⟨r1, r2, r3, r4, pre, hpre⟩ := startPreview_buffers_first_frame e cam _ rep hpoll hno
      refine ⟨r1, ⟨DevCall.enumFormat V4L2_CAPTURE cam.previewFormat
        :: DevCall.setCtrl V4L2_CID_S5K4CA_CAPTURE 0
        :: DevCall.setFormat V4L2_CAPTURE cam.previewWidth cam.previewHeight cam.previewFormat
        :: pre, ?_⟩, r2, r3, by rw [r4]; exact hidle, hpp, by decide⟩
      apply newCalls_append
      rw [hpre]
      simp

theorem startPreview_first_frame_timeout_witness :
    (startPreview (pollTimeoutEnv 10000) idleCamera).1 = -1
    ∧ (startPreview (pollTimeoutEnv 10000) idleCamera).2.previewAllocation = none
    ∧ (startPreview (pollTimeoutEnv 10000) idleCamera).2.previewStarted = false :=
  have h := startPreview_first_frame_timeout (pollTimeoutEnv 10000) idleCamera
    ⟨0, 0, 0, 0, 0, 0⟩ (by decide) (by decide)
  ⟨h.1, h.2.2.1, h.2.2.2.2.1⟩

end V4L2Camera

namespace V4L2Camera

theorem setFormats_startPreview_stream (e : Env) (cam : V4L2Camera) (dev : V4L2Device) :
    ioctlsWhere Ioctl.isSetFormat (startPreview_stream e cam dev).2.trace
      = ioctlsWhere Ioctl.isSetFormat dev.trace := by
  simp only [startPreview_stream, startPreview_err_free_v4l2_allocation,
    startPreview_err_free_conv_buffer]
  split_ifs <;> simp [V4L2Camera.trace]

theorem setFormats_startPreview_buffers (e : Env) (cam : V4L2Camera) (dev : V4L2Device) :
    ioctlsWhere Ioctl.isSetFormat (startPreview_buffers e cam dev).2.trace
      = ioctlsWhere Ioctl.isSetFormat dev.trace := by
  simp only [startPreview_buffers, startPreview_err_free_v4l2_allocation,
    startPreview_err_free_conv_buffer, newAllocation]
  split_ifs <;> first
    | (rw [setFormats_startPreview_stream]; simp)
    | simp [V4L2Camera.trace]

theorem setFormats_startRecord_stream (e : Env) (cam : V4L2Camera) (dev : V4L2Device) :
    ioctlsWhere Ioctl.isSetFormat (startRecord_stream e cam dev).2.trace
      = ioctlsWhere Ioctl.isSetFormat dev.trace := by
  simp only [startRecord_stream, startRecord_err_free_v4l2_allocation]
  split_ifs <;> simp [V4L2Camera.trace]

/-- If the only `VIDIOC_S_FMT` a function has issued is the one of a `setFormat` call, the
reply recorded for it is the one that decided that call. -/
theorem setFormat_reply_decides (k : Driver) (dev0 dev : V4L2Device) (d : Nat) (w h : Int)
    (fmt : Nat) (hd : d < V4L2_DIRECTIONS)
    (hsame : ioctlsWhere Ioctl.isSetFormat dev.trace = ioctlsWhere Ioctl.isSetFormat dev0.trace)
    (T : List Event)
    (hT : ioctlsWhere Ioctl.isSetFormat T
      = ioctlsWhere Ioctl.isSetFormat (dev.setFormat k d w h fmt).2.trace)
    (r : Ioctl) (rep : Reply)
    (hfmt : newIoctlsWhere Ioctl.isSetFormat dev0.trace T = [(r, rep)]) :
    (dev.setFormat k d w h fmt).1 < 0 ↔ rep.ret < 0 := by
  rw [newIoctlsWhere_append _ _ _ _ (by
    rw [hT, V4L2Device.setFormats_setFormat _ _ _ _ _ _ hd, hsame])] at hfmt
  simp only [List.cons.injEq, Prod.mk.injEq, and_true] at hfmt
  rw [V4L2Device.setFormat_failed_iff _ _ _ _ _ _ hd, hfmt.2]

/-- C13: when the device rejects the `VIDIOC_S_FMT` of `startPreview()` or of `startRecord()`,
the function returns -1 and the calls it has made contain as many registrations (`reqBufs`
with a pool that has buffers) as deregistrations (zero-count `reqBufs`): it has made no
`reqBufs` call at all, so it leaves no buffer registered. -/
theorem start_with_rejected_format_registers_nothing (e : Env) (cam : V4L2Camera) (r : Ioctl)
    (rep : Reply) (hrej : rep.ret < 0) :
    (newIoctlsWhere Ioctl.isSetFormat cam.trace (startPreview e cam).2.trace = [(r, rep)] →
      (startPreview e cam).1 = -1
      ∧ (∀ m, (newCalls cam.trace (startPreview e cam).2.trace).countP (isRegistration m)
          = (newCalls cam.trace (startPreview e cam).2.trace).countP (isDeregistration m))
      ∧ ∀ d a, DevCall.reqBufs d a ∉ newCalls cam.trace (startPreview e cam).2.trace)
    ∧ (newIoctlsWhere Ioctl.isSetFormat cam.trace (startRecord e cam).2.trace = [(r, rep)] →
      (startRecord e cam).1 = -1
      ∧ (∀ m, (newCalls cam.trace (startRecord e cam).2.trace).countP (isRegistration m)
          = (newCalls cam.trace (startRecord e cam).2.trace).countP (isDeregistration m))
      ∧ ∀ d a, DevCall.reqBufs d a ∉ newCalls cam.trace (startRecord e cam).2.trace) := by
  have hcap : V4L2_CAPTURE < V4L2_DIRECTIONS := by decide
  constructor
  · intro hfmt
    by_cases hrun : cam.previewStarted = true
    · simp [startPreview, hrun, newIoctlsWhere] at hfmt
    have hidle : cam.previewStarted = false := by simpa using hrun
    cases hd : cam.device with
    | none => simp [startPreview, hd, hidle, newIoctlsWhere] at hfmt
    | some dev =>
      have ht : cam.trace = dev.trace := by simp [V4L2Camera.trace, hd]
      rw [ht] at hfmt ⊢
      simp only [startPreview, hd, hidle, Bool.false_eq_true, if_false] at hfmt ⊢
      split_ifs at hfmt ⊢ with h1 h2 h3
      · simp [newIoctlsWhere, V4L2Camera.trace] at hfmt
      · simp [newIoctlsWhere, V4L2Camera.trace] at hfmt
      · have hc : newCalls dev.trace
            (((dev.enumFormat e.camera V4L2_CAPTURE cam.previewFormat).2.setCtrl e.camera
              V4L2_CID_S5K4CA_CAPTURE 0).2.setFormat e.camera V4L2_CAPTURE cam.previewWidth
              cam.previewHeight cam.previewFormat).2.trace
            = [DevCall.enumFormat V4L2_CAPTURE cam.previewFormat,
               DevCall.setCtrl V4L2_CID_S5K4CA_CAPTURE 0,
               DevCall.setFormat V4L2_CAPTURE cam.previewWidth cam.previewHeight
                 cam.previewFormat] :=
          newCalls_append _ _ _ (by simp)
        simp only [V4L2Camera.trace]
        rw [hc]
        refine ⟨?_, fun m => by simp [isRegistration, isDeregistration], by simp⟩
        trivial
      · exact absurd ((setFormat_reply_decides e.camera dev _ V4L2_CAPTURE _ _ _ hcap
          (by simp) _ (by rw [setFormats_startPreview_buffers]) r rep hfmt).2 hrej) h3
  · intro hfmt
    by_cases hrun : cam.recordingStarted = true
    · simp [startRecord, hrun, newIoctlsWhere] at hfmt
    have hidle : cam.recordingStarted = false := by simpa using hrun
    cases hd : cam.device with
    | none => simp [startRecord, hd, hidle, newIoctlsWhere] at hfmt
    | some dev =>
      have ht : cam.trace = dev.trace := by simp [V4L2Camera.trace, hd]
      rw [ht] at hfmt ⊢
      simp only [startRecord, hd, hidle, Bool.false_eq_true, if_false, newAllocation]
        at hfmt ⊢
      split_ifs at hfmt ⊢ with h1 h2 h3
      · simp [newIoctlsWhere, V4L2Camera.trace] at hfmt
      · have hc : newCalls dev.trace
            ((dev.enumFormat e.camera V4L2_CAPTURE V4L2_PIX_FMT_YUYV).2.setFormat e.camera
              V4L2_CAPTURE cam.recordingWidth cam.recordingHeight V4L2_PIX_FMT_YUYV).2.trace
            = [DevCall.enumFormat V4L2_CAPTURE V4L2_PIX_FMT_YUYV,
               DevCall.setFormat V4L2_CAPTURE cam.recordingWidth cam.recordingHeight
                 V4L2_PIX_FMT_YUYV] :=
          newCalls_append _ _ _ (by simp)
        simp only [V4L2Camera.trace]
        rw [hc]
        refine ⟨?_, fun m => by simp [isRegistration, isDeregistration], by simp⟩
        trivial
      · exact absurd ((setFormat_reply_decides e.camera dev _ V4L2_CAPTURE _ _ _ hcap
          (by simp) _ (by simp [V4L2Camera.trace]) r rep hfmt).2 hrej) h2
      · exact absurd ((setFormat_reply_decides e.camera dev _ V4L2_CAPTURE _ _ _ hcap
          (by simp) _ (by rw [setFormats_startRecord_stream]; simp) r rep hfmt).2 hrej) h2

theorem start_with_rejected_format_registers_nothing_witness :
    (startPreview noFormatEnv idleCamera).1 = -1
    ∧ (startRecord noFormatEnv idleCamera).1 = -1
    ∧ (newCalls idleCamera.trace (startRecord noFormatEnv idleCamera).2.trace).countP
        (isRegistration [])
      = (newCalls idleCamera.trace (startRecord noFormatEnv idleCamera).2.trace).countP
        (isDeregistration []) :=
  ⟨((start_with_rejected_format_registers_nothing noFormatEnv idleCamera
      (Ioctl.S_FMT V4L2_BUF_TYPE_VIDEO_CAPTURE_MPLANE 640 480 V4L2_PIX_FMT_YUV420 460800)
      ⟨-1, 0, 0, 0, 0, 0⟩ (by decide)).1 (by decide)).1,
   ((start_with_rejected_format_registers_nothing noFormatEnv idleCamera
      (Ioctl.S_FMT V4L2_BUF_TYPE_VIDEO_CAPTURE_MPLANE 640 480 V4L2_PIX_FMT_YUYV 614400)
      ⟨-1, 0, 0, 0, 0, 0⟩ (by decide)).2 (by decide)).1,
   ((start_with_rejected_format_registers_nothing noFormatEnv idleCamera
      (Ioctl.S_FMT V4L2_BUF_TYPE_VIDEO_CAPTURE_MPLANE 640 480 V4L2_PIX_FMT_YUYV 614400)
      ⟨-1, 0, 0, 0, 0, 0⟩ (by decide)).2 (by decide)).2.1 []⟩

end V4L2Camera

namespace V4L2Camera

/-- What `previewPoll` returns is 0 exactly when the reply of its poll reports no frame. -/
theorem previewPoll_eq_zero (k : Driver) (dev : V4L2Device) :
    (previewPoll k dev).1 = 0
      ↔ (k.reply (dev.trace ++ [Event.call (DevCall.pollDevice (Nat.lor POLLIN POLLERR) 1000)])
          (Ioctl.POLL (Nat.lor POLLIN POLLERR) 1000)).reportsPollin = false := by
  rw [← V4L2Device.pollDevice_pollin]
  unfold previewPoll
  simp only
  split_ifs with h
  · simp [h]
  · simp only [h, iff_false]
    intro h0
    apply h
    rw [h0]
    decide

@[simp] theorem polls_previewPoll (k : Driver) (dev : V4L2Device) :
    ioctlsWhere Ioctl.isPoll (previewPoll k dev).2.trace
      = ioctlsWhere Ioctl.isPoll dev.trace ++
        [(Ioctl.POLL (Nat.lor POLLIN POLLERR) 1000,
          k.reply (dev.trace ++ [Event.call (DevCall.pollDevice (Nat.lor POLLIN POLLERR) 1000)])
            (Ioctl.POLL (Nat.lor POLLIN POLLERR) 1000))] := by
  unfold previewPoll
  simp only
  split_ifs <;> simp

/-- The one poll of a `getPreview()` on a running preview is the poll of `previewPoll`. -/
theorem polls_getPreview (e : Env) (cam : V4L2Camera) (dev : V4L2Device)
    (hdev : cam.device = some dev) (hrun : cam.previewStarted = true) :
    ioctlsWhere Ioctl.isPoll (getPreview e cam).2.trace
      = ioctlsWhere Ioctl.isPoll dev.trace ++
        [(Ioctl.POLL (Nat.lor POLLIN POLLERR) 1000,
          e.camera.reply
            (dev.trace ++ [Event.call (DevCall.pollDevice (Nat.lor POLLIN POLLERR) 1000)])
            (Ioctl.POLL (Nat.lor POLLIN POLLERR) 1000))] := by
  simp only [getPreview, stopPreview, hdev, hrun, Bool.true_eq_false, if_false]
  split_ifs <;> simp [V4L2Camera.trace]

/-- C12 (as amended): when the steady-state poll inside `getPreview()` does not report
`POLLIN`, the call returns -1 and stops the preview through `stopPreview()`: it issues the
stream-off and, when that succeeds, the zero-count `reqBufs`, releases the preview pool and
clears `previewStarted`; when the stream-off fails nothing more is issued, the pool is kept and
`previewStarted` stays true. -/
theorem getPreview_poll_timeout_stops_preview (e : Env) (cam : V4L2Camera) (dev : V4L2Device)
    (rep : Reply) (hdev : cam.device = some dev) (hrun : cam.previewStarted = true)
    (hpoll : newIoctlsWhere Ioctl.isPoll dev.trace (getPreview e cam).2.trace
      = [(Ioctl.POLL (Nat.lor POLLIN POLLERR) 1000, rep)])
    (hno : rep.reportsPollin = false) :
    (getPreview e cam).1 = -1
    ∧ (getPreview e cam).2
        = (stopPreview e { cam with device := some (previewPoll e.camera dev).2 }).2
    ∧ (¬ ((previewPoll e.camera dev).2.setStream e.camera V4L2_CAPTURE false).1 < 0 →
        newCalls dev.trace (getPreview e cam).2.trace
          = [DevCall.pollDevice (Nat.lor POLLIN POLLERR) 1000,
             DevCall.setStream V4L2_CAPTURE false, DevCall.reqBufs V4L2_CAPTURE none]
        ∧ (getPreview e cam).2.previewAllocation = none
        ∧ (getPreview e cam).2.previewStarted = false)
    ∧ (((previewPoll e.camera dev).2.setStream e.camera V4L2_CAPTURE false).1 < 0 →
        newCalls dev.trace (getPreview e cam).2.trace
          = [DevCall.pollDevice (Nat.lor POLLIN POLLERR) 1000,
             DevCall.setStream V4L2_CAPTURE false]
        ∧ (getPreview e cam).2.previewAllocation = cam.previewAllocation
        ∧ (getPreview e cam).2.previewStarted = true) := by
  rw [newIoctlsWhere_append _ _ _ _ (polls_getPreview e cam dev hdev hrun)] at hpoll
  simp only [List.cons.injEq, Prod.mk.injEq, true_and, and_true] at hpoll
  have h0 : (previewPoll e.camera dev).1 = 0 := by
    rw [previewPoll_eq_zero, hpoll]
    exact hno
  have heq : getPreview e cam
      = (-1, (stopPreview e { cam with device := some (previewPoll e.camera dev).2 }).2) := by
    simp only [getPreview, hdev, hrun, Bool.true_eq_false, if_false, h0, if_true]
  rw [heq]
  refine ⟨rfl, rfl, ?_, ?_⟩
  · intro h
    simp only [stopPreview, hrun, Bool.true_eq_false, if_false, if_neg h]
    refine ⟨?_, by trivial, by trivial⟩
    apply newCalls_append
    simp [V4L2Camera.trace]
  · intro h
    simp only [stopPreview, hrun, Bool.true_eq_false, if_false, if_pos h]
    refine ⟨?_, by trivial, by trivial⟩
    apply newCalls_append
    simp [V4L2Camera.trace]

theorem getPreview_poll_timeout_stops_preview_witness :
    (getPreview (pollTimeoutEnv 1000) (startPreview (pollTimeoutEnv 1000) idleCamera).2).1 = -1
    ∧ (getPreview (pollTimeoutEnv 1000)
        (startPreview (pollTimeoutEnv 1000) idleCamera).2).2.previewStarted = false :=
  have h := getPreview_poll_timeout_stops_preview (pollTimeoutEnv 1000)
    (startPreview (pollTimeoutEnv 1000) idleCamera).2
    ((startPreview (pollTimeoutEnv 1000) idleCamera).2.device.getD idleDevice)
    ⟨0, 0, 0, 0, 0, 0⟩ (by decide) (by decide) (by decide) (by decide)
  ⟨h.1, (h.2.2.1 (by decide)).2.2⟩

/-- C12 (as stated) fails: on a platform whose `poll` with the timeout 1000 times out, a
`getPreview()` on a running preview returns -1 having issued the stream-off and the zero-count
`reqBufs`, and `previewStarted` is false afterwards. -/
theorem getPreview_poll_timeout_tears_down :
    (startPreview (pollTimeoutEnv 1000) idleCamera).2.previewStarted = true
    ∧ newIoctlsWhere Ioctl.isPoll (startPreview (pollTimeoutEnv 1000) idleCamera).2.trace
        (getPreview (pollTimeoutEnv 1000)
          (startPreview (pollTimeoutEnv 1000) idleCamera).2).2.trace
        = [(Ioctl.POLL (Nat.lor POLLIN POLLERR) 1000, ⟨0, 0, 0, 0, 0, 0⟩)]
    ∧ (getPreview (pollTimeoutEnv 1000) (startPreview (pollTimeoutEnv 1000) idleCamera).2).1 = -1
    ∧ DevCall.setStream V4L2_CAPTURE false ∈
        newCalls (startPreview (pollTimeoutEnv 1000) idleCamera).2.trace
          (getPreview (pollTimeoutEnv 1000)
            (startPreview (pollTimeoutEnv 1000) idleCamera).2).2.trace
    ∧ DevCall.reqBufs V4L2_CAPTURE none ∈
        newCalls (startPreview (pollTimeoutEnv 1000) idleCamera).2.trace
          (getPreview (pollTimeoutEnv 1000)
            (startPreview (pollTimeoutEnv 1000) idleCamera).2).2.trace
    ∧ (getPreview (pollTimeoutEnv 1000)
        (startPreview (pollTimeoutEnv 1000) idleCamera).2).2.previewStarted = false := by
  decide

end V4L2Camera

/-! ## Pools: a concrete size, and failure -/

namespace V4L2Allocation

/-- C22 (as amended): allocating 5 buffers of 614400 bytes each, when the heap maps, yields 5
descriptors whose length is 614400 bytes each: 614400 is 150 pages of 4096 bytes, so rounding up
to the page size leaves it as it is.  Descriptor `i` starts `i * 614400` bytes after the base. -/
theorem ctor_five_buffers_of_614400 (base : Nat) (platform : Nat → HeapReply)
    (hmap : platform 3072000 = ⟨true, some base, true⟩) :
    ALIGN_TO_PAGE 614400 = 614400
    ∧ (ctor 5 614400 platform).getBufferCount = 5
    ∧ ∀ i, i < 5 →
        (ctor 5 614400 platform).getBuffer i = some ⟨base + i * 614400, 614400, 0⟩ := by
  have hA : ALIGN_TO_PAGE 614400 = 614400 := by decide
  have hc : ctor 5 614400 platform = ⟨5, fill 5 base 614400⟩ := by
    simp [ctor, MAX_BUFFERS, hA, hmap]
  refine ⟨hA, by rw [hc]; rfl, fun i hi => ?_⟩
  have hi' : ¬ i ≥ 5 := by omega
  rw [hc]
  simp only [getBuffer, if_neg hi', fill_getD _ _ _ _ _ hi]

theorem ctor_five_buffers_of_614400_witness :
    (ctor 5 614400 (fun _ => ⟨true, some 4096, true⟩)).getBufferCount = 5
    ∧ (ctor 5 614400 (fun _ => ⟨true, some 4096, true⟩)).getBuffer 4
        = some ⟨4096 + 4 * 614400, 614400, 0⟩ :=
  have h := ctor_five_buffers_of_614400 4096 (fun _ => ⟨true, some 4096, true⟩) rfl
  ⟨h.2.1, h.2.2 4 (by decide)⟩

/-- C22 (as stated) fails: with a heap that maps, the five descriptors of
`V4L2Allocation(5, 614400, ...)` have length 614400, not 618496. -/
theorem ctor_614400_is_not_rounded_to_618496 :
    (ctor 5 614400 (fun _ => ⟨true, some 4096, true⟩)).getBufferCount = 5
    ∧ (∀ i, i < 5 → ((ctor 5 614400 (fun _ => ⟨true, some 4096, true⟩)).getBuffer i).map
        V4L2Buffer.length = some 614400)
    ∧ ¬ (∀ i, i < 5 → ((ctor 5 614400 (fun _ => ⟨true, some 4096, true⟩)).getBuffer i).map
        V4L2Buffer.length = some 618496) := by
  decide

/-- C23: a `V4L2Allocation` whose construction fails exposes no descriptor.  When the count is
0 or above `MAX_BUFFERS`, or the heap object cannot be created, or its mapping fails, or the pmem
heap object cannot be created, `getBufferCount()` is 0 and `getBuffer(i)` is null for every
`i`. -/
theorem ctor_failure_exposes_nothing (nr_bufs buf_size : Nat) (platform : Nat → HeapReply)
    (hfail : nr_bufs = 0 ∨ nr_bufs > MAX_BUFFERS
      ∨ (platform ((ALIGN_TO_PAGE buf_size * nr_bufs) % 4294967296)).heap = false
      ∨ (platform ((ALIGN_TO_PAGE buf_size * nr_bufs) % 4294967296)).base = none
      ∨ (platform ((ALIGN_TO_PAGE buf_size * nr_bufs) % 4294967296)).pmemHeap = false) :
    (ctor nr_bufs buf_size platform).getBufferCount = 0
    ∧ ∀ i, (ctor nr_bufs buf_size platform).getBuffer i = none := by
  have hnone : ctor nr_bufs buf_size platform = none_exposed := by
    unfold ctor
    split_ifs with h1
    · rfl
    · simp only
      split_ifs with h2 h3
      · rfl
      · split <;> rfl
      · split
        · rfl
        · rename_i v hv
          simp only [hv] at hfail
          rcases hfail with h | h | h | h | h
          · exact absurd (Or.inl h) h1
          · exact absurd (Or.inr h) h1
          · exact absurd h h2
          · exact absurd h (by simp)
          · exact absurd h h3
  rw [hnone]
  exact ⟨rfl, fun i => by simp [none_exposed, getBuffer]⟩

theorem ctor_failure_exposes_nothing_witness :
    (ctor 9 614400 (fun _ => ⟨true, some 4096, true⟩)).getBufferCount = 0
    ∧ (ctor 5 614400 (fun _ => ⟨true, none, true⟩)).getBuffer 0 = none :=
  ⟨(ctor_failure_exposes_nothing 9 614400 (fun _ => ⟨true, some 4096, true⟩)
      (Or.inr (Or.inl (by decide)))).1,
   (ctor_failure_exposes_nothing 5 614400 (fun _ => ⟨true, none, true⟩)
      (Or.inr (Or.inr (Or.inr (Or.inl rfl))))).2 0⟩

end V4L2Allocation

/-! ## Invalid directions, and failure of a registration -/

namespace V4L2Device

/-- Entering a member function changes nothing but the trace, and issues no system call. -/
theorem enter_state (dev : V4L2Device) (c : DevCall) :
    (dev.enter c).fd = dev.fd ∧ (dev.enter c).allocation = dev.allocation
    ∧ (dev.enter c).type = dev.type ∧ (dev.enter c).isMultiPlane = dev.isMultiPlane
    ∧ newIoctls dev.trace (dev.enter c).trace = [] :=
  ⟨rfl, rfl, rfl, rfl, newIoctls_append _ _ _ (by simp)⟩

/-- C28: with `direction >= V4L2_DIRECTIONS`, each of `setBufType`, `setFormat`, `enumFormat`,
`reqBufs`, `queryBuf`, `setStream`, `queueBuf`, `dequeueBuf`, `getParam` and `setParam` returns
-1 and leaves the device as it was on entry: the handle, the bound pools, the buffer types and
the multi-plane flags are unchanged, no system call is issued, `queryBuf` writes no output and
`dequeueBuf` writes no descriptor. -/
theorem invalid_direction_is_rejected (k : Driver) (m : Store) (dev : V4L2Device)
    (direction : Nat) (hd : V4L2_DIRECTIONS ≤ direction) :
    (∀ type, dev.setBufType k direction type
        = (-1, dev.enter (DevCall.setBufType direction type)))
    ∧ (∀ width height fmt, dev.setFormat k direction width height fmt
        = (-1, dev.enter (DevCall.setFormat direction width height fmt)))
    ∧ (∀ fmt, dev.enumFormat k direction fmt = (-1, dev.enter (DevCall.enumFormat direction fmt)))
    ∧ (∀ allocation, dev.reqBufs k m direction allocation
        = (-1, dev.enter (DevCall.reqBufs direction allocation)))
    ∧ (∀ index, dev.queryBuf m direction index
        = (-1, none, dev.enter (DevCall.queryBuf direction index)))
    ∧ (∀ on_, dev.setStream k direction on_ = (-1, dev.enter (DevCall.setStream direction on_)))
    ∧ (∀ index, dev.queueBuf k m direction index
        = (-1, dev.enter (DevCall.queueBuf direction index)))
    ∧ dev.dequeueBuf k m direction = (-1, m, dev.enter (DevCall.dequeueBuf direction))
    ∧ dev.getParam k direction = (-1, dev.enter (DevCall.getParam direction))
    ∧ dev.setParam k direction = (-1, dev.enter (DevCall.setParam direction))
    ∧ ∀ c, (dev.enter c).fd = dev.fd ∧ (dev.enter c).allocation = dev.allocation
        ∧ (dev.enter c).type = dev.type ∧ (dev.enter c).isMultiPlane = dev.isMultiPlane
        ∧ newIoctls dev.trace (dev.enter c).trace = [] := by
  have hd' : direction ≥ V4L2_DIRECTIONS := hd
  refine ⟨?_, ?_, ?_, ?_, ?_, ?_, ?_, ?_, ?_, ?_, enter_state dev⟩
  · intro type; simp only [setBufType, if_pos hd']
  · intro w h f; simp only [setFormat, if_pos hd']
  · intro f; simp only [enumFormat, if_pos hd']
  · intro a; simp only [reqBufs, if_pos hd']
  · intro i; simp only [queryBuf, if_pos hd']
  · intro b; simp only [setStream, if_pos hd']
  · intro i; simp only [queueBuf, if_pos hd']
  · simp only [dequeueBuf, if_pos hd']
  · simp only [getParam, if_pos hd']
  · simp only [setParam, if_pos hd']

theorem invalid_direction_is_rejected_witness :
    ((V4L2Device.opened 3).setStream okDriver 2 true).1 = -1
    ∧ ((V4L2Device.opened 3).dequeueBuf okDriver encodeStore 7).2.1 = encodeStore
    ∧ newIoctls (V4L2Device.opened 3).trace
        ((V4L2Device.opened 3).reqBufs okDriver encodeStore 2 (some 0)).2.trace = [] :=
  have h := invalid_direction_is_rejected okDriver encodeStore (V4L2Device.opened 3) 2
    (by decide)
  have h7 := invalid_direction_is_rejected okDriver encodeStore (V4L2Device.opened 3) 7
    (by decide)
  ⟨by rw [h.2.2.2.2.2.1 true],
   by rw [h7.2.2.2.2.2.2.2.1],
   by rw [h.2.2.2.1 (some 0)]; exact (h.2.2.2.2.2.2.2.2.2.2 _).2.2.2.2⟩

theorem ioctls_setBufType (k : Driver) (dev : V4L2Device) (d type : Nat)
    (hd : d < V4L2_DIRECTIONS) :
    ioctls (dev.setBufType k d type).2.trace = ioctls dev.trace ++
      [(Ioctl.REQBUFS 0 type V4L2_MEMORY_USERPTR,
        k.reply (dev.trace ++ [Event.call (DevCall.setBufType d type)])
          (Ioctl.REQBUFS 0 type V4L2_MEMORY_USERPTR))] := by
  have hd' : ¬ d ≥ V4L2_DIRECTIONS := by omega
  simp only [setBufType, if_neg hd']
  split_ifs <;> simp [enter_trace, ioctls]

/-- C29: `reqBufs` and `setBufType` change nothing when their `VIDIOC_REQBUFS` fails: the
pools bound, the buffer types and the multi-plane flags of both directions are what they were.
Whatever the outcome, `reqBufs` never touches a buffer type or a multi-plane flag, `setBufType`
never touches a binding, and neither changes what is held for the other direction. -/
theorem reqBufs_and_setBufType_are_atomic (k : Driver) (m : Store) (dev : V4L2Device)
    (direction : Nat) (allocation : Option Nat) (type : Nat) (hd : direction < V4L2_DIRECTIONS) :
    (∀ r rep, newIoctls dev.trace (dev.reqBufs k m direction allocation).2.trace = [(r, rep)] →
        rep.ret < 0 →
        (dev.reqBufs k m direction allocation).1 = -1
        ∧ (dev.reqBufs k m direction allocation).2.allocation = dev.allocation)
    ∧ (dev.reqBufs k m direction allocation).2.type = dev.type
    ∧ (dev.reqBufs k m direction allocation).2.isMultiPlane = dev.isMultiPlane
    ∧ (∀ other, other < V4L2_DIRECTIONS → other ≠ direction →
        (dev.reqBufs k m direction allocation).2.allocation.get other
          = dev.allocation.get other)
    ∧ (∀ r rep, newIoctls dev.trace (dev.setBufType k direction type).2.trace = [(r, rep)] →
        rep.ret < 0 →
        (dev.setBufType k direction type).1 = -1
        ∧ (dev.setBufType k direction type).2.type = dev.type
        ∧ (dev.setBufType k direction type).2.isMultiPlane = dev.isMultiPlane)
    ∧ (dev.setBufType k direction type).2.allocation = dev.allocation
    ∧ (∀ other, other < V4L2_DIRECTIONS → other ≠ direction →
        (dev.setBufType k direction type).2.type.get other = dev.type.get other
        ∧ (dev.setBufType k direction type).2.isMultiPlane.get other
            = dev.isMultiPlane.get other) := by
  have hd' : ¬ direction ≥ V4L2_DIRECTIONS := by omega
  refine ⟨?_, ?_, ?_, ?_, ?_, ?_, ?_⟩
  · intro r rep hrep hneg
    rw [newIoctls_append _ _ _ (ioctls_reqBufs k m dev direction allocation hd)] at hrep
    simp only [List.cons.injEq, Prod.mk.injEq, and_true] at hrep
    have hneg' := hneg
    rw [← hrep.2] at hneg'
    simp only [reqBufs, if_neg hd', enter_type, ioctl_reply, enter_trace, if_pos hneg']
    exact ⟨trivial, rfl⟩
  · simp only [reqBufs, if_neg hd']
    split_ifs <;> rfl
  · simp only [reqBufs, if_neg hd']
    split_ifs <;> rfl
  · intro other ho hne
    simp only [reqBufs, if_neg hd']
    split_ifs
    · rfl
    · exact get_set_ne _ _ _ _ ho hd (Ne.symm hne)
  · intro r rep hrep hneg
    rw [newIoctls_append _ _ _ (ioctls_setBufType k dev direction type hd)] at hrep
    simp only [List.cons.injEq, Prod.mk.injEq, and_true] at hrep
    have hneg' := hneg
    rw [← hrep.2] at hneg'
    simp only [setBufType, if_neg hd', ioctl_reply, enter_trace, if_pos hneg']
    exact ⟨trivial, rfl, rfl⟩
  · simp only [setBufType, if_neg hd']
    split_ifs <;> rfl
  · intro other ho hne
    simp only [setBufType, if_neg hd']
    split_ifs
    · exact ⟨rfl, rfl⟩
    · exact ⟨get_set_ne _ _ _ _ ho hd (Ne.symm hne), get_set_ne _ _ _ _ ho hd (Ne.symm hne)⟩

theorem reqBufs_and_setBufType_are_atomic_witness :
    ((V4L2Device.opened 4).reqBufs noReqBufsDriver encodeStore V4L2_OUTPUT (some 0)).1 = -1
    ∧ ((V4L2Device.opened 4).reqBufs noReqBufsDriver encodeStore V4L2_OUTPUT
        (some 0)).2.allocation = ⟨none, none⟩
    ∧ (idleDevice.setBufType noReqBufsDriver V4L2_CAPTURE V4L2_BUF_TYPE_VIDEO_CAPTURE).1 = -1
    ∧ (idleDevice.setBufType noReqBufsDriver V4L2_CAPTURE V4L2_BUF_TYPE_VIDEO_CAPTURE).2.type
        = ⟨V4L2_BUF_TYPE_VIDEO_CAPTURE_MPLANE, V4L2_BUF_TYPE_VIDEO_OUTPUT⟩
    ∧ (idleDevice.setBufType noReqBufsDriver V4L2_CAPTURE
        V4L2_BUF_TYPE_VIDEO_CAPTURE).2.isMultiPlane = ⟨true, false⟩ :=
  have h := reqBufs_and_setBufType_are_atomic noReqBufsDriver encodeStore (V4L2Device.opened 4)
    V4L2_OUTPUT (some 0) V4L2_BUF_TYPE_VIDEO_OUTPUT (by decide)
  have g := reqBufs_and_setBufType_are_atomic noReqBufsDriver encodeStore idleDevice
    V4L2_CAPTURE none V4L2_BUF_TYPE_VIDEO_CAPTURE (by decide)
  have h1 := h.1 (Ioctl.REQBUFS 1 V4L2_BUF_TYPE_VIDEO_OUTPUT V4L2_MEMORY_USERPTR)
    ⟨-1, 0, 0, 0, 0, 0⟩ (by decide) (by decide)
  have g1 := g.2.2.2.2.1 (Ioctl.REQBUFS 0 V4L2_BUF_TYPE_VIDEO_CAPTURE V4L2_MEMORY_USERPTR)
    ⟨-1, 0, 0, 0, 0, 0⟩ (by decide) (by decide)
  ⟨h1.1, h1.2, g1.1, g1.2.1, g1.2.2⟩

end V4L2Device

/-! ## The JPEG quality of a snapshot -/

namespace V4L2JpegEncoder

theorem encodeImage_jpegQuality (k : Driver) (m : Store) (enc : V4L2JpegEncoder)
    (dev : V4L2Device) (input : ImageConfig) :
    (encodeImage k m enc dev input).2.2.1.jpegQuality = enc.jpegQuality := by
  simp only [encodeImage]
  split_ifs <;> rfl

/-- Running the encoder does not change the quality set by `setOutput`. -/
theorem run_jpegQuality (k : Driver) (fd : Int) (exifBuffer : Bool) (exifSize : Nat)
    (m : Store) (enc : V4L2JpegEncoder) :
    (run k fd exifBuffer exifSize m enc).2.2.jpegQuality = enc.jpegQuality := by
  unfold run
  split
  · rfl
  · simp only
    split_ifs
    all_goals first
      | rfl
      | (simp only [encodeImage_jpegQuality]; done)
      | (split <;> simp only [encodeImage_jpegQuality])

end V4L2JpegEncoder

namespace V4L2Camera

theorem snapshotJpegQuality_eq (q : Int) (h0 : 0 ≤ q) (h1 : q ≤ 100) :
    snapshotJpegQuality q = (3 * (100 - q).toNat) / 100 := by
  unfold snapshotJpegQuality JPEG_MAX_QUALITY
  rw [toUInt32_of_nonneg (100 - q) (by omega) (by omega)]
  rw [Nat.mod_eq_of_lt (by omega)]

/-- C21: for a user JPEG quality `q` with `0 <= q <= 100` in `CAMERA_CTRL_JPEG_QUALITY`, the
quality `getSnapshotAndJpeg` computes for `setOutput` is `floor(JPEG_MAX_QUALITY * (100 - q) /
100)`; it is at most `JPEG_MAX_QUALITY = 3`, does not increase when `q` grows, and is 0 for
`q = 100`.  `setOutput` accepts it, and whenever the JPEG part of `getSnapshotAndJpeg` gets as
far as `setOutput` the encoder holds exactly this quality afterwards. -/
theorem snapshot_jpeg_quality_in_range (q : Int) (hq : 0 ≤ q ∧ q ≤ 100) :
    (snapshotJpegQuality q : Int) = (JPEG_MAX_QUALITY * (100 - q)) / 100
    ∧ snapshotJpegQuality q ≤ JPEG_MAX_QUALITY
    ∧ (∀ q2 : Int, q ≤ q2 → q2 ≤ 100 → snapshotJpegQuality q2 ≤ snapshotJpegQuality q)
    ∧ snapshotJpegQuality 100 = 0
    ∧ (∀ (enc : V4L2JpegEncoder) (allocation : Option Nat) (ycbcr422 : Bool),
        (enc.setOutput allocation (snapshotJpegQuality q) ycbcr422).1 = 0
        ∧ (enc.setOutput allocation (snapshotJpegQuality q) ycbcr422).2.jpegQuality
            = snapshotJpegQuality q)
    ∧ (∀ (e : Env) (cam : V4L2Camera) (dev : V4L2Device) (yuv_buf : Bool)
        (allocation buf_size sizeTarget : Nat),
        cam.ctrlValues.getD CAMERA_CTRL_JPEG_QUALITY 0 = q →
        ¬ (cam.jpegEncoder.setInput (some allocation) (toUInt32 cam.snapshotWidth)
            (toUInt32 cam.snapshotHeight) cam.snapshotFormat).1 < 0 →
        ¬ (V4L2Allocation.ctor 1 buf_size (e.heap dev.trace)).getBufferCount < 1 →
        (getSnapshotAndJpeg_jpeg e cam dev yuv_buf true allocation buf_size
          sizeTarget).2.jpegEncoder.jpegQuality = snapshotJpegQuality q) := by
  obtain ⟨h0, h1⟩ := hq
  have heq := snapshotJpegQuality_eq q h0 h1
  have hle : snapshotJpegQuality q ≤ 3 := by
    rw [heq]
    omega
  have hacc : ∀ (enc : V4L2JpegEncoder) (allocation : Option Nat) (ycbcr422 : Bool),
      enc.setOutput allocation (snapshotJpegQuality q) ycbcr422
        = (0, { enc with
            output := { enc.output with allocation := allocation }
            jpegQuality := snapshotJpegQuality q
            jpegSubsampling :=
              if ycbcr422 then V4L2JpegEncoder.V4L2_JPEG_CHROMA_SUBSAMPLING_422
              else V4L2JpegEncoder.V4L2_JPEG_CHROMA_SUBSAMPLING_420 }) := by
    intro enc a b
    have : ¬ snapshotJpegQuality q > JPEG_MAX_QUALITY := by
      simp only [JPEG_MAX_QUALITY, gt_iff_lt, not_lt]
      exact hle
    simp only [V4L2JpegEncoder.setOutput, if_neg this]
  refine ⟨?_, hle, ?_, by decide, fun enc a b => by rw [hacc]; exact ⟨rfl, rfl⟩, ?_⟩
  · rw [heq]
    simp only [JPEG_MAX_QUALITY]
    omega
  · intro q2 h2 h3
    rw [heq, snapshotJpegQuality_eq q2 (by omega) h3]
    omega
  · intro e cam dev y allocation bs st hctl hin hpool
    have hget : getControl e { cam with
          jpegEncoder := (cam.jpegEncoder.setInput (some allocation)
            (toUInt32 cam.snapshotWidth) (toUInt32 cam.snapshotHeight) cam.snapshotFormat).2
          pools := cam.pools ++ [V4L2Allocation.ctor 1 bs (e.heap dev.trace)]
          device := some dev } CAMERA_CTRL_JPEG_QUALITY
        = (q, { cam with
          jpegEncoder := (cam.jpegEncoder.setInput (some allocation)
            (toUInt32 cam.snapshotWidth) (toUInt32 cam.snapshotHeight) cam.snapshotFormat).2
          pools := cam.pools ++ [V4L2Allocation.ctor 1 bs (e.heap dev.trace)]
          device := some dev }) := by
      simp [getControl, CAMERA_CTRL_JPEG_QUALITY, CAMERA_CTRL_NUM, ctrlTable, ← hctl]
    have hpool' : ¬ (Store.deref (cam.pools ++ [V4L2Allocation.ctor 1 bs (e.heap dev.trace)])
        (some cam.pools.length)).getBufferCount < 1 := by
      simpa [Store.deref] using hpool
    simp only [getSnapshotAndJpeg_jpeg, Bool.true_eq_false, if_false, if_neg hin, newAllocation,
      if_neg hpool', hget, snapshotJpegQuality] at *
    simp only [hacc, setExifChangedAttribute_eq e _ dev, Option.getD_some,
      getSnapshotAndJpeg_error, getSnapshotAndJpeg_yuv]
    split_ifs <;> simp [V4L2JpegEncoder.run_jpegQuality]

theorem snapshot_jpeg_quality_in_range_witness :
    snapshotJpegQuality 50 ≤ JPEG_MAX_QUALITY
    ∧ (snapshotJpegQuality 50 : Int) = (JPEG_MAX_QUALITY * (100 - 50)) / 100
    ∧ snapshotJpegQuality 75 ≤ snapshotJpegQuality 50 :=
  have h := snapshot_jpeg_quality_in_range 50 (by decide)
  ⟨h.2.1, h.1, h.2.2.1 75 (by decide) (by decide)⟩

end V4L2Camera

/-! ## The size of a preview frame -/

namespace V4L2Camera

/-- C25 (as amended): a `getPreview()` on a running preview polls first.  When it returns a
frame, its device calls are, in this order, the poll, the enqueue of the previously dequeued
index (`prevBufIdx`), and the dequeue. -/
theorem getPreview_polls_then_enqueues_then_dequeues (e : Env) (cam : V4L2Camera)
    (dev : V4L2Device) (hdev : cam.device = some dev) (hrun : cam.previewStarted = true) :
    (∃ rest, newCalls dev.trace (getPreview e cam).2.trace
        = DevCall.pollDevice (Nat.lor POLLIN POLLERR) 1000 :: rest)
    ∧ (0 ≤ (getPreview e cam).1 →
        newCalls dev.trace (getPreview e cam).2.trace
          = [DevCall.pollDevice (Nat.lor POLLIN POLLERR) 1000,
             DevCall.queueBuf V4L2_CAPTURE cam.prevBufIdx,
             DevCall.dequeueBuf V4L2_CAPTURE]) := by
  constructor
  · simp only [getPreview, stopPreview, hdev, hrun, Bool.true_eq_false, if_false]
    split_ifs
    all_goals exact ⟨_, newCalls_append _ _ _ (by simp [V4L2Camera.trace]; rfl)⟩
  · intro h
    obtain ⟨h1, -⟩ := getPreview_ok_calls e cam (getPreview e cam).2 dev (getPreview e cam).1
      hdev rfl h
    exact newCalls_append _ _ _ h1

theorem getPreview_polls_then_enqueues_then_dequeues_witness :
    newCalls (startPreview okEnv idleCamera).2.trace
        (getPreview okEnv (startPreview okEnv idleCamera).2).2.trace
      = [DevCall.pollDevice (Nat.lor POLLIN POLLERR) 1000,
         DevCall.queueBuf V4L2_CAPTURE 0,
         DevCall.dequeueBuf V4L2_CAPTURE] :=
  (getPreview_polls_then_enqueues_then_dequeues okEnv (startPreview okEnv idleCamera).2
    ((startPreview okEnv idleCamera).2.device.getD idleDevice) (by decide) (by decide)).2
    (by decide)

/-- C25 (as stated) fails: in a `getPreview()` that returns a frame, on a platform where every
call succeeds, the enqueue is not the first device call; the poll comes before it. -/
theorem getPreview_does_not_enqueue_first :
    0 ≤ (getPreview okEnv (startPreview okEnv idleCamera).2).1
    ∧ newCalls (startPreview okEnv idleCamera).2.trace
        (getPreview okEnv (startPreview okEnv idleCamera).2).2.trace
      ≠ [DevCall.queueBuf V4L2_CAPTURE 0,
         DevCall.pollDevice (Nat.lor POLLIN POLLERR) 1000,
         DevCall.dequeueBuf V4L2_CAPTURE]
    ∧ (newCalls (startPreview okEnv idleCamera).2.trace
        (getPreview okEnv (startPreview okEnv idleCamera).2).2.trace).head?
      = some (DevCall.pollDevice (Nat.lor POLLIN POLLERR) 1000) := by
  decide

end V4L2Camera

/-! ## Frame conversion -/

/-- The bound on the rounds of the word loop is never what ends it: with at least `count`
rounds allowed, the loop ends with its own condition `count > 8` false. -/
theorem convertWords_exit (tmp : Bytes) (fuel : Nat) (st : ConvertState)
    (h : st.count ≤ fuel) : (convertWords tmp fuel st).count ≤ 8 := by
  induction fuel generalizing st with
  | zero =>
    simp only [convertWords]
    omega
  | succ n ih =>
    simp only [convertWords]
    split_ifs with hc
    · apply ih
      simp only
      omega
    · omega

/-- The bound on the rounds of the byte loop is never what ends it: entered with
`0 < count < 2^32` and at least `count` rounds allowed, the loop ends with `count` at 0. -/
theorem convertTail_exit (tmp : Bytes) (fuel : Nat) (st : ConvertState)
    (h0 : 0 < st.count) (h : st.count ≤ fuel) (h32 : st.count < 4294967296) :
    (convertTail tmp fuel st).count = 0 := by
  induction fuel generalizing st with
  | zero => omega
  | succ n ih =>
    simp only [convertTail]
    split_ifs with hc
    · simp only at hc
      apply ih
      · simp only
        omega
      · simp only
        omega
      · simp only
        omega
    · simp only at hc ⊢
      omega

namespace V4L2Camera

/-- For every destination format but NV21, `convertFrame` returns -1 and neither buffer is
changed. -/
theorem convertFrame_other_format (buffer convBuffer : Bytes) (width height dstFormat : Int)
    (h : dstFormat ≠ V4L2_PIX_FMT_NV21) :
    convertFrame buffer convBuffer width height dstFormat = (-1, buffer, convBuffer) := by
  simp [convertFrame, h]

/-- A frame of at most 8 chroma samples per plane is converted in full: for the 8x4 test frame
the luma plane is unchanged and the chroma area interleaves `V[i]`, `U[i]` for every `i < 8`. -/
theorem convertFrame_8x4 :
    convertFrame (testFrame 8) (List.replicate 48 0) 8 4 V4L2_PIX_FMT_NV21
      = (0,
         (List.range 32).map (fun i => i % 64)
           ++ [128, 64, 129, 65, 130, 66, 131, 67, 132, 68, 133, 69, 134, 70, 135, 71],
         (testFrame 8).drop 32 ++ List.replicate 32 0) := by
  decide

/-- C26, at an input where the code departs from it: an 8x8 planar YUV 4:2:0 frame (64 luma
bytes, 16 bytes of U, 16 bytes of V) converted to NV21.  The call returns 0 and the luma plane is
unchanged, but the word loop takes 8 off `count` for every 4 samples it converts, so only the
samples 0..11 are interleaved: the output bytes at `w*h + 2*12` and `w*h + 2*12 + 1` are 136 and
137, the bytes `V[8]` and `V[9]` of the input that were there before, not `V[12]` = 140 and
`U[12]` = 76. -/
theorem convertFrame_leaves_last_samples_unconverted :
    (convertFrame (testFrame 16) (List.replicate 96 0) 8 8 V4L2_PIX_FMT_NV21).1 = 0
    ∧ (convertFrame (testFrame 16) (List.replicate 96 0) 8 8 V4L2_PIX_FMT_NV21).2.1.take 64
        = (testFrame 16).take 64
    ∧ (∀ i, i < 12 →
        (convertFrame (testFrame 16) (List.replicate 96 0) 8 8 V4L2_PIX_FMT_NV21).2.1.getD
            (64 + 2 * i) 0 = (testFrame 16).getD (64 + 16 + i) 0
        ∧ (convertFrame (testFrame 16) (List.replicate 96 0) 8 8 V4L2_PIX_FMT_NV21).2.1.getD
            (64 + 2 * i + 1) 0 = (testFrame 16).getD (64 + i) 0)
    ∧ (testFrame 16).getD (64 + 16 + 12) 0 = 140
    ∧ (testFrame 16).getD (64 + 12) 0 = 76
    ∧ (convertFrame (testFrame 16) (List.replicate 96 0) 8 8 V4L2_PIX_FMT_NV21).2.1.getD
        (64 + 2 * 12) 0 = 136
    ∧ (convertFrame (testFrame 16) (List.replicate 96 0) 8 8 V4L2_PIX_FMT_NV21).2.1.getD
        (64 + 2 * 12 + 1) 0 = 137
    ∧ (convertFrame (testFrame 16) (List.replicate 96 0) 8 8 V4L2_PIX_FMT_NV21).2.1.drop 88
        = (testFrame 16).drop 88 := by
  decide

end V4L2Camera

/-! ## Scene modes -/

namespace V4L2Camera

/-- A `setControl` of a control without a hardware id writes the cache slot and returns 0; the
device is not used. -/
theorem setControl_virtual (e : Env) (cam : V4L2Camera) (c : Nat) (v : Int)
    (hc : c < CAMERA_CTRL_NUM) (h0 : ctrlTable.getD c 0 = 0) :
    setControl e cam c v = (0, { cam with ctrlValues := cam.ctrlValues.set c v }) := by
  have hc' : ¬ c ≥ CAMERA_CTRL_NUM := by omega
  simp only [setControl, if_neg hc', if_pos h0]

/-- A `setControl` of a hardware-backed control on a camera that has a device: the cache slot is
written and the value is handed to the device. -/
theorem setControl_hardware (e : Env) (cam : V4L2Camera) (dev : V4L2Device) (c : Nat) (v : Int)
    (hc : c < CAMERA_CTRL_NUM) (h0 : ctrlTable.getD c 0 ≠ 0) (hdev : cam.device = some dev) :
    (setControl e cam c v).2
      = { cam with
          ctrlValues := cam.ctrlValues.set c v
          device := some (dev.setCtrl e.camera (ctrlTable.getD c 0) v).2 } := by
  have hc' : ¬ c ≥ CAMERA_CTRL_NUM := by omega
  simp only [setControl, if_neg hc', if_neg h0, hdev]

/-- The loop of `setSceneMode` on a camera that has a device, over hardware-backed entries: the
entries before the terminator are written to the cache in order, and the device gets one
`setCtrl` for each of them, in the same order. -/
theorem sceneLoop_state (e : Env) (l : List SceneControl) (cam : V4L2Camera) (dev : V4L2Device)
    (hdev : cam.device = some dev)
    (hl : ∀ sc ∈ sceneEntries l, sc.control < CAMERA_CTRL_NUM ∧ ctrlTable.getD sc.control 0 ≠ 0) :
    ∃ dev2,
      sceneLoop e l cam
        = { cam with
            ctrlValues :=
              (sceneEntries l).foldl (fun cv sc => cv.set sc.control sc.value) cam.ctrlValues
            device := some dev2 }
      ∧ calls dev2.trace = calls dev.trace
          ++ (sceneEntries l).map
              (fun sc => DevCall.setCtrl (ctrlTable.getD sc.control 0) sc.value) := by
  induction l generalizing cam dev with
  | nil =>
    refine ⟨dev, ?_, by simp [sceneEntries]⟩
    simp only [sceneLoop, sceneEntries, List.foldl_nil, ← hdev]
  | cons a l ih =>
    simp only [sceneLoop, sceneEntries] at hl ⊢
    split_ifs with h0
    · rw [if_pos h0] at hl
      have ha := hl a (List.mem_cons_self _ _)
      rw [setControl_hardware e cam dev a.control a.value ha.1 ha.2 hdev]
      obtain ⟨dev2, hs2, hc2⟩ := ih
        { cam with
          ctrlValues := cam.ctrlValues.set a.control a.value
          device := some (dev.setCtrl e.camera (ctrlTable.getD a.control 0) a.value).2 }
        (dev.setCtrl e.camera (ctrlTable.getD a.control 0) a.value).2 rfl
        (fun sc hsc => hl sc (List.mem_cons_of_mem _ hsc))
      exact ⟨dev2, by rw [hs2]; rfl, by rw [hc2]; simp⟩
    · refine ⟨dev, ?_, by simp⟩
      simp only [List.foldl_nil, ← hdev]

theorem foldl_set_length (l : List SceneControl) (cv : List Int) :
    (l.foldl (fun cv sc => cv.set sc.control sc.value) cv).length = cv.length := by
  induction l generalizing cv with
  | nil => rfl
  | cons a l ih => simp [ih]

theorem foldl_set_getD_of_not_mem (l : List SceneControl) (cv : List Int) (c : Nat)
    (hc : c ∉ l.map (fun sc => sc.control)) :
    (l.foldl (fun cv sc => cv.set sc.control sc.value) cv).getD c 0 = cv.getD c 0 := by
  induction l generalizing cv with
  | nil => rfl
  | cons a l ih =>
    simp only [List.map_cons, List.mem_cons, not_or] at hc
    simp only [List.foldl_cons]
    rw [ih _ hc.2]
    simp only [List.getD_eq_getElem?_getD, List.getElem?_set]
    rw [if_neg (fun h => hc.1 h.symm)]

/-- Writing entries with pairwise different controls leaves every one of them in the cache. -/
theorem foldl_set_getD_of_mem (l : List SceneControl) (cv : List Int)
    (hnd : (l.map (fun sc => sc.control)).Nodup) (hlt : ∀ sc ∈ l, sc.control < cv.length) :
    ∀ sc ∈ l, (l.foldl (fun cv sc => cv.set sc.control sc.value) cv).getD sc.control 0
      = sc.value := by
  induction l generalizing cv with
  | nil => intro sc hsc; cases hsc
  | cons a l ih =>
    intro sc hsc
    simp only [List.map_cons, List.nodup_cons] at hnd
    simp only [List.foldl_cons]
    rcases List.mem_cons.1 hsc with h | h
    · subst h
      rw [foldl_set_getD_of_not_mem _ _ _ hnd.1]
      have := hlt sc (List.mem_cons_self _ _)
      simp [List.getD_eq_getElem?_getD, List.getElem?_set, this]
    · exact ih _ hnd.2 (fun x hx => by
        simpa using hlt x (List.mem_cons_of_mem _ hx)) sc h

/-- Every scene list of `sceneTable` is its entries followed by the terminator `{ 0, 0 }`; the
entries have pairwise different controls, all of them hardware-backed cache slots below
`CAMERA_CTRL_SCENE_MODE`. -/
theorem sceneTable_lists (s : SensorValues) (l : List SceneControl) (hl : l ∈ sceneTable s) :
    l = sceneEntries l ++ [⟨0, 0⟩]
    ∧ ((sceneEntries l).map (fun sc => sc.control)).Nodup
    ∧ ∀ sc ∈ sceneEntries l,
        sc.control < CAMERA_CTRL_SCENE_MODE ∧ ctrlTable.getD sc.control 0 ≠ 0 := by
  simp only [sceneTable, List.mem_cons, List.mem_singleton, List.not_mem_nil, or_false] at hl
  rcases hl with h | h | h | h | h | h | h | h | h
  all_goals
    subst h
    refine ⟨rfl, ?_, ?_⟩
    · simp [sceneListNone, sceneListPortrait, sceneListLandscape, sceneListSports,
        sceneListPartyIndoor, sceneListBeachSnow, sceneListSunsetCandleLight, sceneListNightshot,
        sceneListFireworks, sceneEntries, CAMERA_CTRL_ISO, CAMERA_CTRL_BRIGHTNESS,
        CAMERA_CTRL_SATURATION, CAMERA_CTRL_SHARPNESS, CAMERA_CTRL_GLAMOUR, CAMERA_CTRL_AUTO_WB,
        CAMERA_CTRL_METERING, CAMERA_CTRL_NIGHTSHOT, CAMERA_CTRL_WB_PRESET]
    · simp [sceneListNone, sceneListPortrait, sceneListLandscape, sceneListSports,
        sceneListPartyIndoor, sceneListBeachSnow, sceneListSunsetCandleLight, sceneListNightshot,
        sceneListFireworks, sceneEntries, CAMERA_CTRL_ISO, CAMERA_CTRL_BRIGHTNESS,
        CAMERA_CTRL_SATURATION, CAMERA_CTRL_SHARPNESS, CAMERA_CTRL_GLAMOUR, CAMERA_CTRL_AUTO_WB,
        CAMERA_CTRL_METERING, CAMERA_CTRL_NIGHTSHOT, CAMERA_CTRL_WB_PRESET,
        CAMERA_CTRL_SCENE_MODE, ctrlTable]

/-- C27: for every scene mode `m` with `0 <= m < CAMERA_SCENE_NUM`, `setSceneMode(m)` on a
camera that has its device returns 0 (the loop over `sceneTable[m]` ends at the terminator of
the list), hands every entry of `sceneTable[m]` to the device in the order of the list, leaves
the control cache holding the listed value for every entry, and a following `getSceneMode()`
returns `m`; for every other `m` it returns `-EINVAL` and the camera, with its cache and the
trace of its device, is what it was. -/
theorem setSceneMode_applies_scene (e : Env) (s : SensorValues) (cam : V4L2Camera) (m : Int)
    (hlen : cam.ctrlValues.length = CAMERA_CTRL_NUM) :
    (0 ≤ m → m < CAMERA_SCENE_NUM → ∀ dev, cam.device = some dev →
      (setSceneMode e s cam m).1 = 0
      ∧ (sceneTable s).getD m.toNat []
          = sceneEntries ((sceneTable s).getD m.toNat []) ++ [⟨0, 0⟩]
      ∧ newCalls dev.trace (setSceneMode e s cam m).2.trace
          = (sceneEntries ((sceneTable s).getD m.toNat [])).map
              (fun sc => DevCall.setCtrl (ctrlTable.getD sc.control 0) sc.value)
      ∧ (∀ sc ∈ sceneEntries ((sceneTable s).getD m.toNat []),
          (setSceneMode e s cam m).2.ctrlValues.getD sc.control 0 = sc.value)
      ∧ (getSceneMode e (setSceneMode e s cam m).2).1 = m)
    ∧ (¬ (0 ≤ m ∧ m < CAMERA_SCENE_NUM) →
        setSceneMode e s cam m = (-EINVAL, cam)) := by
  constructor
  · intro h0 h9 dev hdev
    have hin : ¬ (m < 0 ∨ m ≥ CAMERA_SCENE_NUM) := by omega
    have hnat : m.toNat < (sceneTable s).length := by
      have : (sceneTable s).length = 9 := rfl
      simp only [CAMERA_SCENE_NUM] at h9
      omega
    have hmem : (sceneTable s).getD m.toNat [] ∈ sceneTable s := by
      rw [List.getD_eq_getElem _ _ hnat]
      exact List.getElem_mem _
    obtain ⟨hterm, hnd, hlt⟩ := sceneTable_lists s _ hmem
    have hlt' : ∀ sc ∈ sceneEntries ((sceneTable s).getD m.toNat []),
        sc.control < CAMERA_CTRL_NUM := fun sc hsc => by
      have := (hlt sc hsc).1
      simp only [CAMERA_CTRL_SCENE_MODE, CAMERA_CTRL_NUM] at this ⊢
      omega
    obtain ⟨dev2, hs2, hc2⟩ := sceneLoop_state e ((sceneTable s).getD m.toNat []) cam dev hdev
      (fun sc hsc => ⟨hlt' sc hsc, (hlt sc hsc).2⟩)
    have hset : setSceneMode e s cam m
        = (0, { cam with
            ctrlValues :=
              ((sceneEntries ((sceneTable s).getD m.toNat [])).foldl
                (fun cv sc => cv.set sc.control sc.value) cam.ctrlValues).set
                  CAMERA_CTRL_SCENE_MODE m
            device := some dev2 }) := by
      simp only [setSceneMode, if_neg hin, hs2,
        setControl_virtual e _ CAMERA_CTRL_SCENE_MODE m (by decide) (by decide)]
    have hnum : ¬ CAMERA_CTRL_SCENE_MODE ≥ CAMERA_CTRL_NUM := by decide
    have htab : ctrlTable.getD CAMERA_CTRL_SCENE_MODE 0 = 0 := by decide
    rw [hset]
    refine ⟨rfl, hterm, ?_, ?_, ?_⟩
    · apply newCalls_append
      simp only [V4L2Camera.trace]
      exact hc2
    · intro sc hsc
      have hne : ¬ CAMERA_CTRL_SCENE_MODE = sc.control := fun h => by
        have := (hlt sc hsc).1
        omega
      simp only [List.getD_eq_getElem?_getD, List.getElem?_set, if_neg hne]
      have := foldl_set_getD_of_mem _ cam.ctrlValues hnd
        (fun x hx => by rw [hlen]; exact hlt' x hx) sc hsc
      simpa [List.getD_eq_getElem?_getD] using this
    · simp only [getSceneMode, getControl, if_neg hnum, if_pos htab]
      simp [List.getD_eq_getElem?_getD, List.getElem?_set, foldl_set_length, hlen,
        CAMERA_CTRL_SCENE_MODE, CAMERA_CTRL_NUM]
  · intro h
    have hout : m < 0 ∨ m ≥ CAMERA_SCENE_NUM := by omega
    simp only [setSceneMode, if_pos hout]

theorem setSceneMode_applies_scene_witness :
    (setSceneMode okEnv sensorValues idleCamera 7).1 = 0
    ∧ (getSceneMode okEnv (setSceneMode okEnv sensorValues idleCamera 7).2).1 = 7
    ∧ (setSceneMode okEnv sensorValues idleCamera 7).2.ctrlValues.getD CAMERA_CTRL_NIGHTSHOT 0 = 1
    ∧ (newCalls idleDevice.trace (setSceneMode okEnv sensorValues idleCamera 7).2.trace).length
        = 8
    ∧ setSceneMode okEnv sensorValues idleCamera 9 = (-EINVAL, idleCamera) :=
  have h := (setSceneMode_applies_scene okEnv sensorValues idleCamera 7 (by decide)).1
    (by decide) (by decide) idleDevice rfl
  have h9 := setSceneMode_applies_scene okEnv sensorValues idleCamera 9 (by decide)
  ⟨h.1, h.2.2.2.2, h.2.2.2.1 ⟨CAMERA_CTRL_NIGHTSHOT, 1⟩ (by decide),
   by rw [h.2.2.1]; rfl, h9.2 (by decide)⟩

end V4L2Camera

/-! ## A failed initialisation inside an encode -/

namespace V4L2JpegEncoder

/-- The calls of any `initDevice`, failed or not: the first calls of its sequence, up to the
first one that failed. -/
theorem calls_initDevice_any (k : Driver) (m : Store) (dev : V4L2Device) (d : Nat)
    (config : ImageConfig) :
    ∃ n, calls (initDevice k m dev d config).2.trace
      = calls dev.trace ++ (initCalls d config).take n := by
  simp only [initDevice]
  split_ifs
  · exact ⟨1, by simp [initCalls]⟩
  · exact ⟨2, by simp [initCalls]⟩
  · exact ⟨3, by simp [initCalls]⟩
  · exact ⟨4, by simp [initCalls]⟩
  · exact ⟨5, by simp [initCalls]⟩
  · exact ⟨5, by simp [initCalls]⟩

/-- A failed `initDevice` returns -1. -/
theorem initDevice_failed (k : Driver) (m : Store) (dev : V4L2Device) (d : Nat)
    (config : ImageConfig) (h : (initDevice k m dev d config).1 < 0) :
    (initDevice k m dev d config).1 = -1 := by
  simp only [initDevice] at h ⊢
  split_ifs at h ⊢
  all_goals first | rfl | simp at h

/-- C24 (as amended): when `initDevice` fails inside `encodeImage` (at any step, so also at the
enqueue of buffer 0 or at the stream-on, after the buffers were registered), nothing is issued
to undo the failed initialisation.  If the OUTPUT direction failed, the error is returned at
once: the device and the pools are as the failed `initDevice` left them, and no stream-off was
called.  If the CAPTURE direction failed, only `cleanupDevice(V4L2_OUTPUT)` runs before the
error is returned: the dequeue on OUTPUT, the stream-off on OUTPUT if the dequeue succeeded and
the zero-count `reqBufs` on OUTPUT if the stream-off succeeded too; no stream-off is called on
CAPTURE. -/
theorem encodeImage_init_failure (k : Driver) (m : Store) (enc : V4L2JpegEncoder)
    (dev : V4L2Device) (input : ImageConfig) :
    ((initDevice k m dev V4L2_OUTPUT input).1 < 0 →
      (encodeImage k m enc dev input).1 = -1
      ∧ (encodeImage k m enc dev input).2.2.2 = (initDevice k m dev V4L2_OUTPUT input).2
      ∧ (encodeImage k m enc dev input).2.1 = m
      ∧ (∃ n, newCalls dev.trace (encodeImage k m enc dev input).2.2.2.trace
          = (initCalls V4L2_OUTPUT input).take n)
      ∧ ∀ d, DevCall.setStream d false
          ∉ newCalls dev.trace (encodeImage k m enc dev input).2.2.2.trace)
    ∧ (¬ (initDevice k m dev V4L2_OUTPUT input).1 < 0 →
      (initDevice k m (initDevice k m dev V4L2_OUTPUT input).2 V4L2_CAPTURE
        { enc.output with width := input.width, height := input.height }).1 < 0 →
      (encodeImage k m enc dev input).1 = -1
      ∧ (∃ n, newCalls dev.trace (encodeImage k m enc dev input).2.2.2.trace
          = initCalls V4L2_OUTPUT input
            ++ (initCalls V4L2_CAPTURE
                { enc.output with width := input.width, height := input.height }).take n
            ++ cleanupCalls V4L2_OUTPUT
                (decide (¬ ((initDevice k m (initDevice k m dev V4L2_OUTPUT input).2 V4L2_CAPTURE
                  { enc.output with width := input.width, height := input.height }).2.dequeueBuf
                    k m V4L2_OUTPUT).1 < 0))
                (decide (¬ (((initDevice k m (initDevice k m dev V4L2_OUTPUT input).2 V4L2_CAPTURE
                  { enc.output with width := input.width, height := input.height }).2.dequeueBuf
                    k m V4L2_OUTPUT).2.2.setStream k V4L2_OUTPUT false).1 < 0)))
      ∧ DevCall.setStream V4L2_CAPTURE false
          ∉ newCalls dev.trace (encodeImage k m enc dev input).2.2.2.trace) := by
  constructor
  · intro hout
    have hdev : (encodeImage k m enc dev input).2.2.2 = (initDevice k m dev V4L2_OUTPUT input).2 := by
      simp only [encodeImage, if_pos hout]
    obtain ⟨n, hn⟩ := calls_initDevice_any k m dev V4L2_OUTPUT input
    have hcalls : newCalls dev.trace (encodeImage k m enc dev input).2.2.2.trace
        = (initCalls V4L2_OUTPUT input).take n := by
      rw [hdev]
      exact newCalls_append _ _ _ hn
    refine ⟨?_, hdev, ?_, ⟨n, hcalls⟩, ?_⟩
    · simp only [encodeImage, if_pos hout]
      exact initDevice_failed _ _ _ _ _ hout
    · simp only [encodeImage, if_pos hout]
    · intro d hmem
      rw [hcalls] at hmem
      have := List.mem_of_mem_take hmem
      simp [initCalls] at this
  · intro hout hcap
    obtain ⟨n, hn⟩ := calls_initDevice_any k m (initDevice k m dev V4L2_OUTPUT input).2
      V4L2_CAPTURE { enc.output with width := input.width, height := input.height }
    have hdev : (encodeImage k m enc dev input).2.2.2
        = (cleanupDevice k m (initDevice k m (initDevice k m dev V4L2_OUTPUT input).2 V4L2_CAPTURE
            { enc.output with width := input.width, height := input.height }).2
            V4L2_OUTPUT).2.2 := by
      simp only [encodeImage, if_neg hout, if_pos hcap]
    have hcalls : newCalls dev.trace (encodeImage k m enc dev input).2.2.2.trace
          = initCalls V4L2_OUTPUT input
            ++ (initCalls V4L2_CAPTURE
                { enc.output with width := input.width, height := input.height }).take n
            ++ cleanupCalls V4L2_OUTPUT
                (decide (¬ ((initDevice k m (initDevice k m dev V4L2_OUTPUT input).2 V4L2_CAPTURE
                  { enc.output with width := input.width, height := input.height }).2.dequeueBuf
                    k m V4L2_OUTPUT).1 < 0))
                (decide (¬ (((initDevice k m (initDevice k m dev V4L2_OUTPUT input).2 V4L2_CAPTURE
                  { enc.output with width := input.width, height := input.height }).2.dequeueBuf
                    k m V4L2_OUTPUT).2.2.setStream k V4L2_OUTPUT false).1 < 0)) := by
      apply newCalls_append
      rw [hdev, calls_cleanupDevice, hn, calls_initDevice _ _ _ _ _ hout]
      simp only [cleanupCalls, initCalls]
      split_ifs <;> simp_all
    refine ⟨?_, ⟨n, hcalls⟩, ?_⟩
    · simp only [encodeImage, if_neg hout, if_pos hcap]
      exact initDevice_failed _ _ _ _ _ hcap
    · intro hmem
      rw [hcalls] at hmem
      simp only [List.mem_append] at hmem
      rcases hmem with (h | h) | h
      · simp [initCalls] at h
      · have := List.mem_of_mem_take h
        simp [initCalls] at this
      · simp only [cleanupCalls] at h
        split_ifs at h <;> simp [V4L2_OUTPUT, V4L2_CAPTURE] at h

theorem encodeImage_init_failure_witness :
    (encodeImage noStreamOnDriver encodeStore readyEncoder (V4L2Device.opened 4) rawFrame).1 = -1
    ∧ (encodeImage noCaptureStreamOnDriver encodeStore readyEncoder (V4L2Device.opened 4)
        rawFrame).1 = -1
    ∧ DevCall.setStream V4L2_CAPTURE false
        ∉ newCalls (V4L2Device.opened 4).trace
          (encodeImage noCaptureStreamOnDriver encodeStore readyEncoder (V4L2Device.opened 4)
            rawFrame).2.2.2.trace :=
  ⟨((encodeImage_init_failure noStreamOnDriver encodeStore readyEncoder (V4L2Device.opened 4)
      rawFrame).1 (by decide)).1,
   ((encodeImage_init_failure noCaptureStreamOnDriver encodeStore readyEncoder
      (V4L2Device.opened 4) rawFrame).2 (by decide) (by decide)).1,
   ((encodeImage_init_failure noCaptureStreamOnDriver encodeStore readyEncoder
      (V4L2Device.opened 4) rawFrame).2 (by decide) (by decide)).2.2⟩

/-- C24 (as stated) fails.  On a driver whose stream-on fails, the OUTPUT initialisation of an
encode registers its pool, enqueues buffer 0 and fails at the stream-on; `encodeImage` returns
-1 with the stream-on as its last call, so neither a stream-off nor a zero-count `reqBufs` is
issued for OUTPUT.  On a driver whose stream-on fails for the capture type only, the CAPTURE
pool is registered too, and the calls after the failed stream-on are those of
`cleanupDevice(V4L2_OUTPUT)` alone: nothing is issued for CAPTURE. -/
theorem encodeImage_init_failure_leaves_registration :
    (encodeImage noStreamOnDriver encodeStore readyEncoder (V4L2Device.opened 4) rawFrame).1 = -1
    ∧ newCalls (V4L2Device.opened 4).trace
        (encodeImage noStreamOnDriver encodeStore readyEncoder (V4L2Device.opened 4)
          rawFrame).2.2.2.trace
      = [DevCall.enumFormat V4L2_OUTPUT V4L2_PIX_FMT_YUYV,
         DevCall.setFormat V4L2_OUTPUT 64 64 V4L2_PIX_FMT_YUYV,
         DevCall.reqBufs V4L2_OUTPUT (some 0),
         DevCall.queueBuf V4L2_OUTPUT 0,
         DevCall.setStream V4L2_OUTPUT true]
    ∧ isRegistration encodeStore (DevCall.reqBufs V4L2_OUTPUT (some 0)) = true
    ∧ (encodeImage noStreamOnDriver encodeStore readyEncoder (V4L2Device.opened 4)
        rawFrame).2.2.2.allocation.get V4L2_OUTPUT = some 0
    ∧ (encodeImage noCaptureStreamOnDriver encodeStore readyEncoder (V4L2Device.opened 4)
        rawFrame).1 = -1
    ∧ newCalls (V4L2Device.opened 4).trace
        (encodeImage noCaptureStreamOnDriver encodeStore readyEncoder (V4L2Device.opened 4)
          rawFrame).2.2.2.trace
      = [DevCall.enumFormat V4L2_OUTPUT V4L2_PIX_FMT_YUYV,
         DevCall.setFormat V4L2_OUTPUT 64 64 V4L2_PIX_FMT_YUYV,
         DevCall.reqBufs V4L2_OUTPUT (some 0),
         DevCall.queueBuf V4L2_OUTPUT 0,
         DevCall.setStream V4L2_OUTPUT true,
         DevCall.enumFormat V4L2_CAPTURE V4L2_PIX_FMT_JPEG,
         DevCall.setFormat V4L2_CAPTURE 64 64 V4L2_PIX_FMT_JPEG,
         DevCall.reqBufs V4L2_CAPTURE (some 1),
         DevCall.queueBuf V4L2_CAPTURE 0,
         DevCall.setStream V4L2_CAPTURE true,
         DevCall.dequeueBuf V4L2_OUTPUT,
         DevCall.setStream V4L2_OUTPUT false,
         DevCall.reqBufs V4L2_OUTPUT none]
    ∧ isRegistration encodeStore (DevCall.reqBufs V4L2_CAPTURE (some 1)) = true
    ∧ (encodeImage noCaptureStreamOnDriver encodeStore readyEncoder (V4L2Device.opened 4)
        rawFrame).2.2.2.allocation.get V4L2_CAPTURE = some 1 := by
  decide

end V4L2JpegEncoder

end Jet
